import Mathlib

/-!
# The IVI compositor shell: layout, pending roles, the policy engine and output heads

A shallow embedding of `src/layout.c`, `src/shell.c`, `src/desktop.c`,
`src/policy.c`, `src/policy-default.c` and of the head handling of
`src/compositor.c`.

Conventions of the embedding

* C objects reached through pointers (`struct ivi_surface *`,
  `struct ivi_output *`) live in heaps `Nat → object`; a pointer is the index,
  `NULL` is `none`.
* A `wl_list` is a `List`; `wl_list_insert` on the list head is `cons`, and
  `wl_list_for_each` walks the list from its head.
* `int` values are `Int` (signed overflow is undefined behaviour in C, so the
  arithmetic is the mathematical one); `uint32_t` identifiers are `Nat`.
* A failed `assert` or a dereference of `NULL` aborts: such a function returns
  `Option`, and `none` is the abort.
* Logging, repaint scheduling and damage tracking have no effect on the state
  modelled here and are left out.
-/

namespace Ivi

/-! ## Data model (`src/ivi-compositor.h`) -/

/-- The `struct weston_geometry` record: a rectangle in `int` coordinates. -/
structure weston_geometry where
  x : Int
  y : Int
  width : Int
  height : Int
deriving DecidableEq, Repr

/-- The `enum ivi_surface_role` type. -/
inductive ivi_surface_role where
  | NONE
  | DESKTOP
  | BACKGROUND
  | PANEL
  | POPUP
  | FULLSCREEN
  | SPLIT_V
  | SPLIT_H
  | REMOTE
deriving DecidableEq, Repr

/-- The `enum ivi_output_type` type. -/
inductive ivi_output_type where
  | OUTPUT_LOCAL
  | OUTPUT_REMOTE
  | OUTPUT_WALTHAM
deriving DecidableEq, Repr

/-- Value of `AGL_SHELL_EDGE_TOP` in the generated protocol header. -/
def AGL_SHELL_EDGE_TOP : Nat := 0
/-- Value of `AGL_SHELL_EDGE_BOTTOM` in the generated protocol header. -/
def AGL_SHELL_EDGE_BOTTOM : Nat := 1
/-- Value of `AGL_SHELL_EDGE_LEFT` in the generated protocol header. -/
def AGL_SHELL_EDGE_LEFT : Nat := 2
/-- Value of `AGL_SHELL_EDGE_RIGHT` in the generated protocol header. -/
def AGL_SHELL_EDGE_RIGHT : Nat := 3

/-- Roles of the `agl_shell_desktop` protocol (`enum agl_shell_desktop_app_role`). -/
def AGL_SHELL_DESKTOP_APP_ROLE_POPUP : Nat := 0
/-- Protocol role `fullscreen`. -/
def AGL_SHELL_DESKTOP_APP_ROLE_FULLSCREEN : Nat := 1
/-- Protocol role `split_vertical`. -/
def AGL_SHELL_DESKTOP_APP_ROLE_SPLIT_VERTICAL : Nat := 2
/-- Protocol role `split_horizontal`. -/
def AGL_SHELL_DESKTOP_APP_ROLE_SPLIT_HORIZONTAL : Nat := 3
/-- Protocol role `remote`. -/
def AGL_SHELL_DESKTOP_APP_ROLE_REMOTE : Nat := 4

/-- The six `struct weston_layer` members of `struct ivi_compositor`. -/
inductive layer_id where
  | hidden
  | background
  | normal
  | panel
  | popup
  | fullscreen
deriving DecidableEq, Repr

/-- A `struct weston_view *`: the view of a surface object, or the black
placeholder view `output->fullscreen_view.fs->view` of an output. -/
inductive view_ref where
  | of_surface (surf : Nat)
  | black (output : Nat)
deriving DecidableEq, Repr

/-- The `struct ivi_surface` record together with the parts of its
`weston_desktop_surface` and `weston_view` the shell reads and writes.

The role payload is a C union whose members all start with the output pointer
(`desktop.pending_output`, `bg.output`, `panel.output`, `popup.output`,
`fullscreen.output`, `split.output`, `remote.output`): that shared first word is
the field `output`. The remaining members are only written for the role that
owns them and are kept as separate fields. -/
structure ivi_surface where
  /-- Result of `weston_desktop_surface_get_app_id`. -/
  app_id : Option String
  /-- Result of `weston_desktop_surface_get_geometry`. -/
  geom : weston_geometry
  /-- Result of `weston_desktop_surface_get_maximized`. -/
  maximized : Bool
  /-- Last `weston_desktop_surface_set_maximized` request. -/
  req_maximized : Bool
  /-- Last `weston_desktop_surface_set_fullscreen` request. -/
  req_fullscreen : Bool
  /-- Last `weston_desktop_surface_set_size` request. -/
  req_size : Option (Int × Int)
  /-- Field `view->output`. -/
  view_output : Option Nat
  /-- Last `weston_view_set_position`. -/
  view_pos : Int × Int
  /-- Last `weston_view_set_mask`. -/
  view_mask : Option weston_geometry
  /-- Field `view->is_mapped`. -/
  view_is_mapped : Bool
  /-- Field `view->surface->is_mapped`. -/
  surface_is_mapped : Bool
  activated_by_default : Bool
  advertised_on_launch : Bool
  checked_pending : Bool
  role : ivi_surface_role
  /-- Shared first word of the role union. -/
  output : Option Nat
  /-- Field `desktop.last_output`. -/
  last_output : Option Nat
  /-- Field `panel.edge`. -/
  edge : Nat
  /-- Fields `popup.x`, `popup.y`. -/
  popup_x : Int
  popup_y : Int
  /-- Field `popup.bb`. -/
  popup_bb : weston_geometry
  /-- Field `split.orientation`. -/
  orientation : Nat

/-- A surface as `desktop_surface_added` leaves it after `zalloc`: no role, no
flag set, view unmapped. -/
def ivi_surface.zalloc (app_id : Option String) (geom : weston_geometry) : ivi_surface :=
  { app_id := app_id, geom := geom, maximized := false, req_maximized := false,
    req_fullscreen := false, req_size := none, view_output := none, view_pos := (0, 0),
    view_mask := none, view_is_mapped := false, surface_is_mapped := false,
    activated_by_default := false, advertised_on_launch := false, checked_pending := false,
    role := ivi_surface_role.NONE, output := none, last_output := none, edge := 0,
    popup_x := 0, popup_y := 0, popup_bb := ⟨0, 0, 0, 0⟩, orientation := 0 }

/-- The `struct ivi_output` record; `output` holds the `x`, `y`, `width` and
`height` of its `struct weston_output`. -/
structure ivi_output where
  output : weston_geometry
  background : Option Nat
  top : Option Nat
  bottom : Option Nat
  left : Option Nat
  right : Option Nat
  /-- Black placeholder: `fullscreen_view.fs->view->is_mapped`. -/
  black_view_is_mapped : Bool
  /-- Black placeholder: `fullscreen_view.fs->view->surface->is_mapped`. -/
  black_surface_is_mapped : Bool
  area : weston_geometry
  area_saved : weston_geometry
  active : Option Nat
  previous_active : Option Nat
  app_id : Option String
  type : ivi_output_type

/-- An output as `zalloc` leaves it, with the geometry of its `weston_output`. -/
def ivi_output.zalloc (g : weston_geometry) : ivi_output :=
  { output := g, background := none, top := none, bottom := none, left := none,
    right := none, black_view_is_mapped := false, black_surface_is_mapped := false,
    area := ⟨0, 0, 0, 0⟩, area_saved := ⟨0, 0, 0, 0⟩, active := none,
    previous_active := none, app_id := none, type := ivi_output_type.OUTPUT_LOCAL }

/-- Entry of `ivi_compositor::popup_pending_apps` (`struct pending_popup`). The output
of an entry is never `NULL`: the functions that create entries dereference it. -/
structure pending_popup where
  ioutput : Nat
  app_id : String
  x : Int
  y : Int
  bb : weston_geometry
deriving DecidableEq, Repr

/-- Entry of `ivi_compositor::fullscreen_pending_apps`. -/
structure pending_fullscreen where
  ioutput : Nat
  app_id : String
deriving DecidableEq, Repr

/-- Entry of `ivi_compositor::split_pending_apps`. -/
structure pending_split where
  ioutput : Nat
  app_id : String
  orientation : Nat
deriving DecidableEq, Repr

/-- Entry of `ivi_compositor::remote_pending_apps`. -/
structure pending_remote where
  ioutput : Nat
  app_id : String
deriving DecidableEq, Repr

/-- The synchronous hooks of `struct ivi_policy_api` (`src/policy.h`); a hook
that is `NULL` is `none`. A hook sees the surface it is asked about. -/
structure ivi_policy_api where
  surface_create : Option (ivi_surface → Bool)
  surface_commited : Option (ivi_surface → Bool)
  surface_activate : Option (ivi_surface → Bool)
  surface_deactivate : Option (ivi_surface → Bool)
  surface_activate_by_default : Option (ivi_surface → Bool)
  surface_advertise_state_change : Option (ivi_surface → Bool)
  /-- Hook `shell_bind_interface`, asked about a client for one of the two interfaces. -/
  shell_bind_interface : Option (Nat → String → Bool)

/-- Error codes of `enum agl_shell_error` that the shell posts. -/
inductive agl_shell_error where
  | AGL_SHELL_ERROR_INVALID_ARGUMENT
  | AGL_SHELL_ERROR_BACKGROUND_EXISTS
deriving DecidableEq, Repr

/-- Messages sent to clients: protocol errors posted with
`wl_resource_post_error` and the `agl_shell_desktop` events. -/
inductive shell_message where
  | post_error (code : agl_shell_error) (msg : String)
  | post_no_memory
  | post_implementation_error (client : Nat) (msg : String)
  | post_invalid_object (msg : String)
  | send_application (client : Nat) (app_id : String)
  | send_state_app (client : Nat) (app_id : String) (app_state : Nat) (app_role : Nat)
deriving DecidableEq, Repr

/-- The `struct ivi_compositor` record. `surf` and `out` are the heaps of surface
and output objects; `sent` collects, newest first, what was sent to clients. -/
structure ivi_compositor where
  surf : Nat → ivi_surface
  out : Nat → ivi_output
  activate_by_default : Bool
  /-- Field `shell_client.ready`. -/
  shell_client_ready : Bool
  /-- Field `shell_client.resource`. -/
  shell_client_resource : Option Nat
  /-- Resources of the bound `agl_shell_desktop` clients. -/
  desktop_clients : List Nat
  outputs : List Nat
  surfaces : List Nat
  policy : Option ivi_policy_api
  pending_surfaces : List Nat
  popup_pending_apps : List pending_popup
  fullscreen_pending_apps : List pending_fullscreen
  split_pending_apps : List pending_split
  remote_pending_apps : List pending_remote
  /-- View lists of the six layers. -/
  layers : layer_id → List view_ref
  sent : List shell_message

/-! ## Heap and list helpers -/

/-- Write through a `struct ivi_surface *`. -/
def set_surf (ivi : ivi_compositor) (i : Nat) (f : ivi_surface → ivi_surface) : ivi_compositor :=
  { ivi with surf := Function.update ivi.surf i (f (ivi.surf i)) }

/-- Write through a `struct ivi_output *`. -/
def set_out (ivi : ivi_compositor) (o : Nat) (f : ivi_output → ivi_output) : ivi_compositor :=
  { ivi with out := Function.update ivi.out o (f (ivi.out o)) }

/-- The libweston call `weston_layer_entry_remove`: unlink the view from the layer list
it is in. -/
def weston_layer_entry_remove (ivi : ivi_compositor) (v : view_ref) : ivi_compositor :=
  { ivi with layers := fun l => (ivi.layers l).filter (fun w => w ≠ v) }

/-- The libweston call `weston_layer_entry_insert`: link the view at the head of a layer
list. -/
def weston_layer_entry_insert (ivi : ivi_compositor) (l : layer_id) (v : view_ref) :
    ivi_compositor :=
  { ivi with layers := Function.update ivi.layers l (v :: ivi.layers l) }

/-- The test `policy && policy->api.hook && !policy->api.hook(surf, ivi)`. -/
def policy_refuses (ivi : ivi_compositor)
    (hook : ivi_policy_api → Option (ivi_surface → Bool)) (surf : Nat) : Bool :=
  match ivi.policy with
  | none => false
  | some api =>
    match hook api with
    | none => false
    | some f => !f (ivi.surf surf)

/-- Messages go out to clients, the first of `ms` first; `sent` holds the newest
first. -/
def send_messages (ivi : ivi_compositor) (ms : List shell_message) : ivi_compositor :=
  { ivi with sent := ms.reverse ++ ivi.sent }

/-- The call `wl_resource_post_error`. -/
def wl_resource_post_error (ivi : ivi_compositor) (code : agl_shell_error) (msg : String) :
    ivi_compositor :=
  send_messages ivi [shell_message.post_error code msg]

/-! ## Static layout: background and panels (`src/layout.c`) -/

/-- The function `ivi_background_init` of `src/layout.c`. -/
def ivi_background_init (ivi : ivi_compositor) (output : Nat) : Option ivi_compositor :=
  match (ivi.out output).background with
  | none => some ivi
  | some bg =>
    if (ivi.surf bg).role ≠ .BACKGROUND then none
    else
      let woutput := (ivi.out output).output
      let ivi1 := set_surf ivi bg (fun s =>
        { s with view_output := some output, view_pos := (woutput.x, woutput.y),
                 view_is_mapped := true, surface_is_mapped := true })
      some (weston_layer_entry_insert ivi1 layer_id.background (view_ref.of_surface bg))

/-- The `switch (panel->panel.edge)` of `ivi_panel_init`: the new usable area and
the panel position before the geometry offset is subtracted. -/
def panel_edge_switch (edge : Nat) (woutput geom area : weston_geometry) :
    weston_geometry × Int × Int :=
  if edge = AGL_SHELL_EDGE_TOP then
    ({ area with y := area.y + geom.height, height := area.height - geom.height },
      woutput.x, woutput.y)
  else if edge = AGL_SHELL_EDGE_BOTTOM then
    ({ area with height := area.height - geom.height },
      woutput.x, woutput.y + (woutput.height - geom.height))
  else if edge = AGL_SHELL_EDGE_LEFT then
    ({ area with x := area.x + geom.width, width := area.width - geom.width },
      woutput.x, woutput.y)
  else if edge = AGL_SHELL_EDGE_RIGHT then
    ({ area with width := area.width - geom.width },
      woutput.x + (woutput.width - geom.width), woutput.y)
  else (area, woutput.x, woutput.y)

/-- The function `ivi_panel_init` of `src/layout.c`. -/
def ivi_panel_init (ivi : ivi_compositor) (output : Nat) (panel : Option Nat) :
    Option ivi_compositor :=
  match panel with
  | none => some ivi
  | some p =>
    if (ivi.surf p).role ≠ .PANEL then none
    else
      let woutput := (ivi.out output).output
      let geom := (ivi.surf p).geom
      let r := panel_edge_switch (ivi.surf p).edge woutput geom (ivi.out output).area
      let ivi1 := set_out ivi output (fun o => { o with area := r.1 })
      let x := r.2.1 - geom.x
      let y := r.2.2 - geom.y
      let ivi2 := set_surf ivi1 p (fun s =>
        { s with view_output := some output, view_pos := (x, y),
                 view_is_mapped := true, surface_is_mapped := true })
      some (weston_layer_entry_insert ivi2 layer_id.panel (view_ref.of_surface p))

/-- The function `ivi_layout_init` of `src/layout.c`: the background, then the usable
area reset to the whole output, then the four panels in the order top, bottom, left,
right. -/
def ivi_layout_init (ivi : ivi_compositor) (output : Nat) : Option ivi_compositor := do
  let ivi1 ← ivi_background_init ivi output
  let ivi2 := set_out ivi1 output (fun o =>
    { o with area := ⟨0, 0, o.output.width, o.output.height⟩ })
  let ivi3 ← ivi_panel_init ivi2 output (ivi2.out output).top
  let ivi4 ← ivi_panel_init ivi3 output (ivi3.out output).bottom
  let ivi5 ← ivi_panel_init ivi4 output (ivi4.out output).left
  ivi_panel_init ivi5 output (ivi5.out output).right

/-! ## Black placeholder surface (`src/shell.c`) -/

/-- The function `remove_black_surface` of `src/shell.c`. -/
def remove_black_surface (ivi : ivi_compositor) (output : Nat) : Option ivi_compositor :=
  let o := ivi.out output
  if !(o.black_view_is_mapped || o.black_surface_is_mapped) then none
  else
    let ivi1 := set_out ivi output (fun o =>
      { o with black_view_is_mapped := false, black_surface_is_mapped := false })
    some (weston_layer_entry_remove ivi1 (view_ref.black output))

/-- The function `insert_black_surface` of `src/shell.c`. -/
def insert_black_surface (ivi : ivi_compositor) (output : Nat) : ivi_compositor :=
  let o := ivi.out output
  if o.black_view_is_mapped || o.black_surface_is_mapped then ivi
  else
    let ivi1 := weston_layer_entry_remove ivi (view_ref.black output)
    let ivi2 := weston_layer_entry_insert ivi1 layer_id.fullscreen (view_ref.black output)
    set_out ivi2 output (fun o =>
      { o with black_view_is_mapped := true, black_surface_is_mapped := true })

/-! ## Notifications to `agl_shell_desktop` clients (`src/shell.c`) -/

/-- The function `ivi_find_app` of `src/layout.c`. -/
def ivi_find_app (ivi : ivi_compositor) (app_id : String) : Option Nat :=
  ivi.surfaces.find? (fun i => (ivi.surf i).app_id = some app_id)

/-- The function `agl_shell_desktop_advertise_application_id` of `src/shell.c`. -/
def agl_shell_desktop_advertise_application_id (ivi : ivi_compositor) (surface : Nat) :
    ivi_compositor :=
  if (ivi.surf surface).advertised_on_launch then ivi
  else
    match ivi.desktop_clients, (ivi.surf surface).app_id with
    | [], _ => ivi
    | _ :: _, none => ivi
    | c :: cs, some id =>
      let ivi1 := send_messages ivi
        ((c :: cs).map (fun d => shell_message.send_application d id))
      set_surf ivi1 surface (fun s => { s with advertised_on_launch := true })

/-- The number of an `enum ivi_surface_role` value. -/
def ivi_surface_role.toNat : ivi_surface_role → Nat
  | NONE => 0
  | DESKTOP => 1
  | BACKGROUND => 2
  | PANEL => 3
  | POPUP => 4
  | FULLSCREEN => 5
  | SPLIT_V => 6
  | SPLIT_H => 7
  | REMOTE => 8

/-- The function `shell_advertise_app_state` of `src/shell.c`, for an `app_id` that is
not `NULL`. -/
def shell_advertise_app_state (ivi : ivi_compositor) (app_id : String) (app_state : Nat) :
    ivi_compositor :=
  match ivi_find_app ivi app_id with
  | none => ivi
  | some surf =>
    if policy_refuses ivi (fun api => api.surface_advertise_state_change) surf then ivi
    else
      let app_role :=
        if (ivi.surf surf).role = ivi_surface_role.POPUP then AGL_SHELL_DESKTOP_APP_ROLE_POPUP
        else (ivi.surf surf).role.toNat
      send_messages ivi (ivi.desktop_clients.map (fun d =>
        shell_message.send_state_app d app_id app_state app_role))

/-- Value of `AGL_SHELL_DESKTOP_APP_STATE_ACTIVATED` in the generated protocol header. -/
def AGL_SHELL_DESKTOP_APP_STATE_ACTIVATED : Nat := 0
/-- Value of `AGL_SHELL_DESKTOP_APP_STATE_DEACTIVATED` in the generated protocol header. -/
def AGL_SHELL_DESKTOP_APP_STATE_DEACTIVATED : Nat := 1
/-- Value of `AGL_SHELL_DESKTOP_APP_STATE_DESTROYED` in the generated protocol header. -/
def AGL_SHELL_DESKTOP_APP_STATE_DESTROYED : Nat := 2

/-- The call `shell_advertise_app_state (ivi, app_id, NULL, state)` with the `app_id`
of a surface: `ivi_find_app` runs `strcmp` on it before the `NULL` test, so a `NULL`
identifier aborts as soon as a registered surface has an identifier. -/
def shell_advertise_app_state_of (ivi : ivi_compositor) (app_id : Option String)
    (app_state : Nat) : Option ivi_compositor :=
  match app_id with
  | some id => some (shell_advertise_app_state ivi id app_state)
  | none => if ivi.surfaces.any (fun i => (ivi.surf i).app_id.isSome) then none else some ivi

/-! ## Activation (`src/layout.c`) -/

/-- The function `ivi_layout_activate_complete` of `src/layout.c`. -/
def ivi_layout_activate_complete (ivi : ivi_compositor) (output surf : Nat) : ivi_compositor :=
  let woutput := (ivi.out output).output
  let area := (ivi.out output).area
  let ivi1 :=
    if (ivi.surf surf).view_is_mapped then weston_layer_entry_remove ivi (view_ref.of_surface surf)
    else ivi
  let ivi2 := set_surf ivi1 surf (fun s =>
    { s with view_output := some output, view_pos := (woutput.x + area.x, woutput.y + area.y),
             view_is_mapped := true, surface_is_mapped := true })
  let ivi3 :=
    match (ivi2.out output).active with
    | none => ivi2
    | some a =>
      weston_layer_entry_remove
        (set_surf ivi2 a (fun s => { s with view_is_mapped := false, surface_is_mapped := false }))
        (view_ref.of_surface a)
  let ivi4 := set_out ivi3 output (fun o =>
    { o with previous_active := o.active, active := some surf })
  let ivi5 := weston_layer_entry_insert ivi4 layer_id.normal (view_ref.of_surface surf)
  if (ivi5.surf surf).role = .DESKTOP then
    set_surf ivi5 surf (fun s =>
      { s with last_output := if s.output.isSome then s.output else s.last_output,
               output := none })
  else ivi5

/-- The function `ivi_layout_find_with_app_id` of `src/layout.c`. -/
def ivi_layout_find_with_app_id (app_id : Option String) (ivi : ivi_compositor) : Option Nat :=
  match app_id with
  | none => none
  | some id => ivi.outputs.find? (fun o => (ivi.out o).app_id = some id)

/-- The function `ivi_layout_find_bg_output` of `src/layout.c`. -/
def ivi_layout_find_bg_output (ivi : ivi_compositor) : Option Nat :=
  ivi.outputs.find? (fun o =>
    match (ivi.out o).background with
    | none => false
    | some b => (ivi.surf b).role = .BACKGROUND)

/-- The function `ivi_layout_popup_committed` of `src/layout.c`. -/
def ivi_layout_popup_committed (ivi : ivi_compositor) (surface : Nat) : Option ivi_compositor :=
  let s := ivi.surf surface
  match s.output with
  | none => none
  | some output =>
    let woutput := (ivi.out output).output
    if policy_refuses ivi (fun api => api.surface_activate_by_default) surface
        && !s.activated_by_default then some ivi
    else if s.view_is_mapped then some ivi
    else if s.role ≠ .POPUP then none
    else
      let ivi1 := set_surf ivi surface (fun s =>
        { s with view_output := some output,
                 view_pos := (woutput.x + s.popup_x, woutput.y + s.popup_y),
                 view_mask := if s.popup_bb.width > 0 ∧ s.popup_bb.height > 0
                              then some s.popup_bb else s.view_mask })
      let ivi2 := weston_layer_entry_insert ivi1 layer_id.popup (view_ref.of_surface surface)
      let ivi3 := set_surf ivi2 surface (fun s =>
        { s with surface_is_mapped := true, view_is_mapped := true })
      shell_advertise_app_state_of ivi3 s.app_id AGL_SHELL_DESKTOP_APP_STATE_ACTIVATED

/-- The function `ivi_layout_popup_re_add` of `src/layout.c`. -/
def ivi_layout_popup_re_add (ivi : ivi_compositor) (surface : Nat) : Option ivi_compositor :=
  if (ivi.surf surface).role ≠ .POPUP then none
  else
    let ivi1 :=
      if (ivi.surf surface).view_is_mapped then
        set_surf (weston_layer_entry_remove ivi (view_ref.of_surface surface)) surface
          (fun s => { s with surface_is_mapped := false, view_is_mapped := false })
      else ivi
    let ivi2 := set_surf ivi1 surface (fun s => { s with activated_by_default := true })
    ivi_layout_popup_committed ivi2 surface

/-- The function `ivi_layout_surface_is_split_or_fullscreen` of `src/layout.c`: its
result and the state it leaves (it sets `activated_by_default`). -/
def ivi_layout_surface_is_split_or_fullscreen (ivi : ivi_compositor) (surf : Nat) :
    Bool × ivi_compositor :=
  let r := (ivi.surf surf).role
  if r ≠ .SPLIT_H ∧ r ≠ .SPLIT_V ∧ r ≠ .FULLSCREEN then (false, ivi)
  else
    let ivi1 := set_surf ivi surf (fun s => { s with activated_by_default := true })
    (ivi1.surfaces.any (fun i => i = surf), ivi1)

/-- The test `remote_output && remote_output->active == surf` of
`ivi_layout_activate_by_surf`, with `remote_output` found by the surface's `app_id`. -/
def remote_output_has_active (ivi : ivi_compositor) (surf : Nat) : Bool :=
  match ivi_layout_find_with_app_id (ivi.surf surf).app_id ivi with
  | none => false
  | some ro => (ivi.out ro).active = some surf

/-- The function `ivi_layout_activate_by_surf` of `src/layout.c`. -/
def ivi_layout_activate_by_surf (ivi : ivi_compositor) (output surf : Nat) :
    Option ivi_compositor :=
  if policy_refuses ivi (fun api => api.surface_activate) surf then some ivi
  else if (ivi.surf surf).role = .POPUP then ivi_layout_popup_re_add ivi surf
  else if (ivi.out output).active = some surf then some ivi
  else
    let r := ivi_layout_surface_is_split_or_fullscreen ivi surf
    let ivi1 := r.2
    if r.1 then some ivi1
    else if (ivi1.surf surf).role = .REMOTE ∧ remote_output_has_active ivi1 surf = true then
      some ivi1
    else
      let ivi2 :=
        if (ivi1.surf surf).role = .DESKTOP then
          set_surf ivi1 surf (fun s => { s with output := some output })
        else ivi1
      let s := ivi2.surf surf
      let area := (ivi2.out output).area
      if s.maximized ∧ s.geom.width = area.width ∧ s.geom.height = area.height then
        some (ivi_layout_activate_complete ivi2 output surf)
      else
        let ivi3 := set_surf ivi2 surf (fun s =>
          { s with req_maximized := true, req_size := some (area.width, area.height) })
        if !(ivi3.surf surf).view_is_mapped then
          some (weston_layer_entry_insert
            (set_surf ivi3 surf (fun s =>
              { s with view_is_mapped := true, surface_is_mapped := true,
                       view_output := some output }))
            layer_id.hidden (view_ref.of_surface surf))
        else some ivi3

/-- The function `ivi_layout_activate` of `src/layout.c`. -/
def ivi_layout_activate (ivi : ivi_compositor) (output : Nat) (app_id : Option String) :
    Option ivi_compositor :=
  match app_id with
  | none => some ivi
  | some id =>
    match ivi_find_app ivi id with
    | none => some ivi
    | some surf => ivi_layout_activate_by_surf ivi output surf

/-- The search for the output of a default activation in `ivi_layout_desktop_committed`:
an output whose `app_id` is the surface's (its black placeholder is removed when
mapped), else the first output with a background. The state and `r_output`. -/
def default_activation_output (ivi : ivi_compositor) (app_id : Option String) :
    Option (ivi_compositor × Option Nat) :=
  match ivi_layout_find_with_app_id app_id ivi with
  | some r =>
    if (ivi.out r).black_view_is_mapped || (ivi.out r).black_surface_is_mapped then
      (remove_black_surface ivi r).map (fun ivi1 => (ivi1, some r))
    else some (ivi, some r)
  | none => some (ivi, ivi_layout_find_bg_output ivi)

/-- The branch `surf->role == IVI_SURFACE_ROLE_DESKTOP && !output` of
`ivi_layout_desktop_committed`: activation by default. -/
def ivi_layout_desktop_committed_default (ivi : ivi_compositor) (surf : Nat) :
    Option ivi_compositor :=
  let s := ivi.surf surf
  if policy_refuses ivi (fun api => api.surface_activate_by_default) surf then some ivi
  else if s.activated_by_default then some ivi
  else
    (default_activation_output ivi s.app_id).bind (fun p =>
      match p.2 with
      | none =>
        some (wl_resource_post_error p.1 .AGL_SHELL_ERROR_INVALID_ARGUMENT
          "No valid output found to activate surface by default")
      | some r =>
        if !p.1.activate_by_default then some p.1
        else
          match s.app_id with
          | some id =>
            (ivi_layout_activate p.1 r (some id)).map (fun ivi2 =>
              set_surf ivi2 surf (fun s => { s with activated_by_default := true }))
          | none =>
            (ivi_layout_activate_by_surf p.1 r surf).map (fun ivi2 =>
              set_surf ivi2 surf (fun s => { s with activated_by_default := true })))

/-- The branch `surf->role == IVI_SURFACE_ROLE_REMOTE && output` of
`ivi_layout_desktop_committed`. -/
def ivi_layout_desktop_committed_remote (ivi : ivi_compositor) (surf output : Nat) :
    Option ivi_compositor :=
  let s := ivi.surf surf
  if policy_refuses ivi (fun api => api.surface_activate_by_default) surf then some ivi
  else if s.activated_by_default ∧ (ivi.out output).active = some surf then some ivi
  else
    match s.app_id with
    | some id =>
      (ivi_layout_activate ivi output (some id)).map (fun ivi1 =>
        set_surf ivi1 surf (fun s => { s with activated_by_default := true }))
    | none => some ivi

/-- The function `ivi_layout_desktop_committed` of `src/layout.c`. -/
def ivi_layout_desktop_committed (ivi : ivi_compositor) (surf : Nat) : Option ivi_compositor :=
  let s := ivi.surf surf
  if s.role ≠ .DESKTOP ∧ s.role ≠ .REMOTE then none
  else if s.role = .DESKTOP ∧ s.output = none then ivi_layout_desktop_committed_default ivi surf
  else
    match s.role, s.output with
    | .REMOTE, some output => ivi_layout_desktop_committed_remote ivi surf output
    | _, output =>
      if !s.maximized then some ivi
      else
        match output with
        | none => none
        | some o =>
          if s.geom.width ≠ (ivi.out o).area.width ∨ s.geom.height ≠ (ivi.out o).area.height
          then some ivi
          else some (ivi_layout_activate_complete ivi o surf)

/-- The function `ivi_layout_fullscreen_committed` of `src/layout.c`. -/
def ivi_layout_fullscreen_committed (ivi : ivi_compositor) (surface : Nat) :
    Option ivi_compositor :=
  let s := ivi.surf surface
  match s.output with
  | none => none
  | some output =>
    let woutput := (ivi.out output).output
    if policy_refuses ivi (fun api => api.surface_activate_by_default) surface
        && !s.activated_by_default then some ivi
    else if s.view_is_mapped then some ivi
    else if s.role ≠ .FULLSCREEN then none
    else
      let ivi1 := set_surf ivi surface (fun s =>
        { s with req_fullscreen := true, view_output := some output,
                 view_pos := (woutput.x, woutput.y) })
      let ivi2 := weston_layer_entry_insert ivi1 layer_id.fullscreen (view_ref.of_surface surface)
      let ivi3 := set_surf ivi2 surface (fun s =>
        { s with surface_is_mapped := true, view_is_mapped := true })
      shell_advertise_app_state_of ivi3 s.app_id AGL_SHELL_DESKTOP_APP_STATE_ACTIVATED

/-- The function `ivi_layout_desktop_resize` of `src/layout.c`. -/
def ivi_layout_desktop_resize (ivi : ivi_compositor) (surface : Nat) (area : weston_geometry) :
    ivi_compositor :=
  set_surf ivi surface (fun s =>
    { s with req_size := some (area.width, area.height), view_pos := (area.x, area.y) })

/-- What the `switch (surface->role)` of `ivi_layout_split_committed` computes: the new
usable area and the position `x`, `y` and size `width`, `height` of the split surface. -/
structure split_placement where
  area : weston_geometry
  x : Int
  y : Int
  width : Int
  height : Int
deriving DecidableEq, Repr

/-- The `switch (surface->role)` of `ivi_layout_split_committed`; `none` is the
`default:` assertion. Division is the truncating division of C. -/
def split_switch (role : ivi_surface_role) (woutput area : weston_geometry) :
    Option split_placement :=
  match role with
  | .SPLIT_V =>
    let gw := Int.tdiv area.width 2
    let x := woutput.x + (woutput.width - gw)
    let area1 := { area with width := area.width - gw }
    some { area := area1, x := x, y := area1.y, width := woutput.width - x,
           height := area1.height }
  | .SPLIT_H =>
    let gh := Int.tdiv area.height 2
    let y := area.y
    let area1 := { area with y := area.y + gh, height := area.height - gh }
    some { area := area1, x := area1.x, y := y, width := area1.width, height := area1.height }
  | _ => none

/-- The part of `ivi_layout_split_committed` after the `switch`: the size request, the
resize of the active surface to the new area, and the mapping of the split view. -/
def split_place (ivi : ivi_compositor) (surface output : Nat) (p : split_placement) :
    Option ivi_compositor :=
  let ivi2 := set_out ivi output (fun o => { o with area := p.area })
  let ivi3 := set_surf ivi2 surface (fun s => { s with req_size := some (p.width, p.height) })
  let ivi4 :=
    match (ivi3.out output).active with
    | none => ivi3
    | some a => ivi_layout_desktop_resize ivi3 a (ivi3.out output).area
  let ivi5 := set_surf ivi4 surface (fun s =>
    { s with view_output := some output, view_pos := (p.x, p.y) })
  let ivi6 := weston_layer_entry_insert ivi5 layer_id.normal (view_ref.of_surface surface)
  let ivi7 := set_surf ivi6 surface (fun s =>
    { s with surface_is_mapped := true, view_is_mapped := true })
  shell_advertise_app_state_of ivi7 (ivi.surf surface).app_id AGL_SHELL_DESKTOP_APP_STATE_ACTIVATED

/-- The function `ivi_layout_split_committed` of `src/layout.c`. -/
def ivi_layout_split_committed (ivi : ivi_compositor) (surface : Nat) : Option ivi_compositor :=
  let s := ivi.surf surface
  match s.output with
  | none => none
  | some output =>
    let woutput := (ivi.out output).output
    if policy_refuses ivi (fun api => api.surface_activate_by_default) surface
        && !s.activated_by_default then some ivi
    else if s.view_is_mapped then some ivi
    else if s.role ≠ .SPLIT_H ∧ s.role ≠ .SPLIT_V then none
    else
      let ivi1 := set_out ivi output (fun o => { o with area_saved := o.area })
      match split_switch s.role woutput (ivi1.out output).area with
      | none => none
      | some p => split_place ivi1 surface output p

/-- The function `ivi_layout_get_output_from_surface` of `src/layout.c`. -/
def ivi_layout_get_output_from_surface (s : ivi_surface) : Option Nat :=
  match s.role with
  | .DESKTOP => if s.output.isSome then s.output else s.last_output
  | .NONE => none
  | _ => s.output

/-- The branch `surf->role == IVI_SURFACE_ROLE_DESKTOP` of `ivi_layout_deactivate` on the
output of the surface. -/
def ivi_layout_deactivate_desktop (ivi : ivi_compositor) (o : Nat) : Option ivi_compositor :=
  match (ivi.out o).previous_active with
  | none =>
    match (ivi.out o).active with
    | none => some ivi
    | some a =>
      some (set_out
        (weston_layer_entry_remove
          (set_surf ivi a (fun s => { s with view_is_mapped := false, surface_is_mapped := false }))
          (view_ref.of_surface a))
        o (fun o => { o with active := none }))
  | some p => ivi_layout_activate ivi o (ivi.surf p).app_id

/-- The function `ivi_layout_deactivate` of `src/layout.c`. -/
def ivi_layout_deactivate (ivi : ivi_compositor) (app_id : Option String) :
    Option ivi_compositor :=
  match app_id with
  | none => some ivi
  | some id =>
    match ivi_find_app ivi id with
    | none => some ivi
    | some surf =>
      if policy_refuses ivi (fun api => api.surface_deactivate) surf then some ivi
      else if (ivi.surf surf).role = .DESKTOP then
        match ivi_layout_get_output_from_surface (ivi.surf surf) with
        | none => none
        | some o => ivi_layout_deactivate_desktop ivi o
      else if (ivi.surf surf).role = .POPUP then
        some (weston_layer_entry_remove ivi (view_ref.of_surface surf))
      else some ivi

/-! ## Role setters and pending-role queues (`src/shell.c`) -/

/-- The calls `wl_list_insert (&ivi->surfaces, &surface->link)`. -/
def surfaces_insert (ivi : ivi_compositor) (surface : Nat) : ivi_compositor :=
  { ivi with surfaces := surface :: ivi.surfaces }

/-- The calls `wl_list_remove (&surface->link); wl_list_init (&surface->link)`: the
surface leaves the list it is linked in, `surfaces` or `pending_surfaces`. -/
def surface_unlink (ivi : ivi_compositor) (surface : Nat) : ivi_compositor :=
  { ivi with surfaces := ivi.surfaces.filter (fun i => i ≠ surface),
             pending_surfaces := ivi.pending_surfaces.filter (fun i => i ≠ surface) }

/-- The function `ivi_set_desktop_surface` of `src/shell.c`. -/
def ivi_set_desktop_surface (ivi : ivi_compositor) (surface : Nat) : Option ivi_compositor :=
  if (ivi.surf surface).role ≠ .NONE then none
  else
    let ivi1 := set_surf ivi surface (fun s => { s with role := .DESKTOP })
    some (agl_shell_desktop_advertise_application_id (surfaces_insert ivi1 surface) surface)

/-- The function `ivi_set_desktop_surface_popup` of `src/shell.c`. -/
def ivi_set_desktop_surface_popup (ivi : ivi_compositor) (surface : Nat) :
    Option ivi_compositor :=
  if (ivi.surf surface).role ≠ .NONE then none
  else
    let ivi1 := set_surf ivi surface (fun s => { s with role := .POPUP })
    some (agl_shell_desktop_advertise_application_id (surfaces_insert ivi1 surface) surface)

/-- The function `ivi_set_desktop_surface_fullscreen` of `src/shell.c`. -/
def ivi_set_desktop_surface_fullscreen (ivi : ivi_compositor) (surface : Nat) :
    Option ivi_compositor :=
  if (ivi.surf surface).role ≠ .NONE then none
  else
    let ivi1 := set_surf ivi surface (fun s => { s with role := .FULLSCREEN })
    some (agl_shell_desktop_advertise_application_id (surfaces_insert ivi1 surface) surface)

/-- The function `ivi_set_desktop_surface_remote` of `src/shell.c` (the waltham
notification, a call into a plug-in, is left out). -/
def ivi_set_desktop_surface_remote (ivi : ivi_compositor) (surface : Nat) :
    Option ivi_compositor :=
  if (ivi.surf surface).role ≠ .NONE then none
  else
    let ivi1 := set_surf ivi surface (fun s => { s with role := .REMOTE })
    match (ivi.surf surface).output with
    | none => none
    | some output => do
      let ivi2 ←
        if (ivi1.out output).black_view_is_mapped || (ivi1.out output).black_surface_is_mapped
        then remove_black_surface ivi1 output
        else some ivi1
      some (surfaces_insert ivi2 surface)

/-- The function `ivi_set_desktop_surface_split` of `src/shell.c`. -/
def ivi_set_desktop_surface_split (ivi : ivi_compositor) (surface : Nat) :
    Option ivi_compositor :=
  if (ivi.surf surface).role ≠ .NONE then none
  else
    let ivi1 := set_surf ivi surface (fun s =>
      { s with role := if s.orientation = AGL_SHELL_DESKTOP_APP_ROLE_SPLIT_VERTICAL
                       then .SPLIT_V else .SPLIT_H })
    some (agl_shell_desktop_advertise_application_id (surfaces_insert ivi1 surface) surface)

/-- Store a new list head `ivi->popup_pending_apps`. -/
def set_popup_pending_apps (ivi : ivi_compositor) (l : List pending_popup) : ivi_compositor :=
  { ivi with popup_pending_apps := l }

/-- Store a new list head `ivi->split_pending_apps`. -/
def set_split_pending_apps (ivi : ivi_compositor) (l : List pending_split) : ivi_compositor :=
  { ivi with split_pending_apps := l }

/-- Store a new list head `ivi->fullscreen_pending_apps`. -/
def set_fullscreen_pending_apps (ivi : ivi_compositor) (l : List pending_fullscreen) :
    ivi_compositor :=
  { ivi with fullscreen_pending_apps := l }

/-- Store a new list head `ivi->remote_pending_apps`. -/
def set_remote_pending_apps (ivi : ivi_compositor) (l : List pending_remote) : ivi_compositor :=
  { ivi with remote_pending_apps := l }

/-- The function `ivi_set_pending_desktop_surface_popup` of `src/shell.c`. -/
def ivi_set_pending_desktop_surface_popup (ivi : ivi_compositor) (ioutput : Nat)
    (x y bx bY width height : Int) (app_id : String) : ivi_compositor :=
  set_popup_pending_apps ivi
    ({ ioutput := ioutput, app_id := app_id, x := x, y := y,
       bb := ⟨bx, bY, width, height⟩ } :: ivi.popup_pending_apps)

/-- The function `ivi_set_pending_desktop_surface_fullscreen` of `src/shell.c`. -/
def ivi_set_pending_desktop_surface_fullscreen (ivi : ivi_compositor) (ioutput : Nat)
    (app_id : String) : ivi_compositor :=
  set_fullscreen_pending_apps ivi
    ({ ioutput := ioutput, app_id := app_id } :: ivi.fullscreen_pending_apps)

/-- The function `ivi_set_pending_desktop_surface_split` of `src/shell.c`. -/
def ivi_set_pending_desktop_surface_split (ivi : ivi_compositor) (ioutput : Nat)
    (app_id : String) (orientation : Nat) : ivi_compositor :=
  if orientation ≠ AGL_SHELL_DESKTOP_APP_ROLE_SPLIT_VERTICAL ∧
      orientation ≠ AGL_SHELL_DESKTOP_APP_ROLE_SPLIT_HORIZONTAL then ivi
  else if ivi.surfaces.any (fun i =>
      (ivi.surf i).role = .SPLIT_V ∨ (ivi.surf i).role = .SPLIT_H) then ivi
  else
    set_split_pending_apps ivi
      ({ ioutput := ioutput, app_id := app_id, orientation := orientation }
        :: ivi.split_pending_apps)

/-- The function `ivi_set_pending_desktop_surface_remote` of `src/shell.c`. -/
def ivi_set_pending_desktop_surface_remote (ivi : ivi_compositor) (ioutput : Nat)
    (app_id : String) : ivi_compositor :=
  set_remote_pending_apps ivi
    ({ ioutput := ioutput, app_id := app_id } :: ivi.remote_pending_apps)

/-- The function `ivi_check_pending_desktop_surface_popup` of `src/shell.c`: its result
and the state it leaves. The first entry with the surface's `app_id` is copied into the
surface and removed from the queue. -/
def ivi_check_pending_desktop_surface_popup (ivi : ivi_compositor) (surface : Nat) :
    Bool × ivi_compositor :=
  match (ivi.surf surface).app_id with
  | none => (false, ivi)
  | some id =>
    match ivi.popup_pending_apps.find? (fun p => p.app_id = id) with
    | none => (false, ivi)
    | some p =>
      let ivi1 := set_surf ivi surface (fun s =>
        { s with output := some p.ioutput, popup_x := p.x, popup_y := p.y, popup_bb := p.bb })
      (true, set_popup_pending_apps ivi1
        (ivi.popup_pending_apps.eraseP (fun p => p.app_id = id)))

/-- The function `ivi_check_pending_desktop_surface_split` of `src/shell.c`. -/
def ivi_check_pending_desktop_surface_split (ivi : ivi_compositor) (surface : Nat) :
    Bool × ivi_compositor :=
  match (ivi.surf surface).app_id with
  | none => (false, ivi)
  | some id =>
    match ivi.split_pending_apps.find? (fun p => p.app_id = id) with
    | none => (false, ivi)
    | some p =>
      let ivi1 := set_surf ivi surface (fun s =>
        { s with output := some p.ioutput, orientation := p.orientation })
      (true, set_split_pending_apps ivi1
        (ivi.split_pending_apps.eraseP (fun p => p.app_id = id)))

/-- The function `ivi_check_pending_desktop_surface_fullscreen` of `src/shell.c`. -/
def ivi_check_pending_desktop_surface_fullscreen (ivi : ivi_compositor) (surface : Nat) :
    Bool × ivi_compositor :=
  match (ivi.surf surface).app_id with
  | none => (false, ivi)
  | some id =>
    match ivi.fullscreen_pending_apps.find? (fun p => p.app_id = id) with
    | none => (false, ivi)
    | some p =>
      let ivi1 := set_surf ivi surface (fun s => { s with output := some p.ioutput })
      (true, set_fullscreen_pending_apps ivi1
        (ivi.fullscreen_pending_apps.eraseP (fun p => p.app_id = id)))

/-- The function `ivi_check_pending_desktop_surface_remote` of `src/shell.c`. -/
def ivi_check_pending_desktop_surface_remote (ivi : ivi_compositor) (surface : Nat) :
    Bool × ivi_compositor :=
  match (ivi.surf surface).app_id with
  | none => (false, ivi)
  | some id =>
    match ivi.remote_pending_apps.find? (fun p => p.app_id = id) with
    | none => (false, ivi)
    | some p =>
      let ivi1 := set_surf ivi surface (fun s => { s with output := some p.ioutput })
      (true, set_remote_pending_apps ivi1
        (ivi.remote_pending_apps.eraseP (fun p => p.app_id = id)))

/-- The function `ivi_check_pending_surface` of `src/shell.c`. -/
def ivi_check_pending_surface (ivi : ivi_compositor) (surface : Nat) : Bool :=
  match (ivi.surf surface).app_id with
  | none => false
  | some id =>
    ivi.popup_pending_apps.any (fun p => p.app_id = id) ||
    ivi.split_pending_apps.any (fun p => p.app_id = id) ||
    ivi.fullscreen_pending_apps.any (fun p => p.app_id = id) ||
    ivi.remote_pending_apps.any (fun p => p.app_id = id)

/-- The function `ivi_check_pending_desktop_surface` of `src/shell.c`. -/
def ivi_check_pending_desktop_surface (ivi : ivi_compositor) (surface : Nat) :
    Option ivi_compositor :=
  let r1 := ivi_check_pending_desktop_surface_popup ivi surface
  if r1.1 then do
    let ivi1 ← ivi_set_desktop_surface_popup r1.2 surface
    ivi_layout_popup_committed ivi1 surface
  else
    let r2 := ivi_check_pending_desktop_surface_split r1.2 surface
    if r2.1 then do
      let ivi1 ← ivi_set_desktop_surface_split r2.2 surface
      ivi_layout_split_committed ivi1 surface
    else
      let r3 := ivi_check_pending_desktop_surface_fullscreen r2.2 surface
      if r3.1 then do
        let ivi1 ← ivi_set_desktop_surface_fullscreen r3.2 surface
        ivi_layout_fullscreen_committed ivi1 surface
      else
        let r4 := ivi_check_pending_desktop_surface_remote r3.2 surface
        if r4.1 then do
          let ivi1 ← ivi_set_desktop_surface_remote r4.2 surface
          ivi_layout_desktop_committed ivi1 surface
        else do
          let ivi1 ← ivi_set_desktop_surface r4.2 surface
          ivi_layout_desktop_committed ivi1 surface

/-! ## Surface life cycle (`src/desktop.c`) -/

/-- The function `desktop_surface_added` of `src/desktop.c`. The new object is stored
at `surface`; `app_id` and `geom` are what the client set so far, and `focus` is the
output found by `get_focused_output` or `get_default_output`. -/
def desktop_surface_added (ivi : ivi_compositor) (surface : Nat) (app_id : Option String)
    (geom : weston_geometry) (focus : Option Nat) : ivi_compositor :=
  let ivi1 := { ivi with surf := Function.update ivi.surf surface (ivi_surface.zalloc app_id geom) }
  if policy_refuses ivi1 (fun api => api.surface_create) surface then
    send_messages ivi1 [shell_message.post_no_memory]
  else
    let ivi2 :=
      match ivi_layout_find_with_app_id app_id ivi1, app_id with
      | some active_output, some id => ivi_set_pending_desktop_surface_remote ivi1 active_output id
      | _, _ => ivi1
    let ivi3 :=
      match focus with
      | some o =>
        if ivi2.shell_client_ready ∧ ivi_check_pending_surface ivi2 surface = false then
          set_surf ivi2 surface (fun s =>
            { s with req_maximized := true,
                     req_size := some ((ivi2.out o).area.width, (ivi2.out o).area.height) })
        else ivi2
      | none => ivi2
    { ivi3 with pending_surfaces := surface :: ivi3.pending_surfaces }

/-- The function `desktop_surface_check_last_remote_surfaces` of `src/desktop.c`. -/
def desktop_surface_check_last_remote_surfaces (ivi : ivi_compositor) (role : ivi_surface_role) :
    Bool :=
  ivi.surfaces.countP (fun i => (ivi.surf i).role = role) = 1

/-- The `switch (surface->panel.edge)` of `desktop_surface_removed`; `none` is the
`default:` assertion. -/
def clear_panel_edge (o : ivi_output) (edge : Nat) : Option ivi_output :=
  if edge = AGL_SHELL_EDGE_TOP then some { o with top := none }
  else if edge = AGL_SHELL_EDGE_BOTTOM then some { o with bottom := none }
  else if edge = AGL_SHELL_EDGE_LEFT then some { o with left := none }
  else if edge = AGL_SHELL_EDGE_RIGHT then some { o with right := none }
  else none

/-- The tail of `desktop_surface_removed` from the label `skip_output_asignment`. -/
def desktop_surface_removed_skip (ivi : ivi_compositor) (surface : Nat)
    (app_id : Option String) (output : Option Nat) : ivi_compositor :=
  let ivi1 :=
    match app_id, output with
    | some id, some _ => shell_advertise_app_state ivi id AGL_SHELL_DESKTOP_APP_STATE_DESTROYED
    | _, _ => ivi
  surface_unlink ivi1 surface

/-- The block of `desktop_surface_removed` for a split surface: the active surface of
the output is resized to `area_saved`, and `area_saved` is copied over `area`. -/
def desktop_surface_removed_restore (ivi : ivi_compositor) (role : ivi_surface_role)
    (o : Nat) : ivi_compositor :=
  if role = .SPLIT_H ∨ role = .SPLIT_V then
    set_out
      (match (ivi.out o).active with
        | none => ivi
        | some a => ivi_layout_desktop_resize ivi a (ivi.out o).area_saved)
      o (fun x => { x with area := x.area_saved })
  else ivi

/-- The block of `desktop_surface_removed` that resets the active surface of the
output when it is the removed surface. -/
def desktop_surface_removed_reset_active (ivi : ivi_compositor) (surface o : Nat) :
    ivi_compositor :=
  if (ivi.out o).active = some surface then
    set_out
      (weston_layer_entry_remove
        (set_surf ivi surface (fun x =>
          { x with view_is_mapped := false, surface_is_mapped := false }))
        (view_ref.of_surface surface))
      o (fun x => { x with active := none })
  else ivi

/-- The block of `desktop_surface_removed` that puts the black surface back on a remote
output without background. -/
def desktop_surface_removed_black (ivi : ivi_compositor) (o : Nat) : ivi_compositor :=
  if (desktop_surface_check_last_remote_surfaces ivi .REMOTE ||
      desktop_surface_check_last_remote_surfaces ivi .DESKTOP) ∧
      (ivi.out o).type = .OUTPUT_REMOTE ∧ (ivi.out o).background = none then
    insert_black_surface ivi o
  else ivi

/-- The block of `desktop_surface_removed` that destroys the view of a mapped surface,
which unlinks it from its layer. -/
def desktop_surface_removed_view (ivi : ivi_compositor) (surface : Nat) : ivi_compositor :=
  if (ivi.surf surface).surface_is_mapped then
    weston_layer_entry_remove ivi (view_ref.of_surface surface)
  else ivi

/-- The block of `desktop_surface_removed` that invalidates the panel or background
member of the output. -/
def desktop_surface_removed_member (ivi : ivi_compositor) (role : ivi_surface_role)
    (edge o : Nat) : Option ivi_compositor :=
  if role = .PANEL then
    (clear_panel_edge (ivi.out o) edge).map (fun x => set_out ivi o (fun _ => x))
  else if role = .BACKGROUND then some (set_out ivi o (fun x => { x with background := none }))
  else some ivi

/-- The function `desktop_surface_removed` of `src/desktop.c`. -/
def desktop_surface_removed (ivi : ivi_compositor) (surface : Nat) : Option ivi_compositor :=
  match ivi_layout_get_output_from_surface (ivi.surf surface) with
  | none =>
    if (ivi.surf surface).role = .NONE ∨ (ivi.surf surface).role = .DESKTOP then
      some (desktop_surface_removed_skip ivi surface (ivi.surf surface).app_id none)
    else none
  | some o =>
    (desktop_surface_removed_member
      (desktop_surface_removed_view
        (desktop_surface_removed_black
          (desktop_surface_removed_reset_active
            (desktop_surface_removed_restore ivi (ivi.surf surface).role o) surface o) o)
        surface)
      (ivi.surf surface).role (ivi.surf surface).edge o).map
      (fun r => desktop_surface_removed_skip r surface (ivi.surf surface).app_id (some o))

/-- The statements `wl_list_remove; wl_list_init; ivi_check_pending_desktop_surface
(surface); surface->checked_pending = true`, which `desktop_committed` and the second
loop of `shell_ready` run on a surface. -/
def check_pending_and_mark (ivi : ivi_compositor) (surface : Nat) : Option ivi_compositor :=
  (ivi_check_pending_desktop_surface (surface_unlink ivi surface) surface).map
    (fun r => set_surf r surface (fun s => { s with checked_pending := true }))

/-- The `switch (surface->role)` of `desktop_committed`. -/
def desktop_committed_switch (ivi : ivi_compositor) (surface : Nat) : Option ivi_compositor :=
  match (ivi.surf surface).role with
  | .DESKTOP => ivi_layout_desktop_committed ivi surface
  | .REMOTE => ivi_layout_desktop_committed ivi surface
  | .POPUP => ivi_layout_popup_committed ivi surface
  | .FULLSCREEN => ivi_layout_fullscreen_committed ivi surface
  | .SPLIT_H => ivi_layout_split_committed ivi surface
  | .SPLIT_V => ivi_layout_split_committed ivi surface
  | _ => some ivi

/-- The emission of `signal_advertise_app` in `desktop_committed`. -/
def desktop_committed_advertise (ivi : ivi_compositor) (surface : Nat) : ivi_compositor :=
  if (ivi.surf surface).advertised_on_launch = false ∧ ivi.desktop_clients ≠ [] then
    agl_shell_desktop_advertise_application_id ivi surface
  else ivi

/-- The function `desktop_committed` of `src/desktop.c`. -/
def desktop_committed (ivi : ivi_compositor) (surface : Nat) : Option ivi_compositor :=
  if policy_refuses ivi (fun api => api.surface_commited) surface then some ivi
  else
    (if ivi.shell_client_ready ∧ (ivi.surf surface).checked_pending = false then
        check_pending_and_mark ivi surface
      else some ivi).bind
      (fun ivi1 => desktop_committed_switch (desktop_committed_advertise ivi1 surface) surface)

/-! ## Requests of the `agl_shell` and `agl_shell_desktop` interfaces (`src/shell.c`) -/

/-- Body of the first loop of `shell_ready` for one output. -/
def shell_ready_output (ivi : ivi_compositor) (output : Nat) : Option ivi_compositor :=
  (if ((ivi.out output).background).isSome then remove_black_surface ivi output
    else some ivi).bind
    (fun ivi1 => ivi_layout_init ivi1 output)

/-- Body of the second loop of `shell_ready` for one pending surface. -/
def shell_ready_surface (ivi : ivi_compositor) (surface : Nat) : Option ivi_compositor :=
  check_pending_and_mark ivi surface

/-- The function `shell_ready` of `src/shell.c`. -/
def shell_ready (ivi : ivi_compositor) : Option ivi_compositor :=
  if ivi.shell_client_ready then some ivi
  else
    (ivi.outputs.foldlM shell_ready_output { ivi with shell_client_ready := true }).bind
      (fun ivi2 => ivi2.pending_surfaces.foldlM shell_ready_surface ivi2)

/-- The function `shell_set_background` of `src/shell.c`; `surface` is `none` when the
`wl_surface` is not a desktop surface. -/
def shell_set_background (ivi : ivi_compositor) (surface : Option Nat) (output : Nat) :
    ivi_compositor :=
  match surface with
  | none =>
    wl_resource_post_error ivi .AGL_SHELL_ERROR_INVALID_ARGUMENT
      "surface must be a desktop surface"
  | some surf =>
    if (ivi.surf surf).role ≠ .NONE then
      wl_resource_post_error ivi .AGL_SHELL_ERROR_INVALID_ARGUMENT
        "surface already has another ivi role"
    else if ((ivi.out output).background).isSome then
      wl_resource_post_error ivi .AGL_SHELL_ERROR_BACKGROUND_EXISTS
        "output already has background"
    else
      let ivi1 := set_surf ivi surf (fun s =>
        { s with checked_pending := true, role := .BACKGROUND, output := some output })
      let ivi2 := surface_unlink ivi1 surf
      let ivi3 := set_out ivi2 output (fun o => { o with background := some surf })
      set_surf ivi3 surf (fun s =>
        { s with req_maximized := true,
                 req_size := some ((ivi3.out output).output.width,
                                   (ivi3.out output).output.height) })

/-- The first `switch (edge)` of `shell_set_panel`: the member of the output the edge
selects, `none` for the `default:` case. -/
def panel_member (o : ivi_output) (edge : Nat) : Option (Option Nat) :=
  if edge = AGL_SHELL_EDGE_TOP then some o.top
  else if edge = AGL_SHELL_EDGE_BOTTOM then some o.bottom
  else if edge = AGL_SHELL_EDGE_LEFT then some o.left
  else if edge = AGL_SHELL_EDGE_RIGHT then some o.right
  else none

/-- The assignment `*member = surface` of `shell_set_panel`. -/
def set_panel_member (o : ivi_output) (edge : Nat) (surface : Nat) : ivi_output :=
  if edge = AGL_SHELL_EDGE_TOP then { o with top := some surface }
  else if edge = AGL_SHELL_EDGE_BOTTOM then { o with bottom := some surface }
  else if edge = AGL_SHELL_EDGE_LEFT then { o with left := some surface }
  else if edge = AGL_SHELL_EDGE_RIGHT then { o with right := some surface }
  else o

/-- The function `shell_set_panel` of `src/shell.c`; `surface` is `none` when the
`wl_surface` is not a desktop surface. -/
def shell_set_panel (ivi : ivi_compositor) (surface : Option Nat) (output : Nat) (edge : Nat) :
    ivi_compositor :=
  match surface with
  | none =>
    wl_resource_post_error ivi .AGL_SHELL_ERROR_INVALID_ARGUMENT
      "surface must be a desktop surface"
  | some surf =>
    if (ivi.surf surf).role ≠ .NONE then
      wl_resource_post_error ivi .AGL_SHELL_ERROR_INVALID_ARGUMENT
        "surface already has another ivi role"
    else
      match panel_member (ivi.out output) edge with
      | none =>
        wl_resource_post_error ivi .AGL_SHELL_ERROR_INVALID_ARGUMENT "invalid edge for panel"
      | some (some _) =>
        wl_resource_post_error ivi .AGL_SHELL_ERROR_BACKGROUND_EXISTS
          "output already has panel on this edge"
      | some none =>
        let ivi1 := set_surf ivi surf (fun s =>
          { s with checked_pending := true, role := .PANEL, output := some output,
                   edge := edge })
        let ivi2 := surface_unlink ivi1 surf
        let ivi3 := set_out ivi2 output (fun o => set_panel_member o edge surf)
        let woutput := (ivi3.out output).output
        let width : Int :=
          if edge = AGL_SHELL_EDGE_TOP ∨ edge = AGL_SHELL_EDGE_BOTTOM then woutput.width else 0
        let height : Int :=
          if edge = AGL_SHELL_EDGE_LEFT ∨ edge = AGL_SHELL_EDGE_RIGHT then woutput.height else 0
        set_surf ivi3 surf (fun s => { s with req_size := some (width, height) })

/-- The function `shell_activate_app` of `src/shell.c`. -/
def shell_activate_app (ivi : ivi_compositor) (app_id : String) (output : Nat) :
    Option ivi_compositor :=
  ivi_layout_activate ivi output (some app_id)

/-- The function `shell_desktop_activate_app` of `src/shell.c`. -/
def shell_desktop_activate_app (ivi : ivi_compositor) (app_id : String) (output : Nat) :
    Option ivi_compositor := do
  let ivi1 ← ivi_layout_activate ivi output (some app_id)
  some (shell_advertise_app_state ivi1 app_id AGL_SHELL_DESKTOP_APP_STATE_ACTIVATED)

/-- The function `shell_deactivate_app` of `src/shell.c`. -/
def shell_deactivate_app (ivi : ivi_compositor) (app_id : String) : Option ivi_compositor := do
  let ivi1 ← ivi_layout_deactivate ivi (some app_id)
  some (shell_advertise_app_state ivi1 app_id AGL_SHELL_DESKTOP_APP_STATE_DEACTIVATED)

/-- The function `shell_desktop_set_app_property` of `src/shell.c`. -/
def shell_desktop_set_app_property (ivi : ivi_compositor) (app_id : String) (role : Nat)
    (x y bx bY width height : Int) (output : Nat) : ivi_compositor :=
  if role = AGL_SHELL_DESKTOP_APP_ROLE_POPUP then
    ivi_set_pending_desktop_surface_popup ivi output x y bx bY width height app_id
  else if role = AGL_SHELL_DESKTOP_APP_ROLE_FULLSCREEN then
    ivi_set_pending_desktop_surface_fullscreen ivi output app_id
  else if role = AGL_SHELL_DESKTOP_APP_ROLE_SPLIT_VERTICAL ∨
      role = AGL_SHELL_DESKTOP_APP_ROLE_SPLIT_HORIZONTAL then
    ivi_set_pending_desktop_surface_split ivi output app_id role
  else if role = AGL_SHELL_DESKTOP_APP_ROLE_REMOTE then
    ivi_set_pending_desktop_surface_remote ivi output app_id
  else ivi

/-- Body of the output loop of `unbind_agl_shell`. -/
def unbind_agl_shell_output (ivi : ivi_compositor) (output : Nat) : ivi_compositor :=
  let ivi1 :=
    match (ivi.out output).active with
    | none => ivi
    | some a =>
      set_out
        (weston_layer_entry_remove
          (set_surf ivi a (fun s => { s with view_is_mapped := false, surface_is_mapped := false }))
          (view_ref.of_surface a))
        output (fun o => { o with active := none })
  insert_black_surface ivi1 output

/-- The function `unbind_agl_shell` of `src/shell.c`. -/
def unbind_agl_shell (ivi : ivi_compositor) : ivi_compositor :=
  let ivi1 := ivi.outputs.foldl unbind_agl_shell_output ivi
  { ivi1 with surfaces := [], pending_surfaces := [], shell_client_ready := false,
              shell_client_resource := none }

/-- The function `bind_agl_shell` of `src/shell.c`; `resource` is the new resource. -/
def bind_agl_shell (ivi : ivi_compositor) (client resource : Nat) : ivi_compositor :=
  let refused :=
    match ivi.policy with
    | none => false
    | some api =>
      match api.shell_bind_interface with
      | none => false
      | some f => !f client "agl_shell"
  if refused then
    send_messages ivi
      [shell_message.post_implementation_error client "client not authorized to use agl_shell"]
  else if ivi.shell_client_resource.isSome then
    send_messages ivi [shell_message.post_invalid_object "agl_shell has already been bound"]
  else { ivi with shell_client_resource := some resource }

/-! ## The policy engine (`src/policy.c`, `src/policy.h`, `src/policy-default.c`) -/

/-- Value of `AGL_SHELL_POLICY_STATE_INVALID` (`src/policy.h`). -/
def AGL_SHELL_POLICY_STATE_INVALID : Nat := 0
/-- Value of `AGL_SHELL_POLICY_EVENT_SHOW` (`src/policy.h`). -/
def AGL_SHELL_POLICY_EVENT_SHOW : Nat := 0
/-- Value of `AGL_SHELL_POLICY_EVENT_HIDE` (`src/policy.h`). -/
def AGL_SHELL_POLICY_EVENT_HIDE : Nat := 1

/-- The `struct state_event` record. -/
structure state_event where
  value : Nat
  name : String
deriving DecidableEq, Repr

/-- The `struct ivi_a_policy` record: one rule. The `timer` member is left out: it is
written when a timer is armed and read nowhere else. -/
structure ivi_a_policy where
  app_id : String
  state : Nat
  event : Nat
  timeout : Nat
  output : Nat
deriving DecidableEq, Repr

/-- The rule engine of `struct ivi_policy`: the two rule hooks of its `api`, the rule
list, the states and the vocabularies. The rule callback works on the compositor, as
the callbacks of the engines in `src/` do. -/
structure ivi_policy where
  policy_rule_allow_to_add : Option (ivi_compositor → Bool)
  policy_rule_try_event : Option (ivi_a_policy → ivi_compositor → Option ivi_compositor)
  policies : List ivi_a_policy
  current_state : Nat
  previous_state : Nat
  state_change_in_progress : Bool
  states : List state_event
  events : List state_event

/-- What the engine did with a rule, in the order it happened: a call of
`ivi_policy_try_event` on a rule, or a timer armed for the rule stored at an address. -/
inductive policy_step where
  | try_event (a_policy : ivi_a_policy)
  | timer_armed (rule : Nat) (ms : Nat)
deriving DecidableEq, Repr

/-- The compositor, its policy engine and the timers of the event loop. A timer is the
address of its rule and its delay in milliseconds; the address of a rule is the number
of rules that were in the list when it was added. `trace` records the steps taken. -/
structure policy_world where
  ivi : ivi_compositor
  policy : ivi_policy
  timers : List (Nat × Nat)
  trace : List policy_step

/-- The rule stored at an address: rules are linked at the head of the list and never
removed, so the rule added when the list held `ptr` rules is the one `ptr` places from
the tail. -/
def rule_at (policy : ivi_policy) (ptr : Nat) : Option ivi_a_policy :=
  policy.policies.reverse[ptr]?

/-- The function `ivi_policy_add_state` of `src/policy.c`. -/
def ivi_policy_add_state (policy : ivi_policy) (state : Nat) (value : String) : ivi_policy :=
  { policy with states := { value := state, name := value } :: policy.states }

/-- The function `ivi_policy_add_event` of `src/policy.c`. -/
def ivi_policy_add_event (policy : ivi_policy) (ev : Nat) (value : String) : ivi_policy :=
  { policy with events := { value := ev, name := value } :: policy.events }

/-- The function `ivi_policy_create` of `src/policy.c` with the hooks of `api`: both
states invalid, no rule, and the default vocabularies, each name linked at the head. -/
def ivi_policy_create (allow_to_add : Option (ivi_compositor → Bool))
    (try_event : Option (ivi_a_policy → ivi_compositor → Option ivi_compositor)) : ivi_policy :=
  { policy_rule_allow_to_add := allow_to_add, policy_rule_try_event := try_event,
    policies := [], current_state := AGL_SHELL_POLICY_STATE_INVALID,
    previous_state := AGL_SHELL_POLICY_STATE_INVALID, state_change_in_progress := false,
    states := [⟨3, "reverse"⟩, ⟨2, "stop"⟩, ⟨1, "start"⟩, ⟨0, "invalid"⟩],
    events := [⟨1, "hide"⟩, ⟨0, "show"⟩] }

/-- The function `ivi_policy_try_event` of `src/policy.c`. -/
def ivi_policy_try_event (w : policy_world) (a_policy : ivi_a_policy) : Option policy_world :=
  let w1 := { w with trace := w.trace ++ [policy_step.try_event a_policy] }
  match w.policy.policy_rule_try_event with
  | none => some w1
  | some f => (f a_policy w1.ivi).map (fun i => { w1 with ivi := i })

/-- The function `ivi_policy_setup_event_timeout` of `src/policy.c`: a timer source for
the rule at address `ptr` is added to the event loop and armed for the rule's timeout. -/
def ivi_policy_setup_event_timeout (w : policy_world) (ptr : Nat) (a_policy : ivi_a_policy) :
    policy_world :=
  { w with timers := w.timers ++ [(ptr, a_policy.timeout)],
           trace := w.trace ++ [policy_step.timer_armed ptr a_policy.timeout] }

/-- The `wl_list_for_each` loop of `ivi_policy_check_policies` over the rest of the
rule list. -/
def ivi_policy_check_policies_loop (w : policy_world) : List ivi_a_policy → Option policy_world
  | [] => some w
  | a_policy :: rest =>
    if w.policy.current_state = a_policy.state then
      if a_policy.timeout > 0 then
        ivi_policy_check_policies_loop
          (ivi_policy_setup_event_timeout w rest.length a_policy) rest
      else
        match ivi_policy_try_event w a_policy with
        | none => none
        | some w1 => ivi_policy_check_policies_loop w1 rest
    else ivi_policy_check_policies_loop w rest

/-- The function `ivi_policy_check_policies` of `src/policy.c`. -/
def ivi_policy_check_policies (w : policy_world) : Option policy_world :=
  let w1 := { w with policy := { w.policy with state_change_in_progress := true } }
  (ivi_policy_check_policies_loop w1 w1.policy.policies).map (fun w2 =>
    { w2 with policy := { w2.policy with previous_state := w2.policy.current_state,
                                         state_change_in_progress := false } })

/-- The function `ivi_policy_state_is_known` of `src/policy.c`. -/
def ivi_policy_state_is_known (state : Nat) (policy : ivi_policy) : Bool :=
  policy.states.any (fun ev_st => ev_st.value = state)

/-- The function `ivi_policy_add` of `src/policy.c`: the return value and the engine
it leaves. -/
def ivi_policy_add (ivi : ivi_compositor) (policy : ivi_policy) (app_id : String)
    (state event timeout output : Nat) : Int × ivi_policy :=
  if policy.state_change_in_progress then (-1, policy)
  else if (match policy.policy_rule_allow_to_add with
           | none => false
           | some f => !f ivi) then (-1, policy)
  else if !ivi_policy_state_is_known state policy then (-1, policy)
  else
    (0, { policy with policies :=
      { app_id := app_id, state := state, event := event, timeout := timeout,
        output := output } :: policy.policies })

/-- The function `ivi_policy_state_change` of `src/policy.c`: the return value and the
world it leaves; `none` when a rule callback aborts. -/
def ivi_policy_state_change (w : policy_world) (state : Nat) : Option (Int × policy_world) :=
  if w.policy.current_state = state then some (-1, w)
  else if !ivi_policy_state_is_known state w.policy then some (-1, w)
  else
    let w1 := { w with policy := { w.policy with current_state := state } }
    (ivi_policy_check_policies w1).map (fun w2 => (0, w2))

/-- The function `ivi_policy_try_event_timeout` of `src/policy.c`, run by the event
loop when the armed timer number `k` expires: a timer fires once, with the rule its
address points to. -/
def ivi_policy_try_event_timeout (w : policy_world) (k : Nat) : Option policy_world :=
  match w.timers[k]? with
  | none => some w
  | some t =>
    match rule_at w.policy t.1 with
    | none => none
    | some a_policy => ivi_policy_try_event { w with timers := w.timers.eraseIdx k } a_policy

/-- The function `ivi_policy_default_try_event` of `src/policy-default.c`. -/
def ivi_policy_default_try_event (a_policy : ivi_a_policy) (ivi : ivi_compositor) :
    Option ivi_compositor :=
  if a_policy.event = AGL_SHELL_POLICY_EVENT_SHOW then
    ivi_layout_activate ivi a_policy.output (some a_policy.app_id)
  else if a_policy.event = AGL_SHELL_POLICY_EVENT_HIDE then
    ivi_layout_deactivate ivi (some a_policy.app_id)
  else some ivi

/-- The hook `ivi_policy_default_allow_to_add` of `src/policy-default.c`. -/
def ivi_policy_default_allow_to_add (_ivi : ivi_compositor) : Bool := true

/-- The synchronous hooks of `src/policy-default.c`: each allows everything. -/
def ivi_policy_default_api : ivi_policy_api :=
  { surface_create := some (fun _ => true), surface_commited := some (fun _ => true),
    surface_activate := some (fun _ => true), surface_deactivate := some (fun _ => true),
    surface_activate_by_default := some (fun _ => true),
    surface_advertise_state_change := some (fun _ => true),
    shell_bind_interface := some (fun _ _ => true) }

/-- The function `ivi_policy_init` of `src/policy-default.c`: the engine created from
the default `policy_api`. -/
def ivi_policy_default : ivi_policy :=
  ivi_policy_create (some ivi_policy_default_allow_to_add) (some ivi_policy_default_try_event)

/-! ## Specification vocabulary and scenarios -/

/-- Width a panel member takes from the usable area: the width of the panel's
geometry, `0` for an absent panel. -/
def panel_width (ivi : ivi_compositor) (panel : Option Nat) : Int :=
  match panel with
  | none => 0
  | some p => (ivi.surf p).geom.width

/-- Height a panel member takes from the usable area: the height of the panel's
geometry, `0` for an absent panel. -/
def panel_height (ivi : ivi_compositor) (panel : Option Nat) : Int :=
  match panel with
  | none => 0
  | some p => (ivi.surf p).geom.height

/-- A panel member of an output is consistent: the surface it refers to has the panel
role and the edge of the member, as `shell_set_panel` leaves it. -/
def panel_member_ok (ivi : ivi_compositor) (panel : Option Nat) (edge : Nat) : Bool :=
  match panel with
  | none => true
  | some p => (ivi.surf p).role = .PANEL ∧ (ivi.surf p).edge = edge

/-- The background member of an output is consistent: the surface it refers to has the
background role, as `shell_set_background` leaves it. -/
def background_member_ok (ivi : ivi_compositor) (bg : Option Nat) : Bool :=
  match bg with
  | none => true
  | some b => (ivi.surf b).role = .BACKGROUND

/-- The static members of an output are consistent. -/
def output_members_ok (ivi : ivi_compositor) (o : Nat) : Bool :=
  background_member_ok ivi (ivi.out o).background &&
  panel_member_ok ivi (ivi.out o).top AGL_SHELL_EDGE_TOP &&
  panel_member_ok ivi (ivi.out o).bottom AGL_SHELL_EDGE_BOTTOM &&
  panel_member_ok ivi (ivi.out o).left AGL_SHELL_EDGE_LEFT &&
  panel_member_ok ivi (ivi.out o).right AGL_SHELL_EDGE_RIGHT

/-- A compositor after start-up with one output of the given geometry: no surface, no
shell client, the black placeholder of the output mapped in the fullscreen layer
(`ivi_shell_init_black_fs`), and the given policy hooks. -/
def compositor_with_output (g : weston_geometry) (policy : Option ivi_policy_api) :
    ivi_compositor :=
  { surf := fun _ => ivi_surface.zalloc none ⟨0, 0, 0, 0⟩,
    out := fun _ =>
      { ivi_output.zalloc g with black_view_is_mapped := true, black_surface_is_mapped := true },
    activate_by_default := true, shell_client_ready := false, shell_client_resource := none,
    desktop_clients := [], outputs := [0], surfaces := [], policy := policy,
    pending_surfaces := [], popup_pending_apps := [], fullscreen_pending_apps := [],
    split_pending_apps := [], remote_pending_apps := [],
    layers := fun l => if l = layer_id.fullscreen then [view_ref.black 0] else [],
    sent := [] }

/-- The client of a surface acknowledges a configure event: from then on
`weston_desktop_surface_get_geometry` and `weston_desktop_surface_get_maximized` return
the new values. The shell only reads them. -/
def client_ack_configure (ivi : ivi_compositor) (surface : Nat) (geom : weston_geometry)
    (maximized : Bool) : ivi_compositor :=
  set_surf ivi surface (fun s => { s with geom := geom, maximized := maximized })

/-- Scenario A before `ready`, with the given policy hooks: output 0 of 1920x1080 at the
origin, surface 1 with a 1920x48 geometry registered as top panel, then surface 2
registered as background. -/
def scenario_a_with (policy : Option ivi_policy_api) : ivi_compositor :=
  let s0 := compositor_with_output ⟨0, 0, 1920, 1080⟩ policy
  let s1 := desktop_surface_added s0 1 (some "panel") ⟨0, 0, 1920, 48⟩ (some 0)
  let s2 := desktop_surface_added s1 2 (some "homescreen") ⟨0, 0, 1920, 1080⟩ (some 0)
  let s3 := shell_set_panel s2 (some 1) 0 AGL_SHELL_EDGE_TOP
  shell_set_background s3 (some 2) 0

/-- Scenario B up to the split request: after scenario A the shell is `ready`, surface 4
of the application "app" is created, activated by default, maximized by its client to
the usable area and committed again, so that it is the active surface of output 0; then
"nav" is given the vertical split role on output 0 and its surface 3 is created. -/
def scenario_b_with (policy : Option ivi_policy_api) : Option ivi_compositor := do
  let s1 ← shell_ready (scenario_a_with policy)
  let s2 := desktop_surface_added s1 4 (some "app") ⟨0, 0, 640, 480⟩ (some 0)
  let s3 ← desktop_committed s2 4
  let s4 := client_ack_configure s3 4 ⟨0, 0, 1920, 1032⟩ true
  let s5 ← desktop_committed s4 4
  let s6 := shell_desktop_set_app_property s5 "nav" AGL_SHELL_DESKTOP_APP_ROLE_SPLIT_VERTICAL
    0 0 0 0 0 0 0
  some (desktop_surface_added s6 3 (some "nav") ⟨0, 0, 800, 600⟩ (some 0))

/-- Policy hooks that allow everything except the default activation of the
application "nav", which `surface_activate_by_default` refuses. -/
def policy_refusing_nav : ivi_policy_api :=
  { ivi_policy_default_api with
    surface_activate_by_default := some (fun s => decide (s.app_id ≠ some "nav")) }

/-- Scenario B continued: the split surface 3 commits twice. -/
def scenario_b_committed (policy : Option ivi_policy_api) : Option ivi_compositor :=
  ((scenario_b_with policy).bind (fun s => desktop_committed s 3)).bind
    (fun s => desktop_committed s 3)

/-- Scenario B ended: the split surface 3 commits twice and is removed. -/
def scenario_b_removed (policy : Option ivi_policy_api) : Option ivi_compositor :=
  (scenario_b_committed policy).bind (fun s => desktop_surface_removed s 3)

/-- Scenario A under the default policy. -/
def scenario_a : ivi_compositor := scenario_a_with (some ivi_policy_default_api)

/-- The fields of a surface that the static layout reads: role, edge and geometry. -/
def same_static (a b : ivi_compositor) : Prop :=
  ∀ i, (a.surf i).role = (b.surf i).role ∧ (a.surf i).edge = (b.surf i).edge ∧
    (a.surf i).geom = (b.surf i).geom

/-- Two states agree on the surface registry: every surface object has the same role,
`checked_pending` flag and `app_id`, and the lists `surfaces` and `pending_surfaces`,
the `ready` flag and the policy hooks are the same. -/
structure same_registry (a b : ivi_compositor) : Prop where
  role : ∀ i, (a.surf i).role = (b.surf i).role
  checked_pending : ∀ i, (a.surf i).checked_pending = (b.surf i).checked_pending
  app_id : ∀ i, (a.surf i).app_id = (b.surf i).app_id
  surfaces : a.surfaces = b.surfaces
  pending_surfaces : a.pending_surfaces = b.pending_surfaces
  ready : a.shell_client_ready = b.shell_client_ready

/-- A call that may abort leaves the surface registry of `b` when it returns. -/
def opt_same_registry (x : Option ivi_compositor) (b : ivi_compositor) : Prop :=
  ∀ r, x = some r → same_registry r b

/-- The role the pending queues hold for a surface, in the words of the priority law:
the role of the first queue, in the order popup, split, fullscreen, remote, with an
entry whose `app_id` is the surface's (for the split queue the orientation of its first
such entry decides between the two split roles), and plain desktop when no queue has
one or the surface has no `app_id`. -/
def pending_role (ivi : ivi_compositor) (surface : Nat) : ivi_surface_role :=
  match (ivi.surf surface).app_id with
  | none => .DESKTOP
  | some id =>
    if ivi.popup_pending_apps.any (fun p => p.app_id = id) then .POPUP
    else
      match ivi.split_pending_apps.find? (fun p => p.app_id = id) with
      | some p =>
        if p.orientation = AGL_SHELL_DESKTOP_APP_ROLE_SPLIT_VERTICAL then .SPLIT_V else .SPLIT_H
      | none =>
        if ivi.fullscreen_pending_apps.any (fun p => p.app_id = id) then .FULLSCREEN
        else if ivi.remote_pending_apps.any (fun p => p.app_id = id) then .REMOTE
        else .DESKTOP

/-- State `r` is state `a` with the role `R` assigned to surface `x`: the surface has
role `R` and heads the list `surfaces`, and nothing else of the registry differs. -/
structure role_set (a r : ivi_compositor) (x : Nat) (R : ivi_surface_role) : Prop where
  role_self : (r.surf x).role = R
  role_other : ∀ i, i ≠ x → (r.surf i).role = (a.surf i).role
  checked_pending : ∀ i, (r.surf i).checked_pending = (a.surf i).checked_pending
  app_id : ∀ i, (r.surf i).app_id = (a.surf i).app_id
  surfaces : r.surfaces = x :: a.surfaces
  pending_surfaces : r.pending_surfaces = a.pending_surfaces
  ready : r.shell_client_ready = a.shell_client_ready

/-- A surface of "nav" created while "nav" is pending both as a vertical split and as a
popup on output 0. -/
def scenario_priority : ivi_compositor :=
  let s0 := compositor_with_output ⟨0, 0, 1920, 1080⟩ (some ivi_policy_default_api)
  let s1 := shell_desktop_set_app_property s0 "nav" AGL_SHELL_DESKTOP_APP_ROLE_SPLIT_VERTICAL
    0 0 0 0 0 0 0
  let s2 := shell_desktop_set_app_property s1 "nav" AGL_SHELL_DESKTOP_APP_ROLE_POPUP
    10 20 0 0 0 0 0
  desktop_surface_added s2 3 (some "nav") ⟨0, 0, 200, 100⟩ (some 0)

/-- The rules of a rule list whose state is `state`, each with its address, in the
order of the list. -/
def matching_rules : List ivi_a_policy → Nat → List (Nat × ivi_a_policy)
  | [], _ => []
  | a_policy :: rest, state =>
    if state = a_policy.state then (rest.length, a_policy) :: matching_rules rest state
    else matching_rules rest state

/-- How a rule at an address is handled: a timer is armed when its timeout is positive,
its action is run at once otherwise. -/
def handle_rule (w : policy_world) (r : Nat × ivi_a_policy) : Option policy_world :=
  if r.2.timeout > 0 then some (ivi_policy_setup_event_timeout w r.1 r.2)
  else ivi_policy_try_event w r.2

/-- The step a handled rule leaves in the trace. -/
def step_of_rule (r : Nat × ivi_a_policy) : policy_step :=
  if r.2.timeout > 0 then policy_step.timer_armed r.1 r.2.timeout
  else policy_step.try_event r.2

/-- Handling a list of rules, one after the other; `none` when a rule callback aborts. -/
def handle_rules (w : policy_world) : List (Nat × ivi_a_policy) → Option policy_world
  | [] => some w
  | r :: rest =>
    match handle_rule w r with
    | none => none
    | some w1 => handle_rules w1 rest

/-- A run of the policy engine: state changes, rule and vocabulary registrations,
expiring timers, and anything that happens to the compositor in between. -/
inductive policy_steps : policy_world → policy_world → Prop where
  | refl (w : policy_world) : policy_steps w w
  | state_change {w w1 w2 : policy_world} (state : Nat) (ret : Int) :
      policy_steps w w1 → ivi_policy_state_change w1 state = some (ret, w2) →
      policy_steps w w2
  | add {w w1 : policy_world} (app_id : String) (state event timeout output : Nat) :
      policy_steps w w1 →
      policy_steps w { w1 with policy :=
        (ivi_policy_add w1.ivi w1.policy app_id state event timeout output).2 }
  | add_state {w w1 : policy_world} (state : Nat) (value : String) :
      policy_steps w w1 →
      policy_steps w { w1 with policy := ivi_policy_add_state w1.policy state value }
  | add_event {w w1 : policy_world} (ev : Nat) (value : String) :
      policy_steps w w1 →
      policy_steps w { w1 with policy := ivi_policy_add_event w1.policy ev value }
  | timer {w w1 w2 : policy_world} (k : Nat) :
      policy_steps w w1 → ivi_policy_try_event_timeout w1 k = some w2 → policy_steps w w2
  | compositor {w w1 : policy_world} (ivi : ivi_compositor) :
      policy_steps w w1 → policy_steps w { w1 with ivi := ivi }

/-- The run that builds the compositor of scenarios C and D: after scenario A the shell
is `ready`; the applications "app" (surface 4) and "hvac" (surface 5) are created,
activated by default and maximized to the usable area, and "app" is then activated
again, so that "app" is the active surface of output 0 and "hvac" is not. -/
def scenario_c_run : Option ivi_compositor := do
  let s1 ← shell_ready scenario_a
  let s2 := desktop_surface_added s1 4 (some "app") ⟨0, 0, 640, 480⟩ (some 0)
  let s3 ← desktop_committed s2 4
  let s4 ← desktop_committed (client_ack_configure s3 4 ⟨0, 0, 1920, 1032⟩ true) 4
  let s5 := desktop_surface_added s4 5 (some "hvac") ⟨0, 0, 1920, 1032⟩ (some 0)
  let s6 ← desktop_committed (client_ack_configure s5 5 ⟨0, 0, 1920, 1032⟩ true) 5
  shell_activate_app s6 "app" 0

/-- The compositor of scenarios C and D. -/
def scenario_c_ivi : ivi_compositor := scenario_c_run.getD scenario_a

/-- Scenarios C and D: the default policy engine over `scenario_c_ivi` after
`ivi_policy_add ("hvac", start, show, timeout, output 0)`; the state `start` is `1`. -/
def scenario_c (timeout : Nat) : policy_world :=
  { ivi := scenario_c_ivi,
    policy := (ivi_policy_add scenario_c_ivi ivi_policy_default "hvac" 1
      AGL_SHELL_POLICY_EVENT_SHOW timeout 0).2,
    timers := [], trace := [] }

/-- Scenario E before the second request: scenario A, where output 0 has surface 1 as
its top panel, and a new surface 6 without a role. -/
def scenario_e : ivi_compositor :=
  desktop_surface_added scenario_a 6 (some "panel2") ⟨0, 0, 1920, 48⟩ (some 0)

/-- The bookkeeping of surface objects in a run: `live` lists the addresses handed out
by `desktop_surface_added`. Every surface with a role has been checked against the
pending queues and is a live object; the surfaces of `pending_surfaces` are live, each
linked once, and have no role. -/
structure roles_wf (ivi : ivi_compositor) (live : List Nat) : Prop where
  checked : ∀ x : Nat, (ivi.surf x).role ≠ .NONE → (ivi.surf x).checked_pending = true
  has_role_live : ∀ x : Nat, (ivi.surf x).role ≠ .NONE → x ∈ live
  pending : ∀ x : Nat, x ∈ ivi.pending_surfaces → (ivi.surf x).role = .NONE ∧ x ∈ live
  nodup : ivi.pending_surfaces.Nodup

/-- One operation of the compositor on the surface registry: a surface is created at an
address not in use, or a request of the shell client or a commit of a live surface is
handled and returns. -/
inductive shell_step : ivi_compositor → List Nat → ivi_compositor → List Nat → Prop
  | surface_added (ivi : ivi_compositor) (live : List Nat) (x : Nat) (app_id : Option String)
      (geom : weston_geometry) (focus : Option Nat) (hx : x ∉ live) :
      shell_step ivi live (desktop_surface_added ivi x app_id geom focus) (x :: live)
  | ready (ivi r : ivi_compositor) (live : List Nat) (h : shell_ready ivi = some r) :
      shell_step ivi live r live
  | committed (ivi r : ivi_compositor) (live : List Nat) (x : Nat) (hx : x ∈ live)
      (h : desktop_committed ivi x = some r) : shell_step ivi live r live
  | set_background (ivi : ivi_compositor) (live : List Nat) (surface : Option Nat)
      (output : Nat) (hx : ∀ x : Nat, surface = some x → x ∈ live) :
      shell_step ivi live (shell_set_background ivi surface output) live
  | set_panel (ivi : ivi_compositor) (live : List Nat) (surface : Option Nat)
      (output edge : Nat) (hx : ∀ x : Nat, surface = some x → x ∈ live) :
      shell_step ivi live (shell_set_panel ivi surface output edge) live
  | unbind (ivi : ivi_compositor) (live : List Nat) :
      shell_step ivi live (unbind_agl_shell ivi) live
  | bind (ivi : ivi_compositor) (live : List Nat) (client resource : Nat) :
      shell_step ivi live (bind_agl_shell ivi client resource) live
  | set_app_property (ivi : ivi_compositor) (live : List Nat) (app_id : String) (role : Nat)
      (x y bx bY width height : Int) (output : Nat) :
      shell_step ivi live
        (shell_desktop_set_app_property ivi app_id role x y bx bY width height output) live
  | activate_app (ivi r : ivi_compositor) (live : List Nat) (app_id : String) (output : Nat)
      (h : shell_activate_app ivi app_id output = some r) : shell_step ivi live r live
  | deactivate_app (ivi r : ivi_compositor) (live : List Nat) (app_id : String)
      (h : shell_deactivate_app ivi app_id = some r) : shell_step ivi live r live

/-- The states a run reaches from a compositor without surfaces. -/
inductive shell_reachable : ivi_compositor → List Nat → Prop
  | init (ivi : ivi_compositor) (hrole : ∀ x, (ivi.surf x).role = .NONE)
      (hpending : ivi.pending_surfaces = []) : shell_reachable ivi []
  | step (a b : ivi_compositor) (la lb : List Nat) (ha : shell_reachable a la)
      (hstep : shell_step a la b lb) : shell_reachable b lb

/-- No surface that has a role in `a` has another one in `b`. -/
def role_kept (a b : ivi_compositor) : Prop :=
  ∀ x, (a.surf x).role ≠ .NONE → (b.surf x).role = (a.surf x).role

/-- State `b` is state `a` after surface `x` got a role: `x` has a role, is marked as
checked and is off `pending_surfaces`; no other surface changed its role or mark. -/
structure role_assigned (a b : ivi_compositor) (x : Nat) : Prop where
  role_self : (b.surf x).role ≠ .NONE
  checked_self : (b.surf x).checked_pending = true
  role_other : ∀ i, i ≠ x → (b.surf i).role = (a.surf i).role
  checked_other : ∀ i, i ≠ x → (b.surf i).checked_pending = (a.surf i).checked_pending
  pending : b.pending_surfaces = a.pending_surfaces.filter (fun i => i ≠ x)

/-- Scenario B at the commit of the split surface: `desktop_committed` has found
surface 3 of "nav" in the split queue and `ivi_set_desktop_surface_split` has given it
the vertical split role; output 0 has the usable area {0, 48, 1920, 1032} and surface 4
as its active surface. -/
def scenario_b_resolved : ivi_compositor :=
  ((scenario_b_with (some ivi_policy_default_api)).bind (fun s =>
    ivi_set_desktop_surface_split
      (ivi_check_pending_desktop_surface_split (surface_unlink s 3) 3).2 3)).getD scenario_a

/-- A rectangle, given relative to the origin of an output of geometry `g`, lies inside
the output and has a non-negative size. -/
def area_inside (g area : weston_geometry) : Prop :=
  0 ≤ area.x ∧ 0 ≤ area.y ∧ area.x + area.width ≤ g.width ∧
  area.y + area.height ≤ g.height ∧ 0 ≤ area.width ∧ 0 ≤ area.height

/-- The panels of an output fit into it: their thicknesses are non-negative, the left
and right panels are together no wider, and the top and bottom panels together no
higher, than the output. -/
def panels_fit (ivi : ivi_compositor) (o : Nat) : Prop :=
  0 ≤ panel_width ivi (ivi.out o).left ∧ 0 ≤ panel_width ivi (ivi.out o).right ∧
  0 ≤ panel_height ivi (ivi.out o).top ∧ 0 ≤ panel_height ivi (ivi.out o).bottom ∧
  panel_width ivi (ivi.out o).left + panel_width ivi (ivi.out o).right
    ≤ (ivi.out o).output.width ∧
  panel_height ivi (ivi.out o).top + panel_height ivi (ivi.out o).bottom
    ≤ (ivi.out o).output.height

/-- One of the operations that write the usable area: `ivi_layout_init` on an output
for which `guard` holds, the commit of a split surface, the removal of a surface. -/
inductive layout_step (guard : ivi_compositor → Nat → Prop) :
    ivi_compositor → ivi_compositor → Prop
  | init (a r : ivi_compositor) (o : Nat) (hg : guard a o) (h : ivi_layout_init a o = some r) :
      layout_step guard a r
  | split_committed (a r : ivi_compositor) (x : Nat)
      (h : ivi_layout_split_committed a x = some r) : layout_step guard a r
  | removed (a r : ivi_compositor) (x : Nat) (h : desktop_surface_removed a x = some r) :
      layout_step guard a r

/-- The states reached through `layout_step` from a state whose outputs are as
`ivi_output` objects are allocated, with zeroed `area` and `area_saved`, on outputs of
non-negative size. -/
inductive layout_reachable (guard : ivi_compositor → Nat → Prop) : ivi_compositor → Prop
  | start (a : ivi_compositor)
      (h : ∀ o, (a.out o).area = ⟨0, 0, 0, 0⟩ ∧ (a.out o).area_saved = ⟨0, 0, 0, 0⟩ ∧
        0 ≤ (a.out o).output.width ∧ 0 ≤ (a.out o).output.height) :
      layout_reachable guard a
  | step (a b : ivi_compositor) (ha : layout_reachable guard a)
      (hstep : layout_step guard a b) : layout_reachable guard b

/-- Every output has its usable area and its saved area inside its geometry. -/
def areas_inside (a : ivi_compositor) : Prop :=
  ∀ o, area_inside (a.out o).output (a.out o).area ∧
    area_inside (a.out o).output (a.out o).area_saved

/-- Scenario with panels thicker than the output: a 1920x1080 output whose top and
bottom panels both have a 1920x600 geometry. -/
def scenario_thick_panels : ivi_compositor :=
  let s0 := compositor_with_output ⟨0, 0, 1920, 1080⟩ (some ivi_policy_default_api)
  let s1 := desktop_surface_added s0 1 (some "top") ⟨0, 0, 1920, 600⟩ (some 0)
  let s2 := desktop_surface_added s1 2 (some "bottom") ⟨0, 0, 1920, 600⟩ (some 0)
  let s3 := shell_set_panel s2 (some 1) 0 AGL_SHELL_EDGE_TOP
  shell_set_panel s3 (some 2) 0 AGL_SHELL_EDGE_BOTTOM
/-- Two states agree on the geometry, the usable area and the saved area of every
output. -/
def same_geometry (a b : ivi_compositor) : Prop :=
  ∀ o, (a.out o).output = (b.out o).output ∧ (a.out o).area = (b.out o).area ∧
    (a.out o).area_saved = (b.out o).area_saved

/-- The usable area in the words of the panel accounting invariant: the geometry of the
output minus the thickness of every panel attached to it. -/
def area_of_attached_panels (ivi : ivi_compositor) (o : Nat) : weston_geometry :=
  ⟨panel_width ivi (ivi.out o).left, panel_height ivi (ivi.out o).top,
   (ivi.out o).output.width - panel_width ivi (ivi.out o).left
     - panel_width ivi (ivi.out o).right,
   (ivi.out o).output.height - panel_height ivi (ivi.out o).top
     - panel_height ivi (ivi.out o).bottom⟩

/-- No registered surface has a split role. -/
def no_split_surface (ivi : ivi_compositor) : Bool :=
  ivi.surfaces.all (fun i => (ivi.surf i).role ≠ .SPLIT_V ∧ (ivi.surf i).role ≠ .SPLIT_H)

/-- Scenario A after `ready`, then the top panel surface 1 is removed. -/
def scenario_panel_removed : Option ivi_compositor :=
  (shell_ready scenario_a).bind (fun r => desktop_surface_removed r 1)

/-- A shell that is `ready` on a 1920x1080 output without panels, then surface 1 with a
1920x48 geometry is created and registered as top panel. -/
def scenario_late_panel : Option ivi_compositor :=
  (shell_ready (compositor_with_output ⟨0, 0, 1920, 1080⟩ (some ivi_policy_default_api))).map
    (fun r => shell_set_panel
      (desktop_surface_added r 1 (some "panel") ⟨0, 0, 1920, 48⟩ (some 0)) (some 1) 0
      AGL_SHELL_EDGE_TOP)

/-- Policy hooks that allow everything, except that `surface_activate_by_default` only
allows surfaces that are maximized. -/
def policy_default_when_maximized : ivi_policy_api :=
  { ivi_policy_default_api with surface_activate_by_default := some (fun s => s.maximized) }

/-- Scenario with two outputs of 1920x1080: output 0 has surface 2 as background, output
1 has none; the shell is `ready`. Surface 4 of "app" commits (its default activation is
refused, it is not maximized), is activated on output 1 by an `activate_app` request, is
maximized by its client to the usable area and commits: its activation is complete on
output 1. -/
def scenario_explicit : Option ivi_compositor :=
  let s0 := { compositor_with_output ⟨0, 0, 1920, 1080⟩ (some policy_default_when_maximized)
              with outputs := [0, 1] }
  let s1 := desktop_surface_added s0 2 (some "homescreen") ⟨0, 0, 1920, 1080⟩ (some 0)
  let s2 := shell_set_background s1 (some 2) 0
  (shell_ready s2).bind (fun s3 =>
    (desktop_committed (desktop_surface_added s3 4 (some "app") ⟨0, 0, 640, 480⟩ (some 0)) 4).bind
      (fun s5 => (shell_activate_app s5 "app" 1).bind (fun s6 =>
        desktop_committed (client_ack_configure s6 4 ⟨0, 0, 1920, 1080⟩ true) 4)))

/-- The number of times the view of a surface is linked in a layer. -/
def view_links (ivi : ivi_compositor) (l : layer_id) (surface : Nat) : Nat :=
  (ivi.layers l).count (view_ref.of_surface surface)

/-- Scenario A after `ready`, with surface 4 of "app" created, activated by default,
maximized to the usable area and committed: its activation is complete on output 0. -/
def scenario_app_active : ivi_compositor :=
  ((shell_ready scenario_a).bind (fun s1 =>
    (desktop_committed (desktop_surface_added s1 4 (some "app") ⟨0, 0, 640, 480⟩ (some 0)) 4).bind
      (fun s3 => desktop_committed (client_ack_configure s3 4 ⟨0, 0, 1920, 1032⟩ true) 4))).getD
    scenario_a

/-! ## Heads of an output (`src/compositor.c`)

The array `add` of `struct ivi_output` is a map from indices to head addresses; the
indices from `ADD_LENGTH` on lie outside the array, and a call that would read or write
there aborts. -/

/-- Value of `ARRAY_LENGTH (output->add)`. -/
def ADD_LENGTH : Nat := 8

/-- The call `memmove (&add[dst], &add[src], n * sizeof add[0])`. -/
def memmove_add (add : Nat → Nat) (dst src n : Nat) : Option (Nat → Nat) :=
  if n = 0 then some add
  else if dst + n ≤ ADD_LENGTH ∧ src + n ≤ ADD_LENGTH then
    some (fun k => if dst ≤ k ∧ k < dst + n then add (src + (k - dst)) else add k)
  else none

/-- The call `memmove (&add[dst], head, n * sizeof add[0])`, whose source is the head
object at address `head` itself: `mem head k` is the `k`-th pointer-sized word of that
object. -/
def memmove_add_from_head (mem : Nat → Nat → Nat) (add : Nat → Nat) (dst head n : Nat) :
    Option (Nat → Nat) :=
  if n = 0 then some add
  else if dst + n ≤ ADD_LENGTH then
    some (fun k => if dst ≤ k ∧ k < dst + n then mem head (k - dst) else add k)
  else none

/-- The state of the loops over the heads of an output: the number of failed heads,
the array `add`, the heads attached to the `weston_output` in the order they were
attached, and the number of calls of `weston_output_enable` so far. -/
structure heads_state where
  fail_len : Nat
  add : Nat → Nat
  attached : List Nat
  enable_calls : Nat

/-- Body of the loop of `try_attach_heads` for the index `i`; `attach_fails` tells for
which heads `weston_output_attach_head` returns a negative value. -/
def try_attach_heads_step (mem : Nat → Nat → Nat) (attach_fails : Nat → Bool)
    (st : Option heads_state) (i : Nat) : Option heads_state :=
  st.bind (fun s =>
    if attach_fails (s.add i) then
      let tmp := s.add i
      (memmove_add_from_head mem s.add (s.fail_len + 1) (s.add s.fail_len)
        (i - s.fail_len)).map
        (fun add1 => { s with add := Function.update add1 s.fail_len tmp,
                              fail_len := s.fail_len + 1 })
    else some { s with attached := s.attached ++ [s.add i] })

/-- The function `try_attach_heads` of `src/compositor.c`. -/
def try_attach_heads (mem : Nat → Nat → Nat) (attach_fails : Nat → Bool) (add : Nat → Nat)
    (add_len : Nat) : Option heads_state :=
  (List.range add_len).foldl (try_attach_heads_step mem attach_fails)
    (some { fail_len := 0, add := add, attached := [], enable_calls := 0 })

/-- The loop of `try_enable_output` with `fuel` iterations left; `enable` tells for
which lists of attached heads `weston_output_enable` returns `0`. -/
def try_enable_output_loop (enable : List Nat → Bool) (add_len : Nat) :
    Nat → heads_state → Option heads_state
  | 0, s => some s
  | fuel + 1, s =>
    if s.fail_len < add_len then
      if enable s.attached then some { s with enable_calls := s.enable_calls + 1 }
      else
        let head := s.add (add_len - 1)
        (memmove_add s.add (s.fail_len + 1) s.fail_len (add_len - s.fail_len)).bind
          (fun add1 =>
            try_enable_output_loop enable add_len fuel
              { fail_len := s.fail_len + 1, add := Function.update add1 s.fail_len head,
                attached := s.attached.erase head, enable_calls := s.enable_calls + 1 })
    else some s

/-- The function `try_enable_output` of `src/compositor.c`; `s.fail_len` is its
argument `i`. The loop runs at most `add_len - i` times. -/
def try_enable_output (enable : List Nat → Bool) (add_len : Nat) (s : heads_state) :
    Option heads_state :=
  try_enable_output_loop enable add_len (add_len - s.fail_len) s

/-- The function `try_attach_enable_heads` of `src/compositor.c`: its return value, the
new `add_len` and the state of the heads. `enabled` is `output->output->enabled`, which
the function asserts to be clear, and `configure_ok` tells whether `configure_output`
returns a non-negative value. -/
def try_attach_enable_heads (mem : Nat → Nat → Nat) (attach_fails : Nat → Bool)
    (configure_ok : Bool) (enable : List Nat → Bool) (enabled : Bool) (add : Nat → Nat)
    (add_len : Nat) : Option (Int × Nat × heads_state) :=
  if enabled then none
  else
    (try_attach_heads mem attach_fails add add_len).bind (fun s1 =>
      if !configure_ok then some (-1, add_len, s1)
      else
        (try_enable_output enable add_len s1).map (fun s2 =>
          if s2.fail_len = add_len then (-1, add_len, s2) else (0, s2.fail_len, s2)))

/-- The array `add` that holds the heads of a list from index `0` on, and `0` behind
them. -/
def add_of_list (hs : List Nat) : Nat → Nat := fun k => hs.getD k 0

/-- The first `n` entries of the array `add`. -/
def add_entries (add : Nat → Nat) (n : Nat) : List Nat := (List.range n).map add

/-- The length of the longest prefix of `hs`, among the prefixes of length `1` to `m`,
for which `enable` succeeds; `0` when there is none. -/
def longest_enabled_take (enable : List Nat → Bool) (hs : List Nat) : Nat → Nat
  | 0 => 0
  | m + 1 => if enable (hs.take (m + 1)) then m + 1 else longest_enabled_take enable hs m

/-- Scenario of a removal: in the compositor of scenario C, where "app" (surface 4) is
the active surface of output 0, "hvac" (surface 5) is activated, so that surface 4 is
the `previous_active` surface; then surface 4 is removed. The state before and after
the removal. -/
def scenario_previous_removed : Option (ivi_compositor × ivi_compositor) :=
  (shell_activate_app scenario_c_ivi "hvac" 0).bind (fun s =>
    (desktop_surface_removed s 4).map (fun r => (s, r)))

/-- Scenario of a deactivation: after scenario A and `ready`, surface 4 without an
`app_id` is created, activated by default and completes its activation on output 0;
then surface 5 of "hvac" does the same, so that surface 5 is the active and surface 4
the previous active surface of output 0. -/
def scenario_previous_without_app_id : Option ivi_compositor :=
  (shell_ready scenario_a).bind (fun s1 =>
    (desktop_committed (desktop_surface_added s1 4 none ⟨0, 0, 640, 480⟩ (some 0)) 4).bind
      (fun s3 => (desktop_committed (client_ack_configure s3 4 ⟨0, 0, 1920, 1032⟩ true) 4).bind
        (fun s5 =>
          (desktop_committed
            (desktop_surface_added s5 5 (some "hvac") ⟨0, 0, 640, 480⟩ (some 0)) 5).bind
            (fun s7 =>
              desktop_committed (client_ack_configure s7 5 ⟨0, 0, 1920, 1032⟩ true) 5))))

/-- The compositor of scenario C after "hvac" (surface 5) was activated on output 0:
surface 5 is the active and "app" (surface 4) the previous active surface. -/
def scenario_hvac_active : ivi_compositor :=
  (shell_activate_app scenario_c_ivi "hvac" 0).getD scenario_c_ivi

/-- Scenario of a popup: after scenario A and `ready`, "nav" is given the popup role on
output 0 at (10, 20), its surface 3 is created and commits, which maps it in the popup
layer. -/
def scenario_popup_mapped : Option ivi_compositor :=
  (shell_ready scenario_a).bind (fun s1 =>
    desktop_committed
      (desktop_surface_added
        (shell_desktop_set_app_property s1 "nav" AGL_SHELL_DESKTOP_APP_ROLE_POPUP 10 20 0 0 0 0 0)
        3 (some "nav") ⟨0, 0, 200, 100⟩ (some 0)) 3)

/-- The layers in which the view of a surface is linked. -/
def layers_of_view (ivi : ivi_compositor) (surface : Nat) : List layer_id :=
  [layer_id.hidden, layer_id.background, layer_id.normal, layer_id.panel, layer_id.popup,
    layer_id.fullscreen].filter (fun l => view_ref.of_surface surface ∈ ivi.layers l)

/-- Scenario of two split requests: after scenario A and `ready`, "nav" is requested as a
vertical split and "map" as a horizontal split on output 0, with no surface of either
created yet. -/
def scenario_two_split_requests : Option ivi_compositor :=
  (shell_ready scenario_a).map (fun s =>
    shell_desktop_set_app_property
      (shell_desktop_set_app_property s "nav" AGL_SHELL_DESKTOP_APP_ROLE_SPLIT_VERTICAL
        0 0 0 0 0 0 0)
      "map" AGL_SHELL_DESKTOP_APP_ROLE_SPLIT_HORIZONTAL 0 0 0 0 0 0 0)

/-- The two split requests followed by the creation and the commit of surface 3 of "nav"
and of surface 6 of "map". -/
def scenario_two_split_surfaces : Option ivi_compositor :=
  scenario_two_split_requests.bind (fun s =>
    (desktop_committed (desktop_surface_added s 3 (some "nav") ⟨0, 0, 800, 600⟩ (some 0)) 3).bind
      (fun s1 =>
        desktop_committed (desktop_surface_added s1 6 (some "map") ⟨0, 0, 800, 600⟩ (some 0)) 6))

/-- The registered surfaces that have a split role. -/
def split_surfaces (ivi : ivi_compositor) : List Nat :=
  ivi.surfaces.filter (fun i => (ivi.surf i).role = .SPLIT_V ∨ (ivi.surf i).role = .SPLIT_H)

/-- Scenario with two outputs of 1920x1080 under the default policy: output 0 has surface
2 as background and the shell is `ready`; surface 4 of "app" is created, activated by
default and completes its activation on output 0. -/
def scenario_two_outputs : Option ivi_compositor :=
  let s0 := { compositor_with_output ⟨0, 0, 1920, 1080⟩ (some ivi_policy_default_api)
              with outputs := [0, 1] }
  let s1 := desktop_surface_added s0 2 (some "homescreen") ⟨0, 0, 1920, 1080⟩ (some 0)
  let s2 := shell_set_background s1 (some 2) 0
  (shell_ready s2).bind (fun s3 =>
    (desktop_committed (desktop_surface_added s3 4 (some "app") ⟨0, 0, 640, 480⟩ (some 0)) 4).bind
      (fun s5 => desktop_committed (client_ack_configure s5 4 ⟨0, 0, 1920, 1080⟩ true) 4))

/-- The outputs of the compositor whose active surface is the given surface. -/
def outputs_with_active (ivi : ivi_compositor) (surface : Nat) : List Nat :=
  ivi.outputs.filter (fun o => (ivi.out o).active = some surface)

/-- Scenario: "app" (surface 4) is the active surface of output 0, which has no previous
active surface; surface 5 of "hvac" is created and commits once, so that its activation
on output 0 is pending and not complete. -/
def scenario_hvac_pending : ivi_compositor :=
  (desktop_committed
    (desktop_surface_added scenario_app_active 5 (some "hvac") ⟨0, 0, 640, 480⟩ (some 0)) 5).getD
    scenario_app_active

/-- Scenario of a split commit on an output of geometry `g` with a top panel of height
`panel_height`: after `ready`, "app" (surface 4) is activated by default and maximized
to the usable area; "nav" is requested with the split role `orientation`, and its
surface 3 is created and commits. -/
def scenario_split_commit (g : weston_geometry) (panel_height : Int) (orientation : Nat) :
    Option ivi_compositor :=
  let s0 := compositor_with_output g (some ivi_policy_default_api)
  let s1 := desktop_surface_added s0 1 (some "panel") ⟨0, 0, g.width, panel_height⟩ (some 0)
  let s2 := desktop_surface_added s1 2 (some "homescreen") ⟨0, 0, g.width, g.height⟩ (some 0)
  let s3 := shell_set_background (shell_set_panel s2 (some 1) 0 AGL_SHELL_EDGE_TOP) (some 2) 0
  (shell_ready s3).bind (fun s4 =>
    (desktop_committed (desktop_surface_added s4 4 (some "app") ⟨0, 0, 640, 480⟩ (some 0)) 4).bind
      (fun s5 =>
        (desktop_committed
          (client_ack_configure s5 4 ⟨0, 0, g.width, g.height - panel_height⟩ true) 4).bind
          (fun s6 =>
            desktop_committed
              (desktop_surface_added
                (shell_desktop_set_app_property s6 "nav" orientation 0 0 0 0 0 0 0)
                3 (some "nav") ⟨0, 0, 800, 600⟩ (some 0)) 3)))

/-! ## The policy engine: specification side -/

/-- Specification side. The rules whose action a state change to `state` runs inside
the call, in the order of the rule list: the rules of that state with timeout `0`. -/
def immediate_rules (l : List ivi_a_policy) (state : Nat) : List ivi_a_policy :=
  l.filter (fun a => decide (a.state = state) && decide (a.timeout = 0))

/-- Specification side. The timers a state change to `state` arms, in the order of the
rule list: one for each rule of that state with a positive timeout, at the address of
the rule and for the timeout of the rule. -/
def deferred_timers (l : List ivi_a_policy) (state : Nat) : List (Nat × Nat) :=
  ((matching_rules l state).filter (fun r => r.2.timeout > 0)).map (fun r => (r.1, r.2.timeout))

/-- Specification side. The actions of a list of rules run one after the other on the
compositor, each by a call of the rule callback itself; `none` when a call aborts. -/
def run_actions (f : Option (ivi_a_policy → ivi_compositor → Option ivi_compositor)) :
    ivi_compositor → List ivi_a_policy → Option ivi_compositor
  | ivi, [] => some ivi
  | ivi, a_policy :: rest =>
    match f with
    | none => run_actions f ivi rest
    | some g =>
      match g a_policy ivi with
      | none => none
      | some ivi1 => run_actions f ivi1 rest

/-- Specification side. A state change to a registered state other than the current
one: the actions of the immediate rules of the new state are run on the compositor, the
timers of its deferred rules are armed, both states of the engine become the new state,
and `0` is returned. -/
def state_change_spec (w : policy_world) (state : Nat) : Option (Int × policy_world) :=
  (run_actions w.policy.policy_rule_try_event w.ivi
      (immediate_rules w.policy.policies state)).map (fun ivi1 =>
    (0, { ivi := ivi1,
          policy := { w.policy with current_state := state, previous_state := state,
                                    state_change_in_progress := false },
          timers := w.timers ++ deferred_timers w.policy.policies state,
          trace := w.trace ++ (matching_rules w.policy.policies state).map step_of_rule }))

/-- The compositor of the popup scenario: surface 3 of "nav" is a popup mapped in the
popup layer. -/
def scenario_popup : ivi_compositor := scenario_popup_mapped.getD scenario_a

/-! ## Rule callbacks that call back into the engine (`src/policy.c`) -/

/-- A call that a rule callback makes while it runs: a change of the compositor, or a
call of a function of `src/policy.h` on the engine, which the callback reaches through
`a_policy->policy`. -/
inductive policy_call where
  | layout (f : ivi_compositor → Option ivi_compositor)
  | policy_add (app_id : String) (state event timeout output : Nat)
  | policy_add_state (state : Nat) (value : String)
  | policy_add_event (ev : Nat) (value : String)
  | policy_state_change (state : Nat)

/-- A world whose rule callback calls back into the engine: the world, and the values
that `ivi_policy_add` returned to the callbacks, oldest first. -/
structure policy_run where
  world : policy_world
  add_returned : List Int

/-- The calls of a rule callback, run in order; `state_change` is
`ivi_policy_state_change` as the callback reaches it. `none` when a call aborts. -/
def run_policy_calls (state_change : policy_run → Nat → Option (Int × policy_run)) :
    policy_run → List policy_call → Option policy_run
  | r, [] => some r
  | r, policy_call.layout f :: rest =>
    match f r.world.ivi with
    | none => none
    | some ivi1 =>
      run_policy_calls state_change { r with world := { r.world with ivi := ivi1 } } rest
  | r, policy_call.policy_add app_id state event timeout output :: rest =>
    run_policy_calls state_change
      { world := { r.world with policy :=
          (ivi_policy_add r.world.ivi r.world.policy app_id state event timeout output).2 },
        add_returned := r.add_returned ++
          [(ivi_policy_add r.world.ivi r.world.policy app_id state event timeout output).1] }
      rest
  | r, policy_call.policy_add_state state value :: rest =>
    run_policy_calls state_change
      { r with world :=
          { r.world with policy := ivi_policy_add_state r.world.policy state value } } rest
  | r, policy_call.policy_add_event ev value :: rest =>
    run_policy_calls state_change
      { r with world :=
          { r.world with policy := ivi_policy_add_event r.world.policy ev value } } rest
  | r, policy_call.policy_state_change state :: rest =>
    match state_change r state with
    | none => none
    | some res => run_policy_calls state_change res.2 rest

/-- The function `ivi_policy_try_event` of `src/policy.c` with a rule callback that
makes the calls `callback a_policy`. -/
def ivi_policy_try_event_calls (state_change : policy_run → Nat → Option (Int × policy_run))
    (callback : ivi_a_policy → List policy_call) (r : policy_run) (a_policy : ivi_a_policy) :
    Option policy_run :=
  run_policy_calls state_change
    { r with world :=
      { r.world with trace := r.world.trace ++ [policy_step.try_event a_policy] } }
    (callback a_policy)

/-- The `wl_list_for_each` loop of `ivi_policy_check_policies` over the rest of the rule
list, with a rule callback that calls back. A rule linked by a callback goes to the head
of the list, before the position of the loop, so the loop goes on with the rest. -/
def ivi_policy_check_policies_loop_calls
    (state_change : policy_run → Nat → Option (Int × policy_run))
    (callback : ivi_a_policy → List policy_call) :
    policy_run → List ivi_a_policy → Option policy_run
  | r, [] => some r
  | r, a_policy :: rest =>
    if r.world.policy.current_state = a_policy.state then
      if a_policy.timeout > 0 then
        ivi_policy_check_policies_loop_calls state_change callback
          { r with world := ivi_policy_setup_event_timeout r.world rest.length a_policy } rest
      else
        match ivi_policy_try_event_calls state_change callback r a_policy with
        | none => none
        | some r1 => ivi_policy_check_policies_loop_calls state_change callback r1 rest
    else ivi_policy_check_policies_loop_calls state_change callback r rest

/-- The function `ivi_policy_check_policies` of `src/policy.c` with a rule callback that
calls back. -/
def ivi_policy_check_policies_calls
    (state_change : policy_run → Nat → Option (Int × policy_run))
    (callback : ivi_a_policy → List policy_call) (r : policy_run) : Option policy_run :=
  let r1 := { r with world :=
    { r.world with policy := { r.world.policy with state_change_in_progress := true } } }
  (ivi_policy_check_policies_loop_calls state_change callback r1
      r1.world.policy.policies).map (fun r2 =>
    { r2 with world := { r2.world with policy :=
      { r2.world.policy with previous_state := r2.world.policy.current_state,
                             state_change_in_progress := false } } })

/-- The function `ivi_policy_state_change` of `src/policy.c` with a rule callback that
calls back. -/
def ivi_policy_state_change_calls
    (state_change : policy_run → Nat → Option (Int × policy_run))
    (callback : ivi_a_policy → List policy_call) (r : policy_run) (state : Nat) :
    Option (Int × policy_run) :=
  if r.world.policy.current_state = state then some (-1, r)
  else if !ivi_policy_state_is_known state r.world.policy then some (-1, r)
  else
    let r1 := { r with world :=
      { r.world with policy := { r.world.policy with current_state := state } } }
    (ivi_policy_check_policies_calls state_change callback r1).map (fun r2 => (0, r2))

/-- The function `ivi_policy_state_change` with a rule callback that calls back, a state
change made by a callback being run in the same way; `depth` bounds how deep the state
changes nest, and `none` is also the result of a deeper nesting. -/
def ivi_policy_state_change_nested (callback : ivi_a_policy → List policy_call) :
    Nat → policy_run → Nat → Option (Int × policy_run)
  | 0 => fun _ _ => none
  | depth + 1 =>
    ivi_policy_state_change_calls (ivi_policy_state_change_nested callback depth) callback

theorem set_surf_out (ivi : ivi_compositor) (i : Nat) (f : ivi_surface → ivi_surface) :
    (set_surf ivi i f).out = ivi.out := rfl

theorem set_out_surf (ivi : ivi_compositor) (o : Nat) (f : ivi_output → ivi_output) :
    (set_out ivi o f).surf = ivi.surf := rfl

theorem set_out_same (ivi : ivi_compositor) (o : Nat) (f : ivi_output → ivi_output) :
    (set_out ivi o f).out o = f (ivi.out o) := by
  simp [set_out]

theorem set_out_other (ivi : ivi_compositor) (o o2 : Nat) (f : ivi_output → ivi_output)
    (h : o2 ≠ o) : (set_out ivi o f).out o2 = ivi.out o2 := by
  simp [set_out, Function.update, h]

theorem set_surf_same (ivi : ivi_compositor) (i : Nat) (f : ivi_surface → ivi_surface) :
    (set_surf ivi i f).surf i = f (ivi.surf i) := by
  simp [set_surf]

theorem set_surf_other (ivi : ivi_compositor) (i j : Nat) (f : ivi_surface → ivi_surface)
    (h : j ≠ i) : (set_surf ivi i f).surf j = ivi.surf j := by
  simp [set_surf, Function.update, h]

theorem same_static_refl (a : ivi_compositor) : same_static a a := fun _ => ⟨rfl, rfl, rfl⟩

theorem same_static_trans {a b c : ivi_compositor} (h1 : same_static a b)
    (h2 : same_static b c) : same_static a c := fun i =>
  ⟨(h1 i).1.trans (h2 i).1, (h1 i).2.1.trans (h2 i).2.1, (h1 i).2.2.trans (h2 i).2.2⟩

theorem ivi_background_init_spec (ivi : ivi_compositor) (o : Nat)
    (h : background_member_ok ivi (ivi.out o).background = true) :
    ∃ r, ivi_background_init ivi o = some r ∧ r.out = ivi.out ∧ same_static r ivi := by
  unfold ivi_background_init
  cases hb : (ivi.out o).background with
  | none => exact ⟨ivi, rfl, rfl, same_static_refl ivi⟩
  | some b =>
    rw [hb] at h
    simp only [background_member_ok, decide_eq_true_eq] at h
    simp only [h, ne_eq, not_true_eq_false, if_false]
    refine ⟨_, rfl, rfl, ?_⟩
    intro i
    by_cases hi : i = b
    · subst hi
      simp [weston_layer_entry_insert, set_surf]
    · simp [weston_layer_entry_insert, set_surf, Function.update, hi]

theorem ivi_panel_init_spec (ivi : ivi_compositor) (o : Nat) (p : Nat) (e : Nat)
    (h : panel_member_ok ivi (some p) e = true) :
    ∃ r, ivi_panel_init ivi o (some p) = some r ∧
      r.out o = { ivi.out o with area :=
        (panel_edge_switch e (ivi.out o).output (ivi.surf p).geom (ivi.out o).area).1 } ∧
      same_static r ivi := by
  simp only [panel_member_ok, Bool.decide_and, Bool.and_eq_true, decide_eq_true_eq] at h
  obtain ⟨hr, he⟩ := h
  unfold ivi_panel_init
  simp only [hr, he, ne_eq, not_true_eq_false, if_false]
  refine ⟨_, rfl, ?_, ?_⟩
  · simp [weston_layer_entry_insert, set_surf, set_out]
  · intro i
    by_cases hi : i = p
    · subst hi
      simp [weston_layer_entry_insert, set_surf, set_out]
    · simp [weston_layer_entry_insert, set_surf, set_out, Function.update, hi]

theorem panel_member_ok_of_static {a b : ivi_compositor} (h : same_static a b)
    (panel : Option Nat) (e : Nat) (hb : panel_member_ok b panel e = true) :
    panel_member_ok a panel e = true := by
  cases panel with
  | none => rfl
  | some p =>
    simp only [panel_member_ok, Bool.decide_and, Bool.and_eq_true, decide_eq_true_eq] at hb ⊢
    exact ⟨(h p).1.trans hb.1, (h p).2.1.trans hb.2⟩

/-- One panel step of `ivi_layout_init`: a consistent member, present or absent, leaves
the output with only its area changed, by the switch of its edge applied to the panel
size (`0` by `0` for an absent panel). -/
theorem ivi_panel_init_step (ivi : ivi_compositor) (o : Nat) (panel : Option Nat) (e : Nat)
    (h : panel_member_ok ivi panel e = true) :
    ∃ r, ivi_panel_init ivi o panel = some r ∧
      r.out o = { ivi.out o with area :=
        (panel_edge_switch e (ivi.out o).output
          ⟨0, 0, panel_width ivi panel, panel_height ivi panel⟩ (ivi.out o).area).1 } ∧
      same_static r ivi := by
  cases panel with
  | none =>
    refine ⟨ivi, rfl, ?_, same_static_refl ivi⟩
    simp [panel_edge_switch, panel_width, panel_height]
    split_ifs <;> simp
  | some p =>
    obtain ⟨r, h1, h2, h3⟩ := ivi_panel_init_spec ivi o p e h
    refine ⟨r, h1, ?_, h3⟩
    rw [h2]
    simp [panel_edge_switch, panel_width, panel_height]

theorem panel_width_of_static {a b : ivi_compositor} (h : same_static a b)
    (panel : Option Nat) : panel_width a panel = panel_width b panel := by
  cases panel with
  | none => rfl
  | some p => simp [panel_width, (h p).2.2]

theorem panel_height_of_static {a b : ivi_compositor} (h : same_static a b)
    (panel : Option Nat) : panel_height a panel = panel_height b panel := by
  cases panel with
  | none => rfl
  | some p => simp [panel_height, (h p).2.2]

/-- The state `ivi_layout_init` leaves on an output whose members are consistent: only
the usable area of the output changes, and no surface changes its role, edge or
geometry. -/
theorem ivi_layout_init_spec (ivi : ivi_compositor) (o : Nat)
    (hok : output_members_ok ivi o = true) :
    ∃ r, ivi_layout_init ivi o = some r ∧
      r.out o = { ivi.out o with area :=
        ⟨panel_width ivi (ivi.out o).left, panel_height ivi (ivi.out o).top,
         (ivi.out o).output.width - panel_width ivi (ivi.out o).left
           - panel_width ivi (ivi.out o).right,
         (ivi.out o).output.height - panel_height ivi (ivi.out o).top
           - panel_height ivi (ivi.out o).bottom⟩ } ∧
      same_static r ivi := by
  simp only [output_members_ok, Bool.and_eq_true] at hok
  obtain ⟨⟨⟨⟨hbg, htop⟩, hbot⟩, hleft⟩, hright⟩ := hok
  obtain ⟨r1, e1, o1, s1⟩ := ivi_background_init_spec ivi o hbg
  unfold ivi_layout_init
  simp only [e1, Option.bind_eq_bind, Option.some_bind]
  generalize h2 : set_out r1 o (fun x =>
    { x with area := ⟨0, 0, x.output.width, x.output.height⟩ }) = ivi2
  have o2 : ivi2.out o = { ivi.out o with
      area := ⟨0, 0, (ivi.out o).output.width, (ivi.out o).output.height⟩ } := by
    rw [← h2, set_out_same, o1]
  have s2 : same_static ivi2 ivi := by
    intro i
    rw [← h2]
    exact s1 i
  obtain ⟨r3, e3, o3, s3⟩ := ivi_panel_init_step ivi2 o (ivi2.out o).top AGL_SHELL_EDGE_TOP
    (panel_member_ok_of_static s2 _ _ (by rw [o2]; exact htop))
  have s3 := same_static_trans s3 s2
  obtain ⟨r4, e4, o4, s4⟩ := ivi_panel_init_step r3 o (r3.out o).bottom AGL_SHELL_EDGE_BOTTOM
    (panel_member_ok_of_static s3 _ _ (by rw [o3, o2]; exact hbot))
  have s4 := same_static_trans s4 s3
  obtain ⟨r5, e5, o5, s5⟩ := ivi_panel_init_step r4 o (r4.out o).left AGL_SHELL_EDGE_LEFT
    (panel_member_ok_of_static s4 _ _ (by rw [o4, o3, o2]; exact hleft))
  have s5 := same_static_trans s5 s4
  obtain ⟨r6, e6, o6, s6⟩ := ivi_panel_init_step r5 o (r5.out o).right AGL_SHELL_EDGE_RIGHT
    (panel_member_ok_of_static s5 _ _ (by rw [o5, o4, o3, o2]; exact hright))
  refine ⟨r6, ?_, ?_, same_static_trans s6 s5⟩
  · simp only [e3, e4, e5, e6, Option.some_bind]
  · rw [o6, o5, o4, o3, o2]
    simp only [panel_width_of_static s5, panel_height_of_static s5, panel_width_of_static s4,
      panel_height_of_static s4, panel_width_of_static s3, panel_height_of_static s3,
      panel_width_of_static s2, panel_height_of_static s2]
    simp [panel_edge_switch, AGL_SHELL_EDGE_TOP, AGL_SHELL_EDGE_BOTTOM, AGL_SHELL_EDGE_LEFT,
      AGL_SHELL_EDGE_RIGHT]

/-- C1. After `ivi_layout_init` on an output of size `W x H` whose background and panel
members are consistent, the usable area is `x = left.width`, `y = top.height`,
`width = W - left.width - right.width`, `height = H - top.height - bottom.height`, an
absent panel counting as `0`. -/
theorem ivi_layout_init_usable_area (ivi : ivi_compositor) (o : Nat)
    (hok : output_members_ok ivi o = true) :
    ∃ r, ivi_layout_init ivi o = some r ∧
      (r.out o).area =
        ⟨panel_width ivi (ivi.out o).left, panel_height ivi (ivi.out o).top,
         (ivi.out o).output.width - panel_width ivi (ivi.out o).left
           - panel_width ivi (ivi.out o).right,
         (ivi.out o).output.height - panel_height ivi (ivi.out o).top
           - panel_height ivi (ivi.out o).bottom⟩ := by
  obtain ⟨r, h1, h2, _⟩ := ivi_layout_init_spec ivi o hok
  exact ⟨r, h1, by rw [h2]⟩

/-- C1, scenario A: a 1920x1080 output with a 1920x48 top panel and a background; the
members are consistent and the usable area after `ivi_layout_init`, and after the
`ready` request that runs it, is `{x:0, y:48, width:1920, height:1032}`. -/
theorem ivi_layout_init_usable_area_scenario_a :
    (∃ r, ivi_layout_init scenario_a 0 = some r ∧ (r.out 0).area = ⟨0, 48, 1920, 1032⟩) ∧
    (shell_ready scenario_a).map (fun r => (r.out 0).area) = some ⟨0, 48, 1920, 1032⟩ :=
  ⟨ivi_layout_init_usable_area scenario_a 0 (by decide), by decide⟩


/-! ## The layout never writes the surface registry -/

theorem same_registry.refl (a : ivi_compositor) : same_registry a a :=
  ⟨fun _ => rfl, fun _ => rfl, fun _ => rfl, rfl, rfl, rfl⟩

theorem same_registry.trans {a b c : ivi_compositor} (h1 : same_registry a b)
    (h2 : same_registry b c) : same_registry a c :=
  ⟨fun i => (h1.role i).trans (h2.role i),
   fun i => (h1.checked_pending i).trans (h2.checked_pending i),
   fun i => (h1.app_id i).trans (h2.app_id i),
   h1.surfaces.trans h2.surfaces, h1.pending_surfaces.trans h2.pending_surfaces,
   h1.ready.trans h2.ready⟩

theorem sr_set_surf {a b : ivi_compositor} (i : Nat) (f : ivi_surface → ivi_surface)
    (hf : ∀ s, (f s).role = s.role ∧ (f s).checked_pending = s.checked_pending ∧
      (f s).app_id = s.app_id)
    (h : same_registry a b) : same_registry (set_surf a i f) b := by
  have h0 : same_registry (set_surf a i f) a := by
    refine ⟨?_, ?_, ?_, rfl, rfl, rfl⟩
    all_goals
      intro j
      by_cases hj : j = i
      · subst hj
        simp [set_surf, hf]
      · simp [set_surf, Function.update, hj]
  exact h0.trans h

theorem sr_set_out {a b : ivi_compositor} (o : Nat) (f : ivi_output → ivi_output)
    (h : same_registry a b) : same_registry (set_out a o f) b :=
  have h0 : same_registry (set_out a o f) a :=
    ⟨fun _ => rfl, fun _ => rfl, fun _ => rfl, rfl, rfl, rfl⟩
  h0.trans h

theorem sr_layer_remove {a b : ivi_compositor} (v : view_ref)
    (h : same_registry a b) : same_registry (weston_layer_entry_remove a v) b :=
  have h0 : same_registry (weston_layer_entry_remove a v) a :=
    ⟨fun _ => rfl, fun _ => rfl, fun _ => rfl, rfl, rfl, rfl⟩
  h0.trans h

theorem sr_layer_insert {a b : ivi_compositor} (l : layer_id) (v : view_ref)
    (h : same_registry a b) : same_registry (weston_layer_entry_insert a l v) b :=
  have h0 : same_registry (weston_layer_entry_insert a l v) a :=
    ⟨fun _ => rfl, fun _ => rfl, fun _ => rfl, rfl, rfl, rfl⟩
  h0.trans h


theorem sr_sent {a b : ivi_compositor} (m : List shell_message)
    (h : same_registry a b) : same_registry (send_messages a m) b :=
  have h0 : same_registry (send_messages a m) a :=
    ⟨fun _ => rfl, fun _ => rfl, fun _ => rfl, rfl, rfl, rfl⟩
  h0.trans h

theorem osr_some {a b : ivi_compositor} (h : same_registry a b) :
    opt_same_registry (some a) b := by
  intro r hr
  cases hr
  exact h

theorem osr_none (b : ivi_compositor) : opt_same_registry none b := by
  intro r hr
  cases hr

theorem osr_bind {x : Option ivi_compositor} {f : ivi_compositor → Option ivi_compositor}
    {b : ivi_compositor} (hx : opt_same_registry x b)
    (hf : ∀ r, same_registry r b → opt_same_registry (f r) b) :
    opt_same_registry (x.bind f) b := by
  intro r hr
  cases x with
  | none => cases hr
  | some y => exact hf y (hx y rfl) r hr

theorem osr_map {x : Option ivi_compositor} {f : ivi_compositor → ivi_compositor}
    {b : ivi_compositor} (hx : opt_same_registry x b)
    (hf : ∀ r, same_registry r b → same_registry (f r) b) :
    opt_same_registry (x.map f) b := by
  intro r hr
  cases x with
  | none => cases hr
  | some y =>
    cases hr
    exact hf y (hx y rfl)

theorem sr_activate_complete {a b : ivi_compositor} (o x : Nat) (h : same_registry a b) :
    same_registry (ivi_layout_activate_complete a o x) b := by
  unfold ivi_layout_activate_complete
  lift_lets
  intro woutput area ivi1 ivi2 ivi3 ivi4 ivi5
  have h1 : same_registry ivi1 b := by
    unfold ivi1
    split
    · exact sr_layer_remove _ h
    · exact h
  have h2 : same_registry ivi2 b := sr_set_surf _ _ (fun _ => ⟨rfl, rfl, rfl⟩) h1
  have h3 : same_registry ivi3 b := by
    unfold ivi3
    split
    · exact h2
    · exact sr_layer_remove _ (sr_set_surf _ _ (fun _ => ⟨rfl, rfl, rfl⟩) h2)
  have h5 : same_registry ivi5 b := sr_layer_insert _ _ (sr_set_out _ _ h3)
  split
  · exact sr_set_surf _ _ (fun _ => ⟨rfl, rfl, rfl⟩) h5
  · exact h5

theorem sr_post_error {a b : ivi_compositor} (c : agl_shell_error) (m : String)
    (h : same_registry a b) : same_registry (wl_resource_post_error a c m) b :=
  sr_sent _ h

theorem sr_advertise_app_state {a b : ivi_compositor} (id : String) (st : Nat)
    (h : same_registry a b) : same_registry (shell_advertise_app_state a id st) b := by
  unfold shell_advertise_app_state
  repeat' (first
    | exact h
    | exact sr_sent _ h
    | split)

theorem sr_advertise_application_id {a b : ivi_compositor} (x : Nat)
    (h : same_registry a b) :
    same_registry (agl_shell_desktop_advertise_application_id a x) b := by
  unfold agl_shell_desktop_advertise_application_id
  repeat' (first
    | exact h
    | exact sr_set_surf _ _ (fun _ => ⟨rfl, rfl, rfl⟩) (sr_sent _ h)
    | split)

theorem osr_advertise_app_state_of {a b : ivi_compositor} (id : Option String) (st : Nat)
    (h : same_registry a b) : opt_same_registry (shell_advertise_app_state_of a id st) b := by
  unfold shell_advertise_app_state_of
  repeat' (first
    | exact osr_none _
    | exact osr_some h
    | exact osr_some (sr_advertise_app_state _ _ h)
    | split)

theorem osr_remove_black_surface {a b : ivi_compositor} (o : Nat)
    (h : same_registry a b) : opt_same_registry (remove_black_surface a o) b := by
  unfold remove_black_surface
  lift_lets
  intro o1 ivi1
  split
  · exact osr_none _
  · exact osr_some (sr_layer_remove _ (sr_set_out _ _ h))

theorem sr_insert_black_surface {a b : ivi_compositor} (o : Nat)
    (h : same_registry a b) : same_registry (insert_black_surface a o) b := by
  unfold insert_black_surface
  lift_lets
  intro o1 ivi1 ivi2
  split
  · exact h
  · exact sr_set_out _ _ (sr_layer_insert _ _ (sr_layer_remove _ h))

theorem osr_popup_committed {a b : ivi_compositor} (x : Nat)
    (h : same_registry a b) : opt_same_registry (ivi_layout_popup_committed a x) b := by
  unfold ivi_layout_popup_committed
  lift_lets
  intro s
  split
  · exact osr_none _
  · lift_lets
    intro woutput ivi1 ivi2 ivi3
    have h3 : same_registry ivi3 b :=
      sr_set_surf _ _ (fun _ => ⟨rfl, rfl, rfl⟩)
        (sr_layer_insert _ _ (sr_set_surf _ _ (fun _ => ⟨rfl, rfl, rfl⟩) h))
    repeat' (first
      | exact osr_none _
      | exact osr_some h
      | exact osr_advertise_app_state_of _ _ h3
      | split)

theorem osr_popup_re_add {a b : ivi_compositor} (x : Nat)
    (h : same_registry a b) : opt_same_registry (ivi_layout_popup_re_add a x) b := by
  unfold ivi_layout_popup_re_add
  lift_lets
  intro ivi1 ivi2
  have h1 : same_registry ivi1 b := by
    unfold ivi1
    split
    · exact sr_set_surf _ _ (fun _ => ⟨rfl, rfl, rfl⟩) (sr_layer_remove _ h)
    · exact h
  have h2 : same_registry ivi2 b := sr_set_surf _ _ (fun _ => ⟨rfl, rfl, rfl⟩) h1
  split
  · exact osr_none _
  · exact osr_popup_committed _ h2

theorem sr_is_split_or_fullscreen {a b : ivi_compositor} (x : Nat)
    (h : same_registry a b) :
    same_registry (ivi_layout_surface_is_split_or_fullscreen a x).2 b := by
  unfold ivi_layout_surface_is_split_or_fullscreen
  lift_lets
  intro r ivi1
  have h1 : same_registry ivi1 b := sr_set_surf _ _ (fun _ => ⟨rfl, rfl, rfl⟩) h
  split
  · exact h
  · exact h1

theorem osr_activate_by_surf {a b : ivi_compositor} (o x : Nat)
    (h : same_registry a b) : opt_same_registry (ivi_layout_activate_by_surf a o x) b := by
  unfold ivi_layout_activate_by_surf
  lift_lets
  intro r ivi1 ivi2 s area ivi3
  have h1 : same_registry ivi1 b := sr_is_split_or_fullscreen _ h
  have h2 : same_registry ivi2 b := by
    unfold ivi2
    split
    · exact sr_set_surf _ _ (fun _ => ⟨rfl, rfl, rfl⟩) h1
    · exact h1
  have h3 : same_registry ivi3 b := sr_set_surf _ _ (fun _ => ⟨rfl, rfl, rfl⟩) h2
  repeat' (first
    | exact osr_some h
    | exact osr_some h1
    | exact osr_some h3
    | exact osr_popup_re_add _ h
    | exact osr_some (sr_activate_complete _ _ h2)
    | exact osr_some (sr_layer_insert _ _ (sr_set_surf _ _ (fun _ => ⟨rfl, rfl, rfl⟩) h3))
    | split)

theorem osr_activate {a b : ivi_compositor} (o : Nat) (id : Option String)
    (h : same_registry a b) : opt_same_registry (ivi_layout_activate a o id) b := by
  unfold ivi_layout_activate
  repeat' (first
    | exact osr_some h
    | exact osr_activate_by_surf _ _ h
    | split)

theorem osr_default_activation_output {a b : ivi_compositor} (id : Option String)
    (h : same_registry a b) :
    ∀ p, default_activation_output a id = some p → same_registry p.1 b := by
  intro p hp
  unfold default_activation_output at hp
  split at hp
  · split at hp
    · simp only [Option.map_eq_some'] at hp
      obtain ⟨q, hq, rfl⟩ := hp
      exact osr_remove_black_surface _ h q hq
    · cases hp
      exact h
  · cases hp
    exact h

theorem osr_desktop_committed_default {a b : ivi_compositor} (x : Nat)
    (h : same_registry a b) :
    opt_same_registry (ivi_layout_desktop_committed_default a x) b := by
  unfold ivi_layout_desktop_committed_default
  lift_lets
  intro s
  split
  · exact osr_some h
  split
  · exact osr_some h
  intro r hr
  cases hp : default_activation_output a s.app_id with
  | none => simp [hp] at hr
  | some p =>
    have h1 : same_registry p.1 b := osr_default_activation_output _ h p hp
    simp only [hp, Option.some_bind] at hr
    revert r
    show opt_same_registry _ b
    repeat' (first
      | exact osr_some h1
      | exact osr_some (sr_post_error _ _ h1)
      | exact osr_map (osr_activate _ _ h1)
          (fun _ hq => sr_set_surf _ _ (fun _ => ⟨rfl, rfl, rfl⟩) hq)
      | exact osr_map (osr_activate_by_surf _ _ h1)
          (fun _ hq => sr_set_surf _ _ (fun _ => ⟨rfl, rfl, rfl⟩) hq)
      | split)

theorem osr_desktop_committed_remote {a b : ivi_compositor} (x o : Nat)
    (h : same_registry a b) :
    opt_same_registry (ivi_layout_desktop_committed_remote a x o) b := by
  unfold ivi_layout_desktop_committed_remote
  lift_lets
  intro s
  repeat' (first
    | exact osr_some h
    | exact osr_map (osr_activate _ _ h)
        (fun _ hq => sr_set_surf _ _ (fun _ => ⟨rfl, rfl, rfl⟩) hq)
    | split)

theorem osr_desktop_committed {a b : ivi_compositor} (x : Nat)
    (h : same_registry a b) : opt_same_registry (ivi_layout_desktop_committed a x) b := by
  unfold ivi_layout_desktop_committed
  lift_lets
  intro s
  repeat' (first
    | exact osr_none _
    | exact osr_some h
    | exact osr_some (sr_activate_complete _ _ h)
    | exact osr_desktop_committed_default _ h
    | exact osr_desktop_committed_remote _ _ h
    | split)

theorem osr_fullscreen_committed {a b : ivi_compositor} (x : Nat)
    (h : same_registry a b) : opt_same_registry (ivi_layout_fullscreen_committed a x) b := by
  unfold ivi_layout_fullscreen_committed
  lift_lets
  intro s
  split
  · exact osr_none _
  · lift_lets
    intro woutput ivi1 ivi2 ivi3
    have h3 : same_registry ivi3 b :=
      sr_set_surf _ _ (fun _ => ⟨rfl, rfl, rfl⟩)
        (sr_layer_insert _ _ (sr_set_surf _ _ (fun _ => ⟨rfl, rfl, rfl⟩) h))
    repeat' (first
      | exact osr_none _
      | exact osr_some h
      | exact osr_advertise_app_state_of _ _ h3
      | split)

theorem sr_desktop_resize {a b : ivi_compositor} (x : Nat) (g : weston_geometry)
    (h : same_registry a b) : same_registry (ivi_layout_desktop_resize a x g) b :=
  sr_set_surf _ _ (fun _ => ⟨rfl, rfl, rfl⟩) h

theorem osr_split_place {a b : ivi_compositor} (x o : Nat) (p : split_placement)
    (h : same_registry a b) : opt_same_registry (split_place a x o p) b := by
  unfold split_place
  lift_lets
  intro ivi2 ivi3 ivi4 ivi5 ivi6 ivi7
  have h3 : same_registry ivi3 b :=
    sr_set_surf _ _ (fun _ => ⟨rfl, rfl, rfl⟩) (sr_set_out _ _ h)
  have h4 : same_registry ivi4 b := by
    unfold ivi4
    split
    · exact h3
    · exact sr_desktop_resize _ _ h3
  have h7 : same_registry ivi7 b :=
    sr_set_surf _ _ (fun _ => ⟨rfl, rfl, rfl⟩)
      (sr_layer_insert _ _ (sr_set_surf _ _ (fun _ => ⟨rfl, rfl, rfl⟩) h4))
  exact osr_advertise_app_state_of _ _ h7

theorem osr_split_committed {a b : ivi_compositor} (x : Nat)
    (h : same_registry a b) : opt_same_registry (ivi_layout_split_committed a x) b := by
  unfold ivi_layout_split_committed
  lift_lets
  intro s
  split
  · exact osr_none _
  · lift_lets
    intro woutput ivi1
    have h1 : same_registry ivi1 b := sr_set_out _ _ h
    repeat' (first
      | exact osr_none _
      | exact osr_some h
      | exact osr_split_place _ _ _ h1
      | split)

theorem osr_deactivate_desktop {a b : ivi_compositor} (o : Nat)
    (h : same_registry a b) : opt_same_registry (ivi_layout_deactivate_desktop a o) b := by
  unfold ivi_layout_deactivate_desktop
  repeat' (first
    | exact osr_some h
    | exact osr_activate _ _ h
    | exact osr_some (sr_set_out _ _ (sr_layer_remove _
        (sr_set_surf _ _ (fun _ => ⟨rfl, rfl, rfl⟩) h)))
    | split)

theorem osr_deactivate {a b : ivi_compositor} (id : Option String)
    (h : same_registry a b) : opt_same_registry (ivi_layout_deactivate a id) b := by
  unfold ivi_layout_deactivate
  repeat' (first
    | exact osr_none _
    | exact osr_some h
    | exact osr_deactivate_desktop _ h
    | exact osr_some (sr_layer_remove _ h)
    | split)


/-! ## Split surfaces and the usable area -/

/-- C2, the code at the failing input. Under policy hooks that refuse the default
activation of "nav", the split surface of "nav" is resolved to the vertical split role
and commits twice with the usable area of output 0 still `{0, 48, 1920, 1032}` (the
commit returns before `area_saved` is written); removing it copies the never written
`area_saved` over the area, which ends as `{0, 0, 0, 0}`, and the active surface is
resized to `0 x 0`. -/
theorem split_removed_after_refused_commit_loses_area :
    (scenario_b_with (some policy_refusing_nav)).map (fun s => (s.out 0).area)
      = some ⟨0, 48, 1920, 1032⟩ ∧
    (scenario_b_committed (some policy_refusing_nav)).map
        (fun s => ((s.surf 3).role, (s.surf 3).view_is_mapped, (s.out 0).area, (s.out 0).active))
      = some (.SPLIT_V, false, ⟨0, 48, 1920, 1032⟩, some 4) ∧
    (scenario_b_removed (some policy_refusing_nav)).map
        (fun s => ((s.out 0).area, (s.surf 4).req_size))
      = some (⟨0, 0, 0, 0⟩, some (0, 0)) := by
  decide


/-! ## Role resolution -/

theorem find_none_of_any_false {α : Type} (l : List α) (p : α → Bool)
    (h : l.any p = false) : l.find? p = none := by
  induction l with
  | nil => rfl
  | cons a t ih =>
    simp only [List.any_cons, Bool.or_eq_false_iff] at h
    simp [List.find?, h.1, ih h.2]

theorem find_some_of_any_true {α : Type} (l : List α) (p : α → Bool)
    (h : l.any p = true) : ∃ a, l.find? p = some a := by
  induction l with
  | nil => simp at h
  | cons a t ih =>
    simp only [List.any_cons, Bool.or_eq_true] at h
    by_cases ha : p a = true
    · exact ⟨a, by simp [List.find?, ha]⟩
    · have ht : t.any p = true := by
        rcases h with h | h
        · exact absurd h ha
        · exact h
      obtain ⟨b, hb⟩ := ih ht
      exact ⟨b, by simp [List.find?, ha, hb]⟩

theorem sr_set_popup_pending {a b : ivi_compositor} (l : List pending_popup)
    (h : same_registry a b) : same_registry (set_popup_pending_apps a l) b :=
  have h0 : same_registry (set_popup_pending_apps a l) a :=
    ⟨fun _ => rfl, fun _ => rfl, fun _ => rfl, rfl, rfl, rfl⟩
  h0.trans h

theorem sr_set_split_pending {a b : ivi_compositor} (l : List pending_split)
    (h : same_registry a b) : same_registry (set_split_pending_apps a l) b :=
  have h0 : same_registry (set_split_pending_apps a l) a :=
    ⟨fun _ => rfl, fun _ => rfl, fun _ => rfl, rfl, rfl, rfl⟩
  h0.trans h

theorem sr_set_fullscreen_pending {a b : ivi_compositor} (l : List pending_fullscreen)
    (h : same_registry a b) : same_registry (set_fullscreen_pending_apps a l) b :=
  have h0 : same_registry (set_fullscreen_pending_apps a l) a :=
    ⟨fun _ => rfl, fun _ => rfl, fun _ => rfl, rfl, rfl, rfl⟩
  h0.trans h

theorem sr_set_remote_pending {a b : ivi_compositor} (l : List pending_remote)
    (h : same_registry a b) : same_registry (set_remote_pending_apps a l) b :=
  have h0 : same_registry (set_remote_pending_apps a l) a :=
    ⟨fun _ => rfl, fun _ => rfl, fun _ => rfl, rfl, rfl, rfl⟩
  h0.trans h

/-- A popup check that finds an entry returns true, leaves the registry as it was and
gives the surface an output. -/
theorem check_popup_true (ivi : ivi_compositor) (x : Nat) (id : String)
    (hid : (ivi.surf x).app_id = some id)
    (h : ivi.popup_pending_apps.any (fun p => p.app_id = id) = true) :
    (ivi_check_pending_desktop_surface_popup ivi x).1 = true ∧
    same_registry (ivi_check_pending_desktop_surface_popup ivi x).2 ivi ∧
    ((ivi_check_pending_desktop_surface_popup ivi x).2.surf x).output.isSome = true := by
  obtain ⟨p, hp⟩ := find_some_of_any_true _ _ h
  unfold ivi_check_pending_desktop_surface_popup
  simp only [hid, hp]
  refine ⟨trivial, ?_, ?_⟩
  · exact sr_set_popup_pending _
      (sr_set_surf _ _ (fun _ => ⟨rfl, rfl, rfl⟩) (same_registry.refl ivi))
  · simp [set_surf, set_popup_pending_apps]

theorem check_popup_false (ivi : ivi_compositor) (x : Nat)
    (h : ∀ id, (ivi.surf x).app_id = some id →
      ivi.popup_pending_apps.any (fun p => p.app_id = id) = false) :
    ivi_check_pending_desktop_surface_popup ivi x = (false, ivi) := by
  unfold ivi_check_pending_desktop_surface_popup
  cases hid : (ivi.surf x).app_id with
  | none => rfl
  | some id => simp only [find_none_of_any_false _ _ (h id hid)]

/-- A split check that finds an entry returns true, leaves the registry as it was, and
gives the surface an output and the orientation of the first matching entry. -/
theorem check_split_true (ivi : ivi_compositor) (x : Nat) (id : String) (p : pending_split)
    (hid : (ivi.surf x).app_id = some id)
    (hp : ivi.split_pending_apps.find? (fun p => p.app_id = id) = some p) :
    (ivi_check_pending_desktop_surface_split ivi x).1 = true ∧
    same_registry (ivi_check_pending_desktop_surface_split ivi x).2 ivi ∧
    ((ivi_check_pending_desktop_surface_split ivi x).2.surf x).output.isSome = true ∧
    ((ivi_check_pending_desktop_surface_split ivi x).2.surf x).orientation = p.orientation := by
  unfold ivi_check_pending_desktop_surface_split
  simp only [hid, hp]
  refine ⟨trivial, ?_, ?_, ?_⟩
  · exact sr_set_split_pending _
      (sr_set_surf _ _ (fun _ => ⟨rfl, rfl, rfl⟩) (same_registry.refl ivi))
  · simp [set_surf, set_split_pending_apps]
  · simp [set_surf, set_split_pending_apps]

theorem check_split_false (ivi : ivi_compositor) (x : Nat)
    (h : ∀ id, (ivi.surf x).app_id = some id →
      ivi.split_pending_apps.find? (fun p => p.app_id = id) = none) :
    ivi_check_pending_desktop_surface_split ivi x = (false, ivi) := by
  unfold ivi_check_pending_desktop_surface_split
  cases hid : (ivi.surf x).app_id with
  | none => rfl
  | some id => simp only [h id hid]

/-- A fullscreen check that finds an entry returns true, leaves the registry as it was
and gives the surface an output. -/
theorem check_fullscreen_true (ivi : ivi_compositor) (x : Nat) (id : String)
    (hid : (ivi.surf x).app_id = some id)
    (h : ivi.fullscreen_pending_apps.any (fun p => p.app_id = id) = true) :
    (ivi_check_pending_desktop_surface_fullscreen ivi x).1 = true ∧
    same_registry (ivi_check_pending_desktop_surface_fullscreen ivi x).2 ivi ∧
    ((ivi_check_pending_desktop_surface_fullscreen ivi x).2.surf x).output.isSome = true := by
  obtain ⟨p, hp⟩ := find_some_of_any_true _ _ h
  unfold ivi_check_pending_desktop_surface_fullscreen
  simp only [hid, hp]
  refine ⟨trivial, ?_, ?_⟩
  · exact sr_set_fullscreen_pending _
      (sr_set_surf _ _ (fun _ => ⟨rfl, rfl, rfl⟩) (same_registry.refl ivi))
  · simp [set_surf, set_fullscreen_pending_apps]

theorem check_fullscreen_false (ivi : ivi_compositor) (x : Nat)
    (h : ∀ id, (ivi.surf x).app_id = some id →
      ivi.fullscreen_pending_apps.any (fun p => p.app_id = id) = false) :
    ivi_check_pending_desktop_surface_fullscreen ivi x = (false, ivi) := by
  unfold ivi_check_pending_desktop_surface_fullscreen
  cases hid : (ivi.surf x).app_id with
  | none => rfl
  | some id => simp only [find_none_of_any_false _ _ (h id hid)]

/-- A remote check that finds an entry returns true, leaves the registry as it was and
gives the surface an output. -/
theorem check_remote_true (ivi : ivi_compositor) (x : Nat) (id : String)
    (hid : (ivi.surf x).app_id = some id)
    (h : ivi.remote_pending_apps.any (fun p => p.app_id = id) = true) :
    (ivi_check_pending_desktop_surface_remote ivi x).1 = true ∧
    same_registry (ivi_check_pending_desktop_surface_remote ivi x).2 ivi ∧
    ((ivi_check_pending_desktop_surface_remote ivi x).2.surf x).output.isSome = true := by
  obtain ⟨p, hp⟩ := find_some_of_any_true _ _ h
  unfold ivi_check_pending_desktop_surface_remote
  simp only [hid, hp]
  refine ⟨trivial, ?_, ?_⟩
  · exact sr_set_remote_pending _
      (sr_set_surf _ _ (fun _ => ⟨rfl, rfl, rfl⟩) (same_registry.refl ivi))
  · simp [set_surf, set_remote_pending_apps]

theorem check_remote_false (ivi : ivi_compositor) (x : Nat)
    (h : ∀ id, (ivi.surf x).app_id = some id →
      ivi.remote_pending_apps.any (fun p => p.app_id = id) = false) :
    ivi_check_pending_desktop_surface_remote ivi x = (false, ivi) := by
  unfold ivi_check_pending_desktop_surface_remote
  cases hid : (ivi.surf x).app_id with
  | none => rfl
  | some id => simp only [find_none_of_any_false _ _ (h id hid)]

theorem find_app_of_same_registry {a b : ivi_compositor} (h : same_registry a b)
    (id : String) : ivi_find_app a id = ivi_find_app b id := by
  unfold ivi_find_app
  rw [h.surfaces]
  congr 1
  funext i
  rw [h.app_id i]

theorem advertise_of_total (a : ivi_compositor) (id : String) (st : Nat) :
    ∃ r, shell_advertise_app_state_of a (some id) st = some r :=
  ⟨_, rfl⟩

theorem popup_committed_total (a : ivi_compositor) (x : Nat)
    (ho : (a.surf x).output.isSome = true) (hr : (a.surf x).role = .POPUP)
    (hid : (a.surf x).app_id.isSome = true) :
    ∃ r, ivi_layout_popup_committed a x = some r := by
  unfold ivi_layout_popup_committed
  obtain ⟨o, ho⟩ := Option.isSome_iff_exists.mp ho
  obtain ⟨id, hid⟩ := Option.isSome_iff_exists.mp hid
  simp only [ho, hr, hid]
  split
  · exact ⟨_, rfl⟩
  split
  · exact ⟨_, rfl⟩
  simp only [ne_eq, not_true_eq_false, if_false]
  exact ⟨_, rfl⟩

theorem fullscreen_committed_total (a : ivi_compositor) (x : Nat)
    (ho : (a.surf x).output.isSome = true) (hr : (a.surf x).role = .FULLSCREEN)
    (hid : (a.surf x).app_id.isSome = true) :
    ∃ r, ivi_layout_fullscreen_committed a x = some r := by
  unfold ivi_layout_fullscreen_committed
  obtain ⟨o, ho⟩ := Option.isSome_iff_exists.mp ho
  obtain ⟨id, hid⟩ := Option.isSome_iff_exists.mp hid
  simp only [ho, hr, hid]
  split
  · exact ⟨_, rfl⟩
  split
  · exact ⟨_, rfl⟩
  simp only [ne_eq, not_true_eq_false, if_false]
  exact ⟨_, rfl⟩

theorem split_switch_total (r : ivi_surface_role) (w g : weston_geometry)
    (hr : r = .SPLIT_V ∨ r = .SPLIT_H) : ∃ p, split_switch r w g = some p := by
  rcases hr with hr | hr <;> subst hr <;> exact ⟨_, rfl⟩

theorem split_place_total (a : ivi_compositor) (x o : Nat) (p : split_placement)
    (hid : (a.surf x).app_id.isSome = true) : ∃ r, split_place a x o p = some r := by
  obtain ⟨id, hid⟩ := Option.isSome_iff_exists.mp hid
  unfold split_place
  simp only [hid]
  exact ⟨_, rfl⟩

theorem split_committed_total (a : ivi_compositor) (x : Nat)
    (ho : (a.surf x).output.isSome = true)
    (hr : (a.surf x).role = .SPLIT_V ∨ (a.surf x).role = .SPLIT_H)
    (hid : (a.surf x).app_id.isSome = true) :
    ∃ r, ivi_layout_split_committed a x = some r := by
  unfold ivi_layout_split_committed
  obtain ⟨o, ho⟩ := Option.isSome_iff_exists.mp ho
  simp only [ho]
  split
  · exact ⟨_, rfl⟩
  split
  · exact ⟨_, rfl⟩
  split
  · rename_i h
    rcases hr with hr | hr <;> simp [hr] at h
  · obtain ⟨p, hp⟩ := split_switch_total (a.surf x).role (a.out o).output
      ((set_out a o (fun o => { o with area_saved := o.area })).out o).area hr
    simp only [hp]
    exact split_place_total _ _ _ _ hid

theorem activate_by_surf_total (a : ivi_compositor) (o x : Nat)
    (hr : (a.surf x).role ≠ .POPUP) : ∃ r, ivi_layout_activate_by_surf a o x = some r := by
  unfold ivi_layout_activate_by_surf
  simp only [hr, if_false]
  repeat' (first
    | exact ⟨_, rfl⟩
    | split)

theorem activate_total (a : ivi_compositor) (o : Nat) (id : String) (x : Nat)
    (hf : ivi_find_app a id = some x) (hr : (a.surf x).role ≠ .POPUP) :
    ∃ r, ivi_layout_activate a o (some id) = some r := by
  unfold ivi_layout_activate
  simp only [hf]
  exact activate_by_surf_total a o x hr

theorem remove_black_surface_total (a : ivi_compositor) (o : Nat)
    (h : ((a.out o).black_view_is_mapped || (a.out o).black_surface_is_mapped) = true) :
    ∃ r, remove_black_surface a o = some r := by
  unfold remove_black_surface
  simp only [h, Bool.not_true, Bool.false_eq_true, if_false]
  exact ⟨_, rfl⟩

theorem default_activation_output_total (a : ivi_compositor) (id : Option String) :
    ∃ p, default_activation_output a id = some p := by
  unfold default_activation_output
  split
  · split
    · rename_i h
      obtain ⟨r, hr⟩ := remove_black_surface_total a _ h
      exact ⟨_, by rw [hr]; rfl⟩
    · exact ⟨_, rfl⟩
  · exact ⟨_, rfl⟩

/-- The default activation of a surface that `ivi_find_app` finds under its own `app_id`
and that is not a popup returns. -/
theorem desktop_committed_default_total (a : ivi_compositor) (x : Nat)
    (hr : (a.surf x).role ≠ .POPUP)
    (hf : ∀ id, (a.surf x).app_id = some id → ivi_find_app a id = some x) :
    ∃ r, ivi_layout_desktop_committed_default a x = some r := by
  unfold ivi_layout_desktop_committed_default
  lift_lets
  intro s
  split
  · exact ⟨_, rfl⟩
  split
  · exact ⟨_, rfl⟩
  obtain ⟨p, hp⟩ := default_activation_output_total a s.app_id
  have h1 : same_registry p.1 a := osr_default_activation_output _ (same_registry.refl a) p hp
  have hr1 : (p.1.surf x).role ≠ .POPUP := by rw [h1.role]; exact hr
  simp only [hp, Option.some_bind]
  split
  · exact ⟨_, rfl⟩
  split
  · exact ⟨_, rfl⟩
  split
  · rename_i id hid
    have hfind : ivi_find_app p.1 id = some x := by
      rw [find_app_of_same_registry h1]
      exact hf id hid
    obtain ⟨r, hr⟩ := activate_total p.1 _ id x hfind hr1
    exact ⟨_, by rw [hr]; rfl⟩
  · obtain ⟨r, hr⟩ := activate_by_surf_total p.1 ‹Nat› x hr1
    exact ⟨_, by rw [hr]; rfl⟩

theorem desktop_committed_remote_total (a : ivi_compositor) (x o : Nat)
    (hr : (a.surf x).role ≠ .POPUP)
    (hf : ∀ id, (a.surf x).app_id = some id → ivi_find_app a id = some x) :
    ∃ r, ivi_layout_desktop_committed_remote a x o = some r := by
  unfold ivi_layout_desktop_committed_remote
  lift_lets
  intro s
  split
  · exact ⟨_, rfl⟩
  split
  · exact ⟨_, rfl⟩
  split
  · rename_i id hid
    obtain ⟨r, hr⟩ := activate_total a o id x (hf id hid) hr
    exact ⟨_, by rw [hr]; rfl⟩
  · exact ⟨_, rfl⟩

/-- The commit of a desktop surface, or of a remote surface with an output, that
`ivi_find_app` finds under its own `app_id` returns. -/
theorem desktop_committed_total (a : ivi_compositor) (x : Nat)
    (hr : (a.surf x).role = .DESKTOP ∨
      ((a.surf x).role = .REMOTE ∧ (a.surf x).output.isSome = true))
    (hf : ∀ id, (a.surf x).app_id = some id → ivi_find_app a id = some x) :
    ∃ r, ivi_layout_desktop_committed a x = some r := by
  have hnp : (a.surf x).role ≠ .POPUP := by
    rcases hr with hr | hr
    · rw [hr]; decide
    · rw [hr.1]; decide
  unfold ivi_layout_desktop_committed
  lift_lets
  intro s
  split
  · rename_i h
    rcases hr with hr | hr
    · exact absurd hr h.1
    · exact absurd hr.1 h.2
  split
  · exact desktop_committed_default_total a x hnp hf
  split
  · exact desktop_committed_remote_total a x _ hnp hf
  · split
    · exact ⟨_, rfl⟩
    · split
      · rename_i h1 _ _ _ _ _ hnone
        exfalso
        rcases hr with hr | hr
        · exact h1 ⟨hr, hnone⟩
        · have h2 := hr.2
          have h3 : (a.surf x).output = none := hnone
          rw [h3] at h2
          exact absurd h2 (by decide)
      · split <;> exact ⟨_, rfl⟩

/-! ### The role setters -/

/-- What a role setter does to the registry: the surface gets role `R` and heads the
list `surfaces`; nothing else of the registry changes, and the surface keeps its
output and orientation. -/
theorem advertise_application_id_fields (a : ivi_compositor) (x : Nat) :
    same_registry (agl_shell_desktop_advertise_application_id a x) a ∧
    ∀ i, ((agl_shell_desktop_advertise_application_id a x).surf i).output = (a.surf i).output ∧
      ((agl_shell_desktop_advertise_application_id a x).surf i).orientation
        = (a.surf i).orientation := by
  refine ⟨sr_advertise_application_id _ (same_registry.refl a), ?_⟩
  intro i
  unfold agl_shell_desktop_advertise_application_id
  split
  · exact ⟨rfl, rfl⟩
  split
  · exact ⟨rfl, rfl⟩
  · exact ⟨rfl, rfl⟩
  · by_cases hi : i = x
    · subst hi
      simp [set_surf, send_messages]
    · simp [set_surf, send_messages, Function.update, hi]

theorem role_set.after {a r r2 : ivi_compositor} {x : Nat} {R : ivi_surface_role}
    (h : role_set a r x R) (h2 : same_registry r2 r) : role_set a r2 x R :=
  ⟨(h2.role x).trans h.role_self, fun i hi => (h2.role i).trans (h.role_other i hi),
   fun i => (h2.checked_pending i).trans (h.checked_pending i),
   fun i => (h2.app_id i).trans (h.app_id i), h2.surfaces.trans h.surfaces,
   h2.pending_surfaces.trans h.pending_surfaces, h2.ready.trans h.ready⟩

theorem role_set.before {a a2 r : ivi_compositor} {x : Nat} {R : ivi_surface_role}
    (h : role_set a r x R) (h2 : same_registry a a2) : role_set a2 r x R :=
  ⟨h.role_self, fun i hi => (h.role_other i hi).trans (h2.role i),
   fun i => (h.checked_pending i).trans (h2.checked_pending i),
   fun i => (h.app_id i).trans (h2.app_id i), by rw [h.surfaces, h2.surfaces],
   h.pending_surfaces.trans h2.pending_surfaces, h.ready.trans h2.ready⟩

/-- The registry after `role := R` and the insertion into `surfaces`. -/
theorem role_set_intro (a : ivi_compositor) (x : Nat) (R : ivi_surface_role)
    (f : ivi_surface → ivi_surface)
    (hf : ∀ s, (f s).role = R ∧ (f s).checked_pending = s.checked_pending ∧
      (f s).app_id = s.app_id) :
    role_set a (surfaces_insert (set_surf a x f) x) x R := by
  refine ⟨?_, ?_, ?_, ?_, rfl, rfl, rfl⟩
  · simp [surfaces_insert, set_surf, hf]
  · intro i hi
    simp [surfaces_insert, set_surf, Function.update, hi]
  · intro i
    by_cases hi : i = x
    · subst hi
      simp [surfaces_insert, set_surf, hf]
    · simp [surfaces_insert, set_surf, Function.update, hi]
  · intro i
    by_cases hi : i = x
    · subst hi
      simp [surfaces_insert, set_surf, hf]
    · simp [surfaces_insert, set_surf, Function.update, hi]

theorem set_desktop_surface_spec (a : ivi_compositor) (x : Nat)
    (h : (a.surf x).role = .NONE) :
    ∃ r, ivi_set_desktop_surface a x = some r ∧ role_set a r x .DESKTOP ∧
      (r.surf x).output = (a.surf x).output := by
  unfold ivi_set_desktop_surface
  simp only [h, ne_eq, not_true_eq_false, if_false]
  refine ⟨_, rfl, ?_, ?_⟩
  · refine role_set.after ?_ (advertise_application_id_fields _ x).1
    exact role_set_intro a x .DESKTOP _ (fun _ => ⟨rfl, rfl, rfl⟩)
  · rw [((advertise_application_id_fields _ x).2 x).1]
    simp [surfaces_insert, set_surf]

theorem set_desktop_surface_popup_spec (a : ivi_compositor) (x : Nat)
    (h : (a.surf x).role = .NONE) :
    ∃ r, ivi_set_desktop_surface_popup a x = some r ∧ role_set a r x .POPUP ∧
      (r.surf x).output = (a.surf x).output := by
  unfold ivi_set_desktop_surface_popup
  simp only [h, ne_eq, not_true_eq_false, if_false]
  refine ⟨_, rfl, ?_, ?_⟩
  · refine role_set.after ?_ (advertise_application_id_fields _ x).1
    exact role_set_intro a x .POPUP _ (fun _ => ⟨rfl, rfl, rfl⟩)
  · rw [((advertise_application_id_fields _ x).2 x).1]
    simp [surfaces_insert, set_surf]

theorem set_desktop_surface_fullscreen_spec (a : ivi_compositor) (x : Nat)
    (h : (a.surf x).role = .NONE) :
    ∃ r, ivi_set_desktop_surface_fullscreen a x = some r ∧ role_set a r x .FULLSCREEN ∧
      (r.surf x).output = (a.surf x).output := by
  unfold ivi_set_desktop_surface_fullscreen
  simp only [h, ne_eq, not_true_eq_false, if_false]
  refine ⟨_, rfl, ?_, ?_⟩
  · refine role_set.after ?_ (advertise_application_id_fields _ x).1
    exact role_set_intro a x .FULLSCREEN _ (fun _ => ⟨rfl, rfl, rfl⟩)
  · rw [((advertise_application_id_fields _ x).2 x).1]
    simp [surfaces_insert, set_surf]

theorem set_desktop_surface_split_spec (a : ivi_compositor) (x : Nat)
    (h : (a.surf x).role = .NONE) :
    ∃ r, ivi_set_desktop_surface_split a x = some r ∧
      role_set a r x (if (a.surf x).orientation = AGL_SHELL_DESKTOP_APP_ROLE_SPLIT_VERTICAL
        then .SPLIT_V else .SPLIT_H) ∧
      (r.surf x).output = (a.surf x).output := by
  unfold ivi_set_desktop_surface_split
  simp only [h, ne_eq, not_true_eq_false, if_false]
  refine ⟨_, rfl, ?_, ?_⟩
  · refine role_set.after ?_ (advertise_application_id_fields _ x).1
    refine ⟨?_, ?_, ?_, ?_, rfl, rfl, rfl⟩
    · simp [surfaces_insert, set_surf]
    · intro i hi
      simp [surfaces_insert, set_surf, Function.update, hi]
    · intro i
      by_cases hi : i = x
      · subst hi
        simp [surfaces_insert, set_surf]
      · simp [surfaces_insert, set_surf, Function.update, hi]
    · intro i
      by_cases hi : i = x
      · subst hi
        simp [surfaces_insert, set_surf]
      · simp [surfaces_insert, set_surf, Function.update, hi]
  · rw [((advertise_application_id_fields _ x).2 x).1]
    simp [surfaces_insert, set_surf]

theorem sr_surfaces_insert_role_set {a r : ivi_compositor} {x : Nat} {R : ivi_surface_role}
    (h1 : same_registry r (set_surf a x (fun s => { s with role := R }))) :
    role_set a (surfaces_insert r x) x R := by
  have h0 := role_set_intro a x R (fun s => { s with role := R }) (fun _ => ⟨rfl, rfl, rfl⟩)
  refine ⟨?_, ?_, ?_, ?_, ?_, ?_, ?_⟩
  · exact (h1.role x).trans h0.role_self
  · intro i hi
    exact (h1.role i).trans (h0.role_other i hi)
  · intro i
    exact (h1.checked_pending i).trans (h0.checked_pending i)
  · intro i
    exact (h1.app_id i).trans (h0.app_id i)
  · show x :: r.surfaces = x :: a.surfaces
    rw [h1.surfaces]
    rfl
  · exact h1.pending_surfaces
  · exact h1.ready

theorem remove_black_surface_surf (a : ivi_compositor) (o : Nat) :
    ∀ r, remove_black_surface a o = some r → r.surf = a.surf := by
  unfold remove_black_surface
  lift_lets
  intro o1 ivi1 r h
  split at h
  · cases h
  · cases h
    rfl

theorem set_desktop_surface_remote_spec (a : ivi_compositor) (x : Nat)
    (h : (a.surf x).role = .NONE) (ho : (a.surf x).output.isSome = true) :
    ∃ r, ivi_set_desktop_surface_remote a x = some r ∧ role_set a r x .REMOTE ∧
      (r.surf x).output = (a.surf x).output := by
  obtain ⟨o, ho⟩ := Option.isSome_iff_exists.mp ho
  unfold ivi_set_desktop_surface_remote
  simp only [h, ne_eq, not_true_eq_false, if_false, ho]
  split
  · rename_i hb
    obtain ⟨q, hq⟩ := remove_black_surface_total _ o hb
    refine ⟨surfaces_insert q x, by rw [hq]; rfl, ?_, ?_⟩
    · exact sr_surfaces_insert_role_set
        (osr_remove_black_surface o (same_registry.refl _) q hq)
    · show (q.surf x).output = _
      rw [remove_black_surface_surf _ _ _ hq]
      simp [set_surf, ho]
  · refine ⟨_, rfl, ?_, ?_⟩
    · exact sr_surfaces_insert_role_set (same_registry.refl _)
    · simp [surfaces_insert, set_surf, ho]

theorem find_app_head (r : ivi_compositor) (x : Nat) (l : List Nat) (id : String)
    (hs : r.surfaces = x :: l) (hid : (r.surf x).app_id = some id) :
    ivi_find_app r id = some x := by
  unfold ivi_find_app
  rw [hs]
  simp [List.find?, hid]


/-! ### The resolution itself -/

theorem resolve_desktop (ivi : ivi_compositor) (x : Nat) (h : (ivi.surf x).role = .NONE)
    (e1 : ivi_check_pending_desktop_surface_popup ivi x = (false, ivi))
    (e2 : ivi_check_pending_desktop_surface_split ivi x = (false, ivi))
    (e3 : ivi_check_pending_desktop_surface_fullscreen ivi x = (false, ivi))
    (e4 : ivi_check_pending_desktop_surface_remote ivi x = (false, ivi)) :
    ∃ r, ivi_check_pending_desktop_surface ivi x = some r ∧ role_set ivi r x .DESKTOP := by
  obtain ⟨q, hq, hrs, -⟩ := set_desktop_surface_spec ivi x h
  have hfind : ∀ id, (q.surf x).app_id = some id → ivi_find_app q id = some x :=
    fun id hid => find_app_head q x _ id hrs.surfaces hid
  obtain ⟨r, hr⟩ := desktop_committed_total q x (Or.inl hrs.role_self) hfind
  refine ⟨r, ?_, hrs.after (osr_desktop_committed x (same_registry.refl q) r hr)⟩
  unfold ivi_check_pending_desktop_surface
  simp only [e1, e2, e3, e4, Bool.false_eq_true, if_false, hq, Option.bind_eq_bind,
    Option.some_bind, hr]

theorem resolve_popup (ivi : ivi_compositor) (x : Nat) (h : (ivi.surf x).role = .NONE)
    (id : String) (hid : (ivi.surf x).app_id = some id)
    (hany : ivi.popup_pending_apps.any (fun p => p.app_id = id) = true) :
    ∃ r, ivi_check_pending_desktop_surface ivi x = some r ∧ role_set ivi r x .POPUP := by
  obtain ⟨h1, hsr, hout⟩ := check_popup_true ivi x id hid hany
  have hnone : ((ivi_check_pending_desktop_surface_popup ivi x).2.surf x).role = .NONE :=
    (hsr.role x).trans h
  obtain ⟨q, hq, hrs, hqo⟩ := set_desktop_surface_popup_spec _ x hnone
  have hqid : (q.surf x).app_id.isSome = true := by
    rw [hrs.app_id x, hsr.app_id x, hid]
    rfl
  obtain ⟨r, hr⟩ := popup_committed_total q x (by rw [hqo]; exact hout) hrs.role_self hqid
  refine ⟨r, ?_, (hrs.before hsr).after (osr_popup_committed x (same_registry.refl q) r hr)⟩
  unfold ivi_check_pending_desktop_surface
  simp only [h1, if_true, hq, Option.bind_eq_bind, Option.some_bind, hr]

theorem resolve_split (ivi : ivi_compositor) (x : Nat) (h : (ivi.surf x).role = .NONE)
    (id : String) (hid : (ivi.surf x).app_id = some id)
    (e1 : ivi_check_pending_desktop_surface_popup ivi x = (false, ivi))
    (p : pending_split)
    (hp : ivi.split_pending_apps.find? (fun p => p.app_id = id) = some p) :
    ∃ r, ivi_check_pending_desktop_surface ivi x = some r ∧
      role_set ivi r x (if p.orientation = AGL_SHELL_DESKTOP_APP_ROLE_SPLIT_VERTICAL
        then .SPLIT_V else .SPLIT_H) := by
  obtain ⟨h1, hsr, hout, hori⟩ := check_split_true ivi x id p hid hp
  have hnone : ((ivi_check_pending_desktop_surface_split ivi x).2.surf x).role = .NONE :=
    (hsr.role x).trans h
  obtain ⟨q, hq, hrs, hqo⟩ := set_desktop_surface_split_spec _ x hnone
  rw [hori] at hrs
  have hqid : (q.surf x).app_id.isSome = true := by
    rw [hrs.app_id x, hsr.app_id x, hid]
    rfl
  have hqr : (q.surf x).role = .SPLIT_V ∨ (q.surf x).role = .SPLIT_H := by
    rw [hrs.role_self]
    split
    · exact Or.inl rfl
    · exact Or.inr rfl
  obtain ⟨r, hr⟩ := split_committed_total q x (by rw [hqo]; exact hout) hqr hqid
  refine ⟨r, ?_, (hrs.before hsr).after (osr_split_committed x (same_registry.refl q) r hr)⟩
  unfold ivi_check_pending_desktop_surface
  simp only [e1, Bool.false_eq_true, if_false, h1, if_true, hq, Option.bind_eq_bind,
    Option.some_bind, hr]

theorem resolve_fullscreen (ivi : ivi_compositor) (x : Nat) (h : (ivi.surf x).role = .NONE)
    (id : String) (hid : (ivi.surf x).app_id = some id)
    (e1 : ivi_check_pending_desktop_surface_popup ivi x = (false, ivi))
    (e2 : ivi_check_pending_desktop_surface_split ivi x = (false, ivi))
    (hany : ivi.fullscreen_pending_apps.any (fun p => p.app_id = id) = true) :
    ∃ r, ivi_check_pending_desktop_surface ivi x = some r ∧ role_set ivi r x .FULLSCREEN := by
  obtain ⟨h1, hsr, hout⟩ := check_fullscreen_true ivi x id hid hany
  have hnone : ((ivi_check_pending_desktop_surface_fullscreen ivi x).2.surf x).role = .NONE :=
    (hsr.role x).trans h
  obtain ⟨q, hq, hrs, hqo⟩ := set_desktop_surface_fullscreen_spec _ x hnone
  have hqid : (q.surf x).app_id.isSome = true := by
    rw [hrs.app_id x, hsr.app_id x, hid]
    rfl
  obtain ⟨r, hr⟩ := fullscreen_committed_total q x (by rw [hqo]; exact hout) hrs.role_self hqid
  refine ⟨r, ?_,
    (hrs.before hsr).after (osr_fullscreen_committed x (same_registry.refl q) r hr)⟩
  unfold ivi_check_pending_desktop_surface
  simp only [e1, e2, Bool.false_eq_true, if_false, h1, if_true, hq, Option.bind_eq_bind,
    Option.some_bind, hr]

theorem resolve_remote (ivi : ivi_compositor) (x : Nat) (h : (ivi.surf x).role = .NONE)
    (id : String) (hid : (ivi.surf x).app_id = some id)
    (e1 : ivi_check_pending_desktop_surface_popup ivi x = (false, ivi))
    (e2 : ivi_check_pending_desktop_surface_split ivi x = (false, ivi))
    (e3 : ivi_check_pending_desktop_surface_fullscreen ivi x = (false, ivi))
    (hany : ivi.remote_pending_apps.any (fun p => p.app_id = id) = true) :
    ∃ r, ivi_check_pending_desktop_surface ivi x = some r ∧ role_set ivi r x .REMOTE := by
  obtain ⟨h1, hsr, hout⟩ := check_remote_true ivi x id hid hany
  have hnone : ((ivi_check_pending_desktop_surface_remote ivi x).2.surf x).role = .NONE :=
    (hsr.role x).trans h
  obtain ⟨q, hq, hrs, hqo⟩ := set_desktop_surface_remote_spec _ x hnone hout
  have hfind : ∀ id, (q.surf x).app_id = some id → ivi_find_app q id = some x :=
    fun id hid => find_app_head q x _ id hrs.surfaces hid
  obtain ⟨r, hr⟩ := desktop_committed_total q x
    (Or.inr ⟨hrs.role_self, by rw [hqo]; exact hout⟩) hfind
  refine ⟨r, ?_, (hrs.before hsr).after (osr_desktop_committed x (same_registry.refl q) r hr)⟩
  unfold ivi_check_pending_desktop_surface
  simp only [e1, e2, e3, Bool.false_eq_true, if_false, h1, if_true, hq, Option.bind_eq_bind,
    Option.some_bind, hr]

/-- Resolution of a surface without a role returns and assigns exactly the role the
pending queues hold for it, touching nothing else of the registry. -/
theorem check_pending_desktop_surface_spec (ivi : ivi_compositor) (x : Nat)
    (h : (ivi.surf x).role = .NONE) :
    ∃ r, ivi_check_pending_desktop_surface ivi x = some r ∧
      role_set ivi r x (pending_role ivi x) := by
  unfold pending_role
  cases hid : (ivi.surf x).app_id with
  | none =>
    have hn : ∀ id, (ivi.surf x).app_id = some id → False := by
      intro id h2
      rw [hid] at h2
      cases h2
    exact resolve_desktop ivi x h
      (check_popup_false ivi x (fun id h2 => (hn id h2).elim))
      (check_split_false ivi x (fun id h2 => (hn id h2).elim))
      (check_fullscreen_false ivi x (fun id h2 => (hn id h2).elim))
      (check_remote_false ivi x (fun id h2 => (hn id h2).elim))
  | some id =>
    have hi : ∀ id2, (ivi.surf x).app_id = some id2 → id2 = id := by
      intro id2 h2
      rw [hid] at h2
      exact (Option.some.inj h2).symm
    simp only []
    by_cases hp : ivi.popup_pending_apps.any (fun p => p.app_id = id) = true
    · simp only [hp, if_true]
      exact resolve_popup ivi x h id hid hp
    · have e1 := check_popup_false ivi x (fun id2 h2 => by
        rw [hi id2 h2]
        exact Bool.eq_false_iff.mpr hp)
      simp only [hp, Bool.false_eq_true, if_false]
      cases hs : ivi.split_pending_apps.find? (fun p => p.app_id = id) with
      | some p => exact resolve_split ivi x h id hid e1 p hs
      | none =>
        have e2 := check_split_false ivi x (fun id2 h2 => by
          rw [hi id2 h2]
          exact hs)
        simp only []
        by_cases hf : ivi.fullscreen_pending_apps.any (fun p => p.app_id = id) = true
        · simp only [hf, if_true]
          exact resolve_fullscreen ivi x h id hid e1 e2 hf
        · have e3 := check_fullscreen_false ivi x (fun id2 h2 => by
            rw [hi id2 h2]
            exact Bool.eq_false_iff.mpr hf)
          simp only [hf, Bool.false_eq_true, if_false]
          by_cases hr : ivi.remote_pending_apps.any (fun p => p.app_id = id) = true
          · simp only [hr, if_true]
            exact resolve_remote ivi x h id hid e1 e2 e3 hr
          · have e4 := check_remote_false ivi x (fun id2 h2 => by
              rw [hi id2 h2]
              exact Bool.eq_false_iff.mpr hr)
            simp only [hr, Bool.false_eq_true, if_false]
            exact resolve_desktop ivi x h e1 e2 e3 e4

/-- C3. For every state of the four pending queues and every surface without a role,
`ivi_check_pending_desktop_surface` returns and leaves the surface with the role of the
first queue, in the order popup, split, fullscreen, remote, that holds an entry with the
surface's `app_id`, and with the plain desktop role when no queue has one or the surface
has no `app_id`; an `app_id` with a pending popup entry resolves to popup whatever the
other queues hold. -/
theorem ivi_check_pending_desktop_surface_priority (ivi : ivi_compositor) (x : Nat)
    (h : (ivi.surf x).role = .NONE) :
    ∃ r, ivi_check_pending_desktop_surface ivi x = some r ∧
      (r.surf x).role = pending_role ivi x ∧
      (∀ id, (ivi.surf x).app_id = some id →
        ivi.popup_pending_apps.any (fun p => p.app_id = id) = true →
        (r.surf x).role = .POPUP) ∧
      ((ivi.surf x).app_id = none → (r.surf x).role = .DESKTOP) := by
  obtain ⟨r, hr, hrs⟩ := check_pending_desktop_surface_spec ivi x h
  refine ⟨r, hr, hrs.role_self, ?_, ?_⟩
  · intro id hid hany
    rw [hrs.role_self]
    simp [pending_role, hid, hany]
  · intro hid
    rw [hrs.role_self]
    simp [pending_role, hid]

/-- C3, the priority scenario: the surface of "nav" has no role, "nav" is pending as
split and as popup, and the resolution returns with the popup role. -/
theorem ivi_check_pending_desktop_surface_priority_scenario :
    (scenario_priority.surf 3).role = .NONE ∧
    scenario_priority.split_pending_apps.any (fun p => p.app_id = "nav") = true ∧
    scenario_priority.popup_pending_apps.any (fun p => p.app_id = "nav") = true ∧
    ∃ r, ivi_check_pending_desktop_surface scenario_priority 3 = some r ∧
      (r.surf 3).role = .POPUP :=
  ⟨by decide, by decide, by decide,
    (ivi_check_pending_desktop_surface_priority scenario_priority 3 (by decide)).imp
      (fun _ hr => ⟨hr.1, hr.2.2.1 "nav" (by decide) (by decide)⟩)⟩

/-! ## The policy engine -/

/-- C4. A state change to the current state returns `-1` and leaves the whole world as
it was: no rule action ran and no timer was armed (the trace and the timers are the
same), and `current_state`, `previous_state` and the rule list are unchanged. -/
theorem ivi_policy_state_change_same_state (w : policy_world) :
    ivi_policy_state_change w w.policy.current_state = some (-1, w) := by
  simp [ivi_policy_state_change]

theorem try_event_fields (w w1 : policy_world) (a : ivi_a_policy)
    (h : ivi_policy_try_event w a = some w1) :
    w1.policy = w.policy ∧ w1.timers = w.timers ∧
      w1.trace = w.trace ++ [policy_step.try_event a] := by
  unfold ivi_policy_try_event at h
  split at h
  · cases h
    exact ⟨rfl, rfl, rfl⟩
  · simp only [Option.map_eq_some'] at h
    obtain ⟨i, -, rfl⟩ := h
    exact ⟨rfl, rfl, rfl⟩

theorem handle_rule_fields (w w1 : policy_world) (r : Nat × ivi_a_policy)
    (h : handle_rule w r = some w1) :
    w1.policy = w.policy ∧ w1.trace = w.trace ++ [step_of_rule r] ∧
      w1.timers = w.timers ++ (if r.2.timeout > 0 then [(r.1, r.2.timeout)] else []) := by
  unfold handle_rule at h
  unfold step_of_rule
  by_cases ht : r.2.timeout > 0
  · simp only [ht, if_true, Option.some.injEq] at h
    subst h
    simp [ivi_policy_setup_event_timeout, ht]
  · simp only [ht, if_false] at h
    obtain ⟨h1, h2, h3⟩ := try_event_fields w w1 r.2 h
    simp [ht, h1, h2, h3]

theorem handle_rules_fields (l : List (Nat × ivi_a_policy)) :
    ∀ (w w1 : policy_world), handle_rules w l = some w1 →
      w1.policy = w.policy ∧ w1.trace = w.trace ++ l.map step_of_rule ∧
      w1.timers = w.timers ++
        (l.filter (fun r => r.2.timeout > 0)).map (fun r => (r.1, r.2.timeout)) := by
  induction l with
  | nil =>
    intro w w1 h
    simp only [handle_rules, Option.some.injEq] at h
    subst h
    simp
  | cons r rest ih =>
    intro w w1 h
    unfold handle_rules at h
    cases hr : handle_rule w r with
    | none => simp [hr] at h
    | some w2 =>
      simp only [hr] at h
      obtain ⟨h1, h2, h3⟩ := handle_rule_fields w w2 r hr
      obtain ⟨g1, g2, g3⟩ := ih w2 w1 h
      refine ⟨g1.trans h1, ?_, ?_⟩
      · rw [g2, h2]
        simp
      · rw [g3, h3]
        by_cases ht : r.2.timeout > 0 <;> simp [List.filter, ht]

/-- The loop of `ivi_policy_check_policies` handles the rules whose state is the
current state, and no other. -/
theorem check_policies_loop_eq (l : List ivi_a_policy) :
    ∀ (w : policy_world),
      ivi_policy_check_policies_loop w l
        = handle_rules w (matching_rules l w.policy.current_state) := by
  induction l with
  | nil =>
    intro w
    rfl
  | cons a rest ih =>
    intro w
    unfold ivi_policy_check_policies_loop matching_rules
    by_cases hs : w.policy.current_state = a.state
    · simp only [hs, if_true]
      unfold handle_rules handle_rule
      by_cases ht : a.timeout > 0
      · simp only [ht, if_true]
        rw [ih _]
        simp [ivi_policy_setup_event_timeout, hs]
      · simp only [ht, if_false]
        cases he : ivi_policy_try_event w a with
        | none => rfl
        | some w2 =>
          simp only []
          rw [ih _]
          rw [(try_event_fields w w2 a he).1, hs]
    · simp only [hs, if_false]
      exact ih w

theorem check_policies_loop_policy (l : List ivi_a_policy) (w w1 : policy_world)
    (h : ivi_policy_check_policies_loop w l = some w1) : w1.policy = w.policy := by
  rw [check_policies_loop_eq] at h
  exact (handle_rules_fields _ w w1 h).1

theorem try_event_timeout_policy (w w2 : policy_world) (k : Nat)
    (h : ivi_policy_try_event_timeout w k = some w2) : w2.policy = w.policy := by
  unfold ivi_policy_try_event_timeout at h
  split at h
  · cases h
    rfl
  · split at h
    · cases h
    · exact (try_event_fields _ w2 _ h).1

/-- The loop of `ivi_policy_check_policies` runs the callback on the immediate rules of
the current state and arms the timers of its deferred rules. -/
theorem check_policies_loop_spec (l : List ivi_a_policy) :
    ∀ (w : policy_world),
      ivi_policy_check_policies_loop w l
        = (run_actions w.policy.policy_rule_try_event w.ivi
            (immediate_rules l w.policy.current_state)).map (fun ivi1 =>
          { ivi := ivi1, policy := w.policy,
            timers := w.timers ++ deferred_timers l w.policy.current_state,
            trace := w.trace ++ (matching_rules l w.policy.current_state).map step_of_rule }) := by
  induction l with
  | nil =>
    intro w
    simp [ivi_policy_check_policies_loop, immediate_rules, deferred_timers, matching_rules,
      run_actions]
  | cons a rest ih =>
    intro w
    unfold ivi_policy_check_policies_loop
    by_cases hs : w.policy.current_state = a.state
    · by_cases ht : a.timeout > 0
      · have ht0 : a.timeout ≠ 0 := by omega
        rw [if_pos hs, if_pos ht, ih]
        simp [immediate_rules, deferred_timers, matching_rules, hs, ht, ht0,
          ivi_policy_setup_event_timeout, step_of_rule, List.filter]
      · have ht0 : a.timeout = 0 := by omega
        rw [if_pos hs, if_neg ht]
        have him : immediate_rules (a :: rest) w.policy.current_state
            = a :: immediate_rules rest w.policy.current_state := by
          simp [immediate_rules, hs, ht0, List.filter]
        have hdt : deferred_timers (a :: rest) w.policy.current_state
            = deferred_timers rest w.policy.current_state := by
          simp [deferred_timers, matching_rules, hs, ht0, List.filter]
        have hmr : (matching_rules (a :: rest) w.policy.current_state).map step_of_rule
            = policy_step.try_event a
              :: (matching_rules rest w.policy.current_state).map step_of_rule := by
          simp [matching_rules, hs, step_of_rule, ht0]
        rw [him, hdt, hmr]
        unfold ivi_policy_try_event run_actions
        cases hf : w.policy.policy_rule_try_event with
        | none =>
          simp only [ih, hf]
          simp
        | some f =>
          cases hg : f a w.ivi with
          | none => simp [hg]
          | some i =>
            simp only [hg, Option.map_some', ih, hf]
            simp
    · rw [if_neg hs, ih]
      have hs2 : ¬ a.state = w.policy.current_state := fun h => hs h.symm
      simp [immediate_rules, deferred_timers, matching_rules, hs, hs2, List.filter]

/-- A state change to a registered state other than the current one is the state
change of the specification. -/
theorem state_change_eq_spec (w : policy_world) (state : Nat)
    (hne : w.policy.current_state ≠ state)
    (hknown : ivi_policy_state_is_known state w.policy = true) :
    ivi_policy_state_change w state = state_change_spec w state := by
  unfold ivi_policy_state_change ivi_policy_check_policies state_change_spec
  simp only [hne, if_false, hknown, Bool.not_true, Bool.false_eq_true]
  rw [check_policies_loop_spec]
  simp only [Option.map_map]
  rfl

/-- A `set_panel` request for an occupied edge with a surface without a role posts one
error, with the code `AGL_SHELL_ERROR_BACKGROUND_EXISTS`, and changes nothing else. -/
theorem shell_set_panel_occupied (ivi : ivi_compositor) (surf output edge first : Nat)
    (hrole : (ivi.surf surf).role = .NONE)
    (hmem : panel_member (ivi.out output) edge = some (some first)) :
    shell_set_panel ivi (some surf) output edge =
      send_messages ivi [shell_message.post_error .AGL_SHELL_ERROR_BACKGROUND_EXISTS
        "output already has panel on this edge"] := by
  unfold shell_set_panel
  simp only [hrole, ne_eq, not_true_eq_false, if_false, hmem]
  rfl

/-- C7, the code at the failing input. In scenario E output 0 has surface 1 as top panel
and surface 6 has no role; `set_panel (6, output 0, top)` leaves the edge, the role and
the `checked_pending` flag as they were, and the one error it posts carries the code
`AGL_SHELL_ERROR_BACKGROUND_EXISTS`, the code `set_background` posts for an output that
already has a background. -/
theorem shell_set_panel_twice_posts_background_exists :
    ((scenario_e.out 0).top, (scenario_e.surf 6).role, (scenario_e.surf 6).checked_pending)
      = (some 1, .NONE, false) ∧
    (((shell_set_panel scenario_e (some 6) 0 AGL_SHELL_EDGE_TOP).out 0).top,
      ((shell_set_panel scenario_e (some 6) 0 AGL_SHELL_EDGE_TOP).surf 6).role,
      ((shell_set_panel scenario_e (some 6) 0 AGL_SHELL_EDGE_TOP).surf 6).checked_pending,
      (shell_set_panel scenario_e (some 6) 0 AGL_SHELL_EDGE_TOP).sent)
      = (some 1, .NONE, false,
          [shell_message.post_error .AGL_SHELL_ERROR_BACKGROUND_EXISTS
            "output already has panel on this edge"]) ∧
    (shell_set_background scenario_e (some 6) 0).sent
      = [shell_message.post_error .AGL_SHELL_ERROR_BACKGROUND_EXISTS
          "output already has background"] := by
  decide

/-! ## Roles are assigned once -/

theorem osr_background_init {a b : ivi_compositor} (o : Nat)
    (h : same_registry a b) : opt_same_registry (ivi_background_init a o) b := by
  unfold ivi_background_init
  split
  · exact osr_some h
  · split
    · exact osr_none _
    · exact osr_some (sr_layer_insert _ _ (sr_set_surf _ _ (fun _ => ⟨rfl, rfl, rfl⟩) h))

theorem osr_panel_init {a b : ivi_compositor} (o : Nat) (p : Option Nat)
    (h : same_registry a b) : opt_same_registry (ivi_panel_init a o p) b := by
  unfold ivi_panel_init
  split
  · exact osr_some h
  · split
    · exact osr_none _
    · exact osr_some (sr_layer_insert _ _
        (sr_set_surf _ _ (fun _ => ⟨rfl, rfl, rfl⟩) (sr_set_out _ _ h)))

theorem osr_layout_init {a b : ivi_compositor} (o : Nat)
    (h : same_registry a b) : opt_same_registry (ivi_layout_init a o) b := by
  intro r hr
  unfold ivi_layout_init at hr
  simp only [Option.bind_eq_bind, Option.bind_eq_some] at hr
  obtain ⟨i1, h1, i3, h3, i4, h4, i5, h5, h6⟩ := hr
  have s1 := osr_background_init o h i1 h1
  have s3 := osr_panel_init o _ (sr_set_out o _ s1) i3 h3
  have s4 := osr_panel_init o _ s3 i4 h4
  have s5 := osr_panel_init o _ s4 i5 h5
  exact osr_panel_init o _ s5 r h6

theorem osr_shell_ready_output {a b : ivi_compositor} (o : Nat)
    (h : same_registry a b) : opt_same_registry (shell_ready_output a o) b := by
  intro r hr
  unfold shell_ready_output at hr
  simp only [Option.bind_eq_some] at hr
  obtain ⟨i1, h1, h2⟩ := hr
  have s1 : same_registry i1 b := by
    split at h1
    · exact osr_remove_black_surface o h i1 h1
    · rw [← Option.some.inj h1]
      exact h
  exact osr_layout_init o s1 r h2

theorem osr_foldlM (f : ivi_compositor → Nat → Option ivi_compositor)
    (hf : ∀ (a b : ivi_compositor) (x : Nat), same_registry a b → opt_same_registry (f a x) b) :
    ∀ (l : List Nat) (a b : ivi_compositor), same_registry a b →
      opt_same_registry (l.foldlM f a) b := by
  intro l
  induction l with
  | nil =>
    intro a b h r hr
    simp only [List.foldlM_nil] at hr
    rw [← Option.some.inj hr]
    exact h
  | cons x l ih =>
    intro a b h r hr
    simp only [List.foldlM_cons, Option.bind_eq_bind, Option.bind_eq_some] at hr
    obtain ⟨a1, h1, h2⟩ := hr
    exact ih a1 b (hf a b x h a1 h1) r h2

theorem sr_foldl (f : ivi_compositor → Nat → ivi_compositor)
    (hf : ∀ (a b : ivi_compositor) (x : Nat), same_registry a b → same_registry (f a x) b) :
    ∀ (l : List Nat) (a b : ivi_compositor), same_registry a b →
      same_registry (l.foldl f a) b := by
  intro l
  induction l with
  | nil => intro a b h; exact h
  | cons x l ih => intro a b h; exact ih _ _ (hf a b x h)

theorem sr_unbind_output {a b : ivi_compositor} (o : Nat)
    (h : same_registry a b) : same_registry (unbind_agl_shell_output a o) b := by
  unfold unbind_agl_shell_output
  lift_lets
  intro ivi1
  refine sr_insert_black_surface o ?_
  unfold ivi1
  split
  · exact h
  · exact sr_set_out _ _ (sr_layer_remove _ (sr_set_surf _ _ (fun _ => ⟨rfl, rfl, rfl⟩) h))

theorem sr_set_app_property (a : ivi_compositor) (app_id : String) (role : Nat)
    (x y bx bY width height : Int) (output : Nat) :
    same_registry
      (shell_desktop_set_app_property a app_id role x y bx bY width height output) a := by
  unfold shell_desktop_set_app_property ivi_set_pending_desktop_surface_popup
    ivi_set_pending_desktop_surface_fullscreen ivi_set_pending_desktop_surface_split
    ivi_set_pending_desktop_surface_remote
  repeat' (first
    | exact same_registry.refl a
    | exact sr_set_popup_pending _ (same_registry.refl a)
    | exact sr_set_split_pending _ (same_registry.refl a)
    | exact sr_set_fullscreen_pending _ (same_registry.refl a)
    | exact sr_set_remote_pending _ (same_registry.refl a)
    | split)

theorem sr_bind_agl_shell (a : ivi_compositor) (client resource : Nat) :
    same_registry (bind_agl_shell a client resource) a := by
  unfold bind_agl_shell
  lift_lets
  intro refused
  split
  · exact sr_sent _ (same_registry.refl a)
  · split
    · exact sr_sent _ (same_registry.refl a)
    · exact ⟨fun _ => rfl, fun _ => rfl, fun _ => rfl, rfl, rfl, rfl⟩

theorem osr_committed_switch {a b : ivi_compositor} (x : Nat)
    (h : same_registry a b) : opt_same_registry (desktop_committed_switch a x) b := by
  unfold desktop_committed_switch
  repeat' (first
    | exact osr_desktop_committed x h
    | exact osr_popup_committed x h
    | exact osr_fullscreen_committed x h
    | exact osr_split_committed x h
    | exact osr_some h
    | split)

theorem sr_committed_advertise {a b : ivi_compositor} (x : Nat)
    (h : same_registry a b) : same_registry (desktop_committed_advertise a x) b := by
  unfold desktop_committed_advertise
  split
  · exact sr_advertise_application_id x h
  · exact h

theorem pending_role_ne_none (a : ivi_compositor) (x : Nat) : pending_role a x ≠ .NONE := by
  unfold pending_role
  repeat' (first | (intro h; cases h) | split)

theorem role_kept.rk_refl (a : ivi_compositor) : role_kept a a := fun _ _ => rfl

theorem role_kept.rk_trans {a b c : ivi_compositor} (h1 : role_kept a b) (h2 : role_kept b c) :
    role_kept a c := by
  intro x hx
  have e1 := h1 x hx
  have e2 := h2 x (by rw [e1]; exact hx)
  exact e2.trans e1

theorem role_kept_of_same_registry {a b : ivi_compositor} (h : same_registry b a) :
    role_kept a b := fun x _ => h.role x

theorem roles_wf_of_same_registry {a b : ivi_compositor} {live : List Nat}
    (h : same_registry b a) (hw : roles_wf a live) : roles_wf b live := by
  refine ⟨?_, ?_, ?_, ?_⟩
  · intro x hx
    rw [h.checked_pending x]
    exact hw.checked x (by rw [← h.role x]; exact hx)
  · intro x hx
    exact hw.has_role_live x (by rw [← h.role x]; exact hx)
  · intro x hx
    rw [h.pending_surfaces] at hx
    rw [h.role x]
    exact hw.pending x hx
  · rw [h.pending_surfaces]
    exact hw.nodup

theorem role_assigned.ra_after {a b c : ivi_compositor} {x : Nat} (h : role_assigned a b x)
    (h2 : same_registry c b) : role_assigned a c x :=
  ⟨by rw [h2.role x]; exact h.role_self, (h2.checked_pending x).trans h.checked_self,
   fun i hi => (h2.role i).trans (h.role_other i hi),
   fun i hi => (h2.checked_pending i).trans (h.checked_other i hi),
   h2.pending_surfaces.trans h.pending⟩

/-- A role given to a live surface without a role keeps the bookkeeping and every role
that was assigned before. -/
theorem roles_wf_of_assigned {a b : ivi_compositor} {live : List Nat} {x : Nat}
    (hw : roles_wf a live) (hx : x ∈ live) (h : role_assigned a b x) :
    roles_wf b live ∧ ((a.surf x).role = .NONE → role_kept a b) := by
  refine ⟨⟨?_, ?_, ?_, ?_⟩, ?_⟩
  · intro i hi
    by_cases e : i = x
    · rw [e]
      exact h.checked_self
    · rw [h.checked_other i e]
      exact hw.checked i (by rw [← h.role_other i e]; exact hi)
  · intro i hi
    by_cases e : i = x
    · rw [e]
      exact hx
    · exact hw.has_role_live i (by rw [← h.role_other i e]; exact hi)
  · intro i hi
    rw [h.pending, List.mem_filter] at hi
    have e : i ≠ x := by simpa using hi.2
    rw [h.role_other i e]
    exact hw.pending i hi.1
  · rw [h.pending]
    exact hw.nodup.filter _
  · intro hn i hi
    by_cases e : i = x
    · rw [e] at hi
      exact absurd hn hi
    · exact h.role_other i e

/-- The check against the pending queues run on a surface without a role returns and
assigns a role. -/
theorem check_pending_and_mark_spec (a : ivi_compositor) (x : Nat)
    (h : (a.surf x).role = .NONE) :
    ∃ r, check_pending_and_mark a x = some r ∧ role_assigned a r x := by
  have h0 : ((surface_unlink a x).surf x).role = .NONE := h
  obtain ⟨r, hr, hrs⟩ := check_pending_desktop_surface_spec (surface_unlink a x) x h0
  refine ⟨set_surf r x (fun s => { s with checked_pending := true }), ?_, ?_⟩
  · unfold check_pending_and_mark
    rw [hr]
    rfl
  · refine ⟨?_, ?_, ?_, ?_, ?_⟩
    · have e : ((set_surf r x (fun s => { s with checked_pending := true })).surf x).role
          = (r.surf x).role := by simp [set_surf]
      rw [e, hrs.role_self]
      exact pending_role_ne_none _ _
    · simp [set_surf]
    · intro i hi
      have e : ((set_surf r x (fun s => { s with checked_pending := true })).surf i).role
          = (r.surf i).role := by simp [set_surf, Function.update, hi]
      rw [e, hrs.role_other i hi]
      rfl
    · intro i hi
      have e : ((set_surf r x (fun s => { s with checked_pending := true })).surf i).checked_pending
          = (r.surf i).checked_pending := by simp [set_surf, Function.update, hi]
      rw [e, hrs.checked_pending i]
      rfl
    · have e : (set_surf r x (fun s => { s with checked_pending := true })).pending_surfaces
          = r.pending_surfaces := rfl
      rw [e, hrs.pending_surfaces]
      rfl

/-- The second loop of `shell_ready` returns on pending surfaces that are live, linked
once and without a role, and keeps every role assigned before. -/
theorem shell_ready_surfaces_spec (live : List Nat) :
    ∀ (l : List Nat) (s : ivi_compositor), roles_wf s live → l.Nodup →
      (∀ x, x ∈ l → (s.surf x).role = .NONE ∧ x ∈ live) →
      ∃ r, l.foldlM shell_ready_surface s = some r ∧ roles_wf r live ∧ role_kept s r := by
  intro l
  induction l with
  | nil =>
    intro s hw _ _
    exact ⟨s, rfl, hw, role_kept.rk_refl s⟩
  | cons x l ih =>
    intro s hw hnd hl
    have hx := hl x (List.mem_cons_self x l)
    obtain ⟨s1, h1, ha⟩ := check_pending_and_mark_spec s x hx.1
    have hw1 := roles_wf_of_assigned hw hx.2 ha
    have hnd2 := List.nodup_cons.mp hnd
    have hl1 : ∀ y, y ∈ l → (s1.surf y).role = .NONE ∧ y ∈ live := by
      intro y hy
      have hyx : y ≠ x := fun e => hnd2.1 (e ▸ hy)
      have hy2 := hl y (List.mem_cons_of_mem x hy)
      exact ⟨(ha.role_other y hyx).trans hy2.1, hy2.2⟩
    obtain ⟨r, hr, hwr, hk⟩ := ih s1 hw1.1 hnd2.2 hl1
    refine ⟨r, ?_, hwr, (hw1.2 hx.1).rk_trans hk⟩
    simp only [List.foldlM_cons, Option.bind_eq_bind, Option.bind_eq_some]
    exact ⟨s1, h1, hr⟩

theorem shell_ready_wf {a b : ivi_compositor} {live : List Nat} (hw : roles_wf a live)
    (h : shell_ready a = some b) : roles_wf b live ∧ role_kept a b := by
  unfold shell_ready at h
  split at h
  · rw [← Option.some.inj h]
    exact ⟨hw, role_kept.rk_refl a⟩
  · simp only [Option.bind_eq_some] at h
    obtain ⟨i2, h2, h3⟩ := h
    have h0 : same_registry { a with shell_client_ready := true } { a with shell_client_ready := true } :=
      same_registry.refl _
    have hs := osr_foldlM shell_ready_output
      (fun a b x h => osr_shell_ready_output x h) a.outputs _ _ h0 i2 h2
    have hw1 : roles_wf { a with shell_client_ready := true } live :=
      ⟨hw.checked, hw.has_role_live, hw.pending, hw.nodup⟩
    have hw2 := roles_wf_of_same_registry hs hw1
    obtain ⟨r, hr, hwr, hk⟩ := shell_ready_surfaces_spec live i2.pending_surfaces i2 hw2
      hw2.nodup hw2.pending
    rw [hr] at h3
    rw [← Option.some.inj h3]
    refine ⟨hwr, ?_⟩
    intro x hx
    have e : (i2.surf x).role = (a.surf x).role := hs.role x
    rw [← e]
    exact hk x (by rw [e]; exact hx)

theorem desktop_committed_wf {a b : ivi_compositor} {live : List Nat} {x : Nat}
    (hw : roles_wf a live) (hx : x ∈ live) (h : desktop_committed a x = some b) :
    roles_wf b live ∧ role_kept a b := by
  unfold desktop_committed at h
  split at h
  · rw [← Option.some.inj h]
    exact ⟨hw, role_kept.rk_refl a⟩
  · simp only [Option.bind_eq_some] at h
    obtain ⟨i1, h1, h2⟩ := h
    have hsr : same_registry b i1 :=
      osr_committed_switch x (sr_committed_advertise x (same_registry.refl i1)) b h2
    split at h1
    · rename_i hc
      have hrole : (a.surf x).role = .NONE := by
        by_contra hne
        have := hw.checked x hne
        rw [hc.2] at this
        cases this
      obtain ⟨r, hr, ha⟩ := check_pending_and_mark_spec a x hrole
      rw [hr] at h1
      rw [Option.some.inj h1] at ha
      have hb := roles_wf_of_assigned hw hx (ha.ra_after hsr)
      exact ⟨hb.1, hb.2 hrole⟩
    · rw [← Option.some.inj h1] at hsr
      exact ⟨roles_wf_of_same_registry hsr hw, role_kept_of_same_registry hsr⟩

theorem set_background_assigned (a : ivi_compositor) (x o : Nat)
    (h1 : (a.surf x).role = .NONE) (h2 : ((a.out o).background).isSome = false) :
    role_assigned a (shell_set_background a (some x) o) x := by
  unfold shell_set_background
  simp only [h1, h2, ne_eq, not_true_eq_false, if_false, Bool.false_eq_true]
  refine ⟨?_, ?_, ?_, ?_, rfl⟩
  · simp [set_surf, set_out, surface_unlink]
  · simp [set_surf, set_out, surface_unlink]
  · intro i hi
    simp [set_surf, set_out, surface_unlink, Function.update, hi]
  · intro i hi
    simp [set_surf, set_out, surface_unlink, Function.update, hi]

theorem shell_set_background_wf {a : ivi_compositor} {live : List Nat} (surface : Option Nat)
    (o : Nat) (hw : roles_wf a live) (hx : ∀ x : Nat, surface = some x → x ∈ live) :
    roles_wf (shell_set_background a surface o) live ∧
      role_kept a (shell_set_background a surface o) := by
  cases surface with
  | none =>
    have h : same_registry (shell_set_background a none o) a := sr_post_error _ _ (same_registry.refl a)
    exact ⟨roles_wf_of_same_registry h hw, role_kept_of_same_registry h⟩
  | some x =>
    by_cases h1 : (a.surf x).role = .NONE
    · by_cases h2 : ((a.out o).background).isSome = false
      · have hb := roles_wf_of_assigned hw (hx x rfl) (set_background_assigned a x o h1 h2)
        exact ⟨hb.1, hb.2 h1⟩
      · have h : same_registry (shell_set_background a (some x) o) a := by
          unfold shell_set_background
          simp only [h1, ne_eq, not_true_eq_false, if_false]
          rw [if_pos (by simpa using (Bool.not_eq_false _).mp h2)]
          exact sr_post_error _ _ (same_registry.refl a)
        exact ⟨roles_wf_of_same_registry h hw, role_kept_of_same_registry h⟩
    · have h : same_registry (shell_set_background a (some x) o) a := by
        unfold shell_set_background
        simp only [ne_eq, h1, not_false_eq_true, if_true]
        exact sr_post_error _ _ (same_registry.refl a)
      exact ⟨roles_wf_of_same_registry h hw, role_kept_of_same_registry h⟩

theorem set_panel_assigned (a : ivi_compositor) (x o edge : Nat)
    (h1 : (a.surf x).role = .NONE) (h2 : panel_member (a.out o) edge = some none) :
    role_assigned a (shell_set_panel a (some x) o edge) x := by
  unfold shell_set_panel
  simp only [h1, h2, ne_eq, not_true_eq_false, if_false]
  refine ⟨?_, ?_, ?_, ?_, rfl⟩
  · simp [set_surf, set_out, surface_unlink]
  · simp [set_surf, set_out, surface_unlink]
  · intro i hi
    simp [set_surf, set_out, surface_unlink, Function.update, hi]
  · intro i hi
    simp [set_surf, set_out, surface_unlink, Function.update, hi]

theorem shell_set_panel_wf {a : ivi_compositor} {live : List Nat} (surface : Option Nat)
    (o edge : Nat) (hw : roles_wf a live) (hx : ∀ x : Nat, surface = some x → x ∈ live) :
    roles_wf (shell_set_panel a surface o edge) live ∧
      role_kept a (shell_set_panel a surface o edge) := by
  cases surface with
  | none =>
    have h : same_registry (shell_set_panel a none o edge) a :=
      sr_post_error _ _ (same_registry.refl a)
    exact ⟨roles_wf_of_same_registry h hw, role_kept_of_same_registry h⟩
  | some x =>
    by_cases h1 : (a.surf x).role = .NONE
    · cases h2 : panel_member (a.out o) edge with
      | none =>
        have h : same_registry (shell_set_panel a (some x) o edge) a := by
          unfold shell_set_panel
          simp only [h1, h2, ne_eq, not_true_eq_false, if_false]
          exact sr_post_error _ _ (same_registry.refl a)
        exact ⟨roles_wf_of_same_registry h hw, role_kept_of_same_registry h⟩
      | some m =>
        cases m with
        | none =>
          have hb := roles_wf_of_assigned hw (hx x rfl) (set_panel_assigned a x o edge h1 h2)
          exact ⟨hb.1, hb.2 h1⟩
        | some first =>
          have h : same_registry (shell_set_panel a (some x) o edge) a := by
            unfold shell_set_panel
            simp only [h1, h2, ne_eq, not_true_eq_false, if_false]
            exact sr_post_error _ _ (same_registry.refl a)
          exact ⟨roles_wf_of_same_registry h hw, role_kept_of_same_registry h⟩
    · have h : same_registry (shell_set_panel a (some x) o edge) a := by
        unfold shell_set_panel
        simp only [ne_eq, h1, not_false_eq_true, if_true]
        exact sr_post_error _ _ (same_registry.refl a)
      exact ⟨roles_wf_of_same_registry h hw, role_kept_of_same_registry h⟩

theorem unbind_agl_shell_wf {a : ivi_compositor} {live : List Nat} (hw : roles_wf a live) :
    roles_wf (unbind_agl_shell a) live ∧ role_kept a (unbind_agl_shell a) := by
  have hs : same_registry (a.outputs.foldl unbind_agl_shell_output a) a :=
    sr_foldl unbind_agl_shell_output (fun a b x h => sr_unbind_output x h) a.outputs a a
      (same_registry.refl a)
  have hr : ∀ i, ((unbind_agl_shell a).surf i).role = (a.surf i).role := hs.role
  have hc : ∀ i, ((unbind_agl_shell a).surf i).checked_pending = (a.surf i).checked_pending :=
    hs.checked_pending
  have hp : (unbind_agl_shell a).pending_surfaces = [] := rfl
  refine ⟨⟨?_, ?_, ?_, ?_⟩, fun x _ => hr x⟩
  · intro x hx
    rw [hc x]
    exact hw.checked x (by rw [← hr x]; exact hx)
  · intro x hx
    exact hw.has_role_live x (by rw [← hr x]; exact hx)
  · intro x hx
    rw [hp] at hx
    cases hx
  · rw [hp]
    exact List.nodup_nil

/-- The surface object `desktop_surface_added` creates has no role and no mark; the
other objects keep their role and mark, and `pending_surfaces` gains at most the new
object. -/
theorem desktop_surface_added_registry (a : ivi_compositor) (x : Nat)
    (app_id : Option String) (geom : weston_geometry) (focus : Option Nat) :
    ((desktop_surface_added a x app_id geom focus).surf x).role = .NONE ∧
    (∀ i, i ≠ x →
      ((desktop_surface_added a x app_id geom focus).surf i).role = (a.surf i).role ∧
      ((desktop_surface_added a x app_id geom focus).surf i).checked_pending
        = (a.surf i).checked_pending) ∧
    ((desktop_surface_added a x app_id geom focus).pending_surfaces = a.pending_surfaces ∨
      (desktop_surface_added a x app_id geom focus).pending_surfaces
        = x :: a.pending_surfaces) := by
  unfold desktop_surface_added
  lift_lets
  intro ivi1 ivi2 ivi3
  have e1 : (ivi1.surf x).role = .NONE ∧
      (∀ i, i ≠ x → (ivi1.surf i).role = (a.surf i).role ∧
        (ivi1.surf i).checked_pending = (a.surf i).checked_pending) ∧
      ivi1.pending_surfaces = a.pending_surfaces := by
    refine ⟨?_, ?_, rfl⟩
    · simp [ivi1, ivi_surface.zalloc]
    · intro i hi
      simp [ivi1, Function.update, hi]
  have k2 : same_registry ivi2 ivi1 := by
    unfold ivi2 ivi_set_pending_desktop_surface_remote
    split
    · exact sr_set_remote_pending _ (same_registry.refl ivi1)
    · exact same_registry.refl ivi1
  have k3 : same_registry ivi3 ivi1 := by
    unfold ivi3
    repeat' (first
      | exact k2
      | exact sr_set_surf _ _ (fun _ => ⟨rfl, rfl, rfl⟩) k2
      | split)
  split
  · have k : same_registry (send_messages ivi1 [shell_message.post_no_memory]) ivi1 :=
      sr_sent _ (same_registry.refl ivi1)
    refine ⟨(k.role x).trans e1.1, ?_, Or.inl (k.pending_surfaces.trans e1.2.2)⟩
    intro i hi
    exact ⟨(k.role i).trans (e1.2.1 i hi).1, (k.checked_pending i).trans (e1.2.1 i hi).2⟩
  · refine ⟨(k3.role x).trans e1.1, ?_, Or.inr ?_⟩
    · intro i hi
      exact ⟨(k3.role i).trans (e1.2.1 i hi).1, (k3.checked_pending i).trans (e1.2.1 i hi).2⟩
    · show x :: ivi3.pending_surfaces = x :: a.pending_surfaces
      rw [k3.pending_surfaces, e1.2.2]

theorem desktop_surface_added_wf {a : ivi_compositor} {live : List Nat} (x : Nat)
    (app_id : Option String) (geom : weston_geometry) (focus : Option Nat)
    (hw : roles_wf a live) (hx : x ∉ live) :
    roles_wf (desktop_surface_added a x app_id geom focus) (x :: live) ∧
      role_kept a (desktop_surface_added a x app_id geom focus) := by
  obtain ⟨h1, h2, h3⟩ := desktop_surface_added_registry a x app_id geom focus
  have hne : ∀ i, (a.surf i).role ≠ .NONE → i ≠ x :=
    fun i hi e => hx (e ▸ hw.has_role_live i hi)
  have hxp : x ∉ a.pending_surfaces := fun h => hx (hw.pending x h).2
  refine ⟨⟨?_, ?_, ?_, ?_⟩, fun i hi => (h2 i (hne i hi)).1⟩
  · intro i hi
    by_cases e : i = x
    · rw [e] at hi
      exact absurd h1 hi
    · rw [(h2 i e).2]
      exact hw.checked i (by rw [← (h2 i e).1]; exact hi)
  · intro i hi
    by_cases e : i = x
    · rw [e]
      exact List.mem_cons_self x live
    · exact List.mem_cons_of_mem x (hw.has_role_live i (by rw [← (h2 i e).1]; exact hi))
  · intro i hi
    by_cases e : i = x
    · rw [e]
      exact ⟨h1, List.mem_cons_self x live⟩
    · have hi2 : i ∈ a.pending_surfaces := by
        rcases h3 with h3 | h3
        · rw [h3] at hi
          exact hi
        · rw [h3] at hi
          rcases List.mem_cons.mp hi with hi | hi
          · exact absurd hi e
          · exact hi
      rw [(h2 i e).1]
      exact ⟨(hw.pending i hi2).1, List.mem_cons_of_mem x (hw.pending i hi2).2⟩
  · rcases h3 with h3 | h3
    · rw [h3]
      exact hw.nodup
    · rw [h3]
      exact List.nodup_cons.mpr ⟨hxp, hw.nodup⟩

theorem sr_shell_activate_app {a b : ivi_compositor} (app_id : String) (o : Nat)
    (h : shell_activate_app a app_id o = some b) : same_registry b a :=
  osr_activate o (some app_id) (same_registry.refl a) b h

theorem sr_shell_deactivate_app {a b : ivi_compositor} (app_id : String)
    (h : shell_deactivate_app a app_id = some b) : same_registry b a := by
  unfold shell_deactivate_app at h
  simp only [Option.bind_eq_bind, Option.bind_eq_some] at h
  obtain ⟨i1, h1, h2⟩ := h
  rw [← Option.some.inj h2]
  exact sr_advertise_app_state _ _ (osr_deactivate (some app_id) (same_registry.refl a) i1 h1)

/-- Every operation keeps the bookkeeping of surface objects and the roles assigned
before it. -/
theorem shell_step_wf {a b : ivi_compositor} {la lb : List Nat} (hw : roles_wf a la)
    (hstep : shell_step a la b lb) : roles_wf b lb ∧ role_kept a b := by
  cases hstep with
  | surface_added _ x app_id geom focus hx => exact desktop_surface_added_wf x app_id geom focus hw hx
  | ready _ _ h => exact shell_ready_wf hw h
  | committed _ _ x hx h => exact desktop_committed_wf hw hx h
  | set_background _ surface output hx => exact shell_set_background_wf surface output hw hx
  | set_panel _ surface output edge hx => exact shell_set_panel_wf surface output edge hw hx
  | unbind _ => exact unbind_agl_shell_wf hw
  | bind _ client resource =>
    have h := sr_bind_agl_shell a client resource
    exact ⟨roles_wf_of_same_registry h hw, role_kept_of_same_registry h⟩
  | set_app_property _ app_id role x y bx bY width height output =>
    have h := sr_set_app_property a app_id role x y bx bY width height output
    exact ⟨roles_wf_of_same_registry h hw, role_kept_of_same_registry h⟩
  | activate_app _ _ app_id output h =>
    have h := sr_shell_activate_app app_id output h
    exact ⟨roles_wf_of_same_registry h hw, role_kept_of_same_registry h⟩
  | deactivate_app _ _ app_id h =>
    have h := sr_shell_deactivate_app app_id h
    exact ⟨roles_wf_of_same_registry h hw, role_kept_of_same_registry h⟩

theorem shell_reachable_wf {a : ivi_compositor} {live : List Nat}
    (h : shell_reachable a live) : roles_wf a live := by
  induction h with
  | init ivi hrole hpending =>
    refine ⟨fun x hx => absurd (hrole x) hx, fun x hx => absurd (hrole x) hx, ?_, ?_⟩
    · intro x hx
      rw [hpending] at hx
      cases hx
    · rw [hpending]
      exact List.nodup_nil
  | step a b la lb _ hstep ih => exact (shell_step_wf ih hstep).1

/-- C8. In every state reachable through surface creation, `shell_ready`,
`desktop_committed`, `set_background`, `set_panel`, unbinding and binding of the shell
(and `set_app_property`, activation and deactivation requests), an operation changes
the role of no surface that has one. The check against the pending queues, whose role
setters assert that the surface has no role, is only run on surfaces without a role: the
one in `desktop_committed` returns, and the second loop of `shell_ready` returns from
every state the first loop leaves. -/
theorem role_assigned_at_most_once (a : ivi_compositor) (la : List Nat)
    (hreach : shell_reachable a la) :
    (∀ (b : ivi_compositor) (lb : List Nat), shell_step a la b lb →
      ∀ x, (a.surf x).role ≠ .NONE → (b.surf x).role = (a.surf x).role) ∧
    (∀ x, a.shell_client_ready = true → (a.surf x).checked_pending = false →
      (a.surf x).role = .NONE ∧ ∃ r, check_pending_and_mark a x = some r) ∧
    (∀ i2, a.outputs.foldlM shell_ready_output { a with shell_client_ready := true } = some i2 →
      (∀ x, x ∈ i2.pending_surfaces → (i2.surf x).role = .NONE) ∧
      ∃ r, i2.pending_surfaces.foldlM shell_ready_surface i2 = some r) := by
  have hw := shell_reachable_wf hreach
  refine ⟨fun b lb hstep => (shell_step_wf hw hstep).2, ?_, ?_⟩
  · intro x _ hc
    have hrole : (a.surf x).role = .NONE := by
      by_contra hne
      have := hw.checked x hne
      rw [hc] at this
      cases this
    obtain ⟨r, hr, _⟩ := check_pending_and_mark_spec a x hrole
    exact ⟨hrole, r, hr⟩
  · intro i2 h2
    have hs := osr_foldlM shell_ready_output
      (fun a b x h => osr_shell_ready_output x h) a.outputs _ _
      (same_registry.refl { a with shell_client_ready := true }) i2 h2
    have hw1 : roles_wf { a with shell_client_ready := true } la :=
      ⟨hw.checked, hw.has_role_live, hw.pending, hw.nodup⟩
    have hw2 := roles_wf_of_same_registry hs hw1
    obtain ⟨r, hr, _, _⟩ := shell_ready_surfaces_spec la i2.pending_surfaces i2 hw2
      hw2.nodup hw2.pending
    exact ⟨fun x hx => (hw2.pending x hx).1, r, hr⟩

/-- Scenario A is reached by creating surfaces 1 and 2 and registering them as top panel
and as background. -/
theorem scenario_a_reachable : shell_reachable scenario_a [2, 1] :=
  shell_reachable.step _ _ _ _
    (shell_reachable.step _ _ _ _
      (shell_reachable.step _ _ _ _
        (shell_reachable.step _ _ _ _
          (shell_reachable.init (compositor_with_output ⟨0, 0, 1920, 1080⟩
            (some ivi_policy_default_api)) (fun _ => rfl) rfl)
          (shell_step.surface_added _ _ 1 (some "panel") ⟨0, 0, 1920, 48⟩ (some 0)
            (by decide)))
        (shell_step.surface_added _ _ 2 (some "homescreen") ⟨0, 0, 1920, 1080⟩ (some 0)
          (by decide)))
      (shell_step.set_panel _ _ (some 1) 0 AGL_SHELL_EDGE_TOP (by simp)))
    (shell_step.set_background _ _ (some 2) 0 (by simp))

/-- In scenario A surface 1 is the top panel; a `set_background` request for it leaves
it a panel. -/
theorem role_assigned_at_most_once_scenario_a :
    shell_reachable scenario_a [2, 1] ∧ (scenario_a.surf 1).role = .PANEL ∧
    ((shell_set_background scenario_a (some 1) 0).surf 1).role = (scenario_a.surf 1).role :=
  ⟨scenario_a_reachable, by decide,
    (role_assigned_at_most_once scenario_a [2, 1] scenario_a_reachable).1 _ _
      (shell_step.set_background _ _ (some 1) 0 (by simp)) 1 (by decide)⟩

/-! ## Split surfaces -/

theorem advertise_app_state_surf (a : ivi_compositor) (id : String) (st : Nat) :
    (shell_advertise_app_state a id st).surf = a.surf ∧
    (shell_advertise_app_state a id st).out = a.out := by
  unfold shell_advertise_app_state
  repeat' (first | exact ⟨rfl, rfl⟩ | split)

theorem insert_black_surface_area (a : ivi_compositor) (o : Nat) :
    (insert_black_surface a o).surf = a.surf ∧
    ∀ i, ((insert_black_surface a o).out i).area = (a.out i).area ∧
      ((insert_black_surface a o).out i).active = (a.out i).active := by
  unfold insert_black_surface
  lift_lets
  intro o1 ivi1 ivi2
  split
  · exact ⟨rfl, fun _ => ⟨rfl, rfl⟩⟩
  · refine ⟨rfl, fun i => ?_⟩
    by_cases h : i = o
    · subst h
      simp [set_out, ivi2, ivi1, weston_layer_entry_insert, weston_layer_entry_remove]
    · simp [set_out, Function.update, h, ivi2, ivi1, weston_layer_entry_insert,
        weston_layer_entry_remove]

/-- The vertical split commit on an output at the origin, as a closed form of the state
it leaves. -/
theorem split_committed_vertical (ivi : ivi_compositor) (x o a : Nat) (id : String)
    (y w h : Int)
    (hrole : (ivi.surf x).role = .SPLIT_V) (hout : (ivi.surf x).output = some o)
    (hid : (ivi.surf x).app_id = some id)
    (hmapped : (ivi.surf x).view_is_mapped = false)
    (hpolicy : policy_refuses ivi (fun api => api.surface_activate_by_default) x = false)
    (hx : (ivi.out o).output.x = 0) (hw : (ivi.out o).output.width = w)
    (harea : (ivi.out o).area = ⟨0, y, w, h⟩)
    (hactive : (ivi.out o).active = some a) (hne : a ≠ x) :
    ∃ r, ivi_layout_split_committed ivi x = some r ∧
      (r.surf x).req_size = some (Int.tdiv w 2, h) ∧
      (r.surf x).view_pos = (w - Int.tdiv w 2, y) ∧
      (r.surf x).role = .SPLIT_V ∧ (r.surf x).output = some o ∧
      (r.surf x).app_id = some id ∧
      (r.out o).area = ⟨0, y, w - Int.tdiv w 2, h⟩ ∧
      (r.out o).area_saved = ⟨0, y, w, h⟩ ∧
      (r.out o).active = some a ∧
      (r.surf a).req_size = some (w - Int.tdiv w 2, h) ∧
      (r.surf a).view_pos = (0, y) := by
  unfold ivi_layout_split_committed
  simp only [hout, hpolicy, hmapped, hrole, Bool.false_and, Bool.false_eq_true, if_false]
  simp only [split_switch, split_place, shell_advertise_app_state_of, hid, set_out_same,
    set_surf_out, set_out_surf, hactive, harea, hx, hw, ne_eq, not_true_eq_false, and_false,
    if_false]
  refine ⟨_, rfl, ?_⟩
  simp only [(advertise_app_state_surf _ _ _).1, (advertise_app_state_surf _ _ _).2]
  simp [set_surf, set_out, ivi_layout_desktop_resize, weston_layer_entry_insert,
    Function.update, hne, hne.symm, hrole, hout, hid, harea, hactive]

theorem removed_skip_surf (a : ivi_compositor) (x : Nat) (id : Option String)
    (out : Option Nat) :
    (desktop_surface_removed_skip a x id out).surf = a.surf ∧
    (desktop_surface_removed_skip a x id out).out = a.out := by
  unfold desktop_surface_removed_skip
  lift_lets
  intro ivi1
  have h : ivi1.surf = a.surf ∧ ivi1.out = a.out := by
    unfold ivi1
    split
    · exact advertise_app_state_surf _ _ _
    · exact ⟨rfl, rfl⟩
  exact h

/-- The removal of a split surface that is not the active surface of its output copies
`area_saved` over `area` and resizes the active surface to it. -/
theorem split_removed_restores (r : ivi_compositor) (x o a : Nat)
    (hrole : (r.surf x).role = .SPLIT_V ∨ (r.surf x).role = .SPLIT_H)
    (hout : (r.surf x).output = some o)
    (hactive : (r.out o).active = some a) (hne : a ≠ x) :
    ∃ r2, desktop_surface_removed r x = some r2 ∧
      (r2.out o).area = (r.out o).area_saved ∧
      (r2.surf a).req_size = some ((r.out o).area_saved.width, (r.out o).area_saved.height) ∧
      (r2.surf a).view_pos = ((r.out o).area_saved.x, (r.out o).area_saved.y) := by
  have hget : ivi_layout_get_output_from_surface (r.surf x) = some o := by
    unfold ivi_layout_get_output_from_surface
    rcases hrole with h | h <;> rw [h] <;> exact hout
  have hnp : (r.surf x).role ≠ .PANEL := by
    rcases hrole with h | h <;> rw [h] <;> decide
  have hnb : (r.surf x).role ≠ .BACKGROUND := by
    rcases hrole with h | h <;> rw [h] <;> decide
  have hsp : (r.surf x).role = .SPLIT_H ∨ (r.surf x).role = .SPLIT_V := hrole.symm
  have e1 : desktop_surface_removed_restore r (r.surf x).role o
      = set_out (ivi_layout_desktop_resize r a (r.out o).area_saved) o
          (fun x => { x with area := x.area_saved }) := by
    unfold desktop_surface_removed_restore
    rw [if_pos hsp, hactive]
  have e2 : ∀ q : ivi_compositor, (q.out o).active = some a →
      desktop_surface_removed_reset_active q x o = q := by
    intro q hq
    unfold desktop_surface_removed_reset_active
    rw [hq, if_neg (by simp [hne])]
  have e3 : ∀ q : ivi_compositor, (desktop_surface_removed_black q o).surf = q.surf ∧
      ((desktop_surface_removed_black q o).out o).area = (q.out o).area := by
    intro q
    unfold desktop_surface_removed_black
    split
    · exact ⟨(insert_black_surface_area q o).1, ((insert_black_surface_area q o).2 o).1⟩
    · exact ⟨rfl, rfl⟩
  have e4 : ∀ q : ivi_compositor, (desktop_surface_removed_view q x).surf = q.surf ∧
      (desktop_surface_removed_view q x).out = q.out := by
    intro q
    unfold desktop_surface_removed_view
    split <;> exact ⟨rfl, rfl⟩
  have e5 : ∀ q : ivi_compositor,
      desktop_surface_removed_member q (r.surf x).role (r.surf x).edge o = some q := by
    intro q
    unfold desktop_surface_removed_member
    rw [if_neg hnp, if_neg hnb]
  unfold desktop_surface_removed
  simp only [hget, e5, Option.map_some']
  refine ⟨_, rfl, ?_⟩
  simp only [(removed_skip_surf _ _ _ _).1, (removed_skip_surf _ _ _ _).2, (e4 _).1, (e4 _).2,
    (e3 _).1, (e3 _).2, e1]
  rw [e2 _ (by simp [set_out, ivi_layout_desktop_resize, set_surf, hactive])]
  simp [set_out, ivi_layout_desktop_resize, set_surf]

/-- C9. On an output at x = 0 whose usable area starts at x = 0 and spans the width `w`
of the output (no left or right panel), with height `h`: the commit of an unmapped
vertical-split surface returns, requests the size (w/2, h) for it, leaves the usable
area {0, y, w - w/2, h} and resizes the active surface to that area at (0, y); the
removal of the split surface then returns and restores the area {0, y, w, h}, to which
the active surface is resized. -/
theorem split_vertical_commit_then_remove (ivi : ivi_compositor) (x o a : Nat) (id : String)
    (y w h : Int)
    (hrole : (ivi.surf x).role = .SPLIT_V) (hout : (ivi.surf x).output = some o)
    (hid : (ivi.surf x).app_id = some id)
    (hmapped : (ivi.surf x).view_is_mapped = false)
    (hpolicy : policy_refuses ivi (fun api => api.surface_activate_by_default) x = false)
    (hx : (ivi.out o).output.x = 0) (hw : (ivi.out o).output.width = w)
    (harea : (ivi.out o).area = ⟨0, y, w, h⟩)
    (hactive : (ivi.out o).active = some a) (hne : a ≠ x) :
    ∃ r, ivi_layout_split_committed ivi x = some r ∧
      (r.surf x).req_size = some (Int.tdiv w 2, h) ∧
      (r.surf x).view_pos = (w - Int.tdiv w 2, y) ∧
      (r.out o).area = ⟨0, y, w - Int.tdiv w 2, h⟩ ∧
      (r.surf a).req_size = some (w - Int.tdiv w 2, h) ∧
      (r.surf a).view_pos = (0, y) ∧
      ∃ r2, desktop_surface_removed r x = some r2 ∧
        (r2.out o).area = ⟨0, y, w, h⟩ ∧
        (r2.surf a).req_size = some (w, h) ∧ (r2.surf a).view_pos = (0, y) := by
  obtain ⟨r, hr, h1, h2, h3, h4, _, h6, h7, h8, h9, h10⟩ :=
    split_committed_vertical ivi x o a id y w h hrole hout hid hmapped hpolicy hx hw harea
      hactive hne
  obtain ⟨r2, hr2, k1, k2, k3⟩ := split_removed_restores r x o a (Or.inl h3) h4 h8 hne
  rw [h7] at k1 k2 k3
  exact ⟨r, hr, h1, h2, h6, h9, h10, r2, hr2, k1, k2, k3⟩

/-- Scenario B: with the usable area 1920x1032 the split surface of "nav" gets the size
960x1032, the active surface the width 960 at x = 0, and the removal of "nav" restores
the width 1920. -/
theorem split_vertical_scenario_b :
    ∃ r, ivi_layout_split_committed scenario_b_resolved 3 = some r ∧
      (r.surf 3).req_size = some (960, 1032) ∧
      (r.surf 3).view_pos = (960, 48) ∧
      (r.out 0).area = ⟨0, 48, 960, 1032⟩ ∧
      (r.surf 4).req_size = some (960, 1032) ∧
      (r.surf 4).view_pos = (0, 48) ∧
      ∃ r2, desktop_surface_removed r 3 = some r2 ∧
        (r2.out 0).area = ⟨0, 48, 1920, 1032⟩ ∧
        (r2.surf 4).req_size = some (1920, 1032) ∧ (r2.surf 4).view_pos = (0, 48) :=
  split_vertical_commit_then_remove scenario_b_resolved 3 0 4 "nav" 48 1920 1032
    (by decide) (by decide) (by decide) (by decide) (by decide) (by decide) (by decide)
    (by decide) (by decide) (by decide)

/-! ## The usable area stays inside the output -/

theorem ivi_panel_init_other {a r : ivi_compositor} {o : Nat} {panel : Option Nat}
    (h : ivi_panel_init a o panel = some r) : ∀ o2, o2 ≠ o → r.out o2 = a.out o2 := by
  intro o2 ho
  unfold ivi_panel_init at h
  split at h
  · rw [← Option.some.inj h]
  · split at h
    · cases h
    · rw [← Option.some.inj h]
      simp [weston_layer_entry_insert, set_surf, set_out, Function.update, ho]

theorem ivi_layout_init_other {a r : ivi_compositor} {o : Nat}
    (h : ivi_layout_init a o = some r) : ∀ o2, o2 ≠ o → r.out o2 = a.out o2 := by
  intro o2 ho
  unfold ivi_layout_init at h
  simp only [Option.bind_eq_bind, Option.bind_eq_some] at h
  obtain ⟨i1, h1, i3, h3, i4, h4, i5, h5, h6⟩ := h
  have e1 : i1.out = a.out := by
    unfold ivi_background_init at h1
    split at h1
    · rw [← Option.some.inj h1]
    · split at h1
      · cases h1
      · rw [← Option.some.inj h1]
        rfl
  rw [ivi_panel_init_other h6 o2 ho, ivi_panel_init_other h5 o2 ho,
    ivi_panel_init_other h4 o2 ho, ivi_panel_init_other h3 o2 ho, set_out_other _ _ _ _ ho, e1]

theorem areas_inside_init {a r : ivi_compositor} {o : Nat}
    (hok : output_members_ok a o = true) (hfit : panels_fit a o)
    (h : ivi_layout_init a o = some r) (hi : areas_inside a) : areas_inside r := by
  obtain ⟨r1, h1, h2, _⟩ := ivi_layout_init_spec a o hok
  rw [h] at h1
  rw [← Option.some.inj h1] at h2
  intro o2
  by_cases ho : o2 = o
  · subst ho
    rw [h2]
    refine ⟨?_, (hi o2).2⟩
    obtain ⟨f1, f2, f3, f4, f5, f6⟩ := hfit
    refine ⟨f1, f3, ?_, ?_, ?_, ?_⟩ <;> simp only <;> omega
  · rw [ivi_layout_init_other h o2 ho]
    exact hi o2

theorem split_switch_inside (role : ivi_surface_role) (g woutput area : weston_geometry)
    (p : split_placement) (h : split_switch role woutput area = some p)
    (hi : area_inside g area) : area_inside g p.area := by
  obtain ⟨i1, i2, i3, i4, i5, i6⟩ := hi
  have hw := Int.tdiv_eq_ediv i5 (show (0 : Int) ≤ 2 by decide)
  have hh := Int.tdiv_eq_ediv i6 (show (0 : Int) ≤ 2 by decide)
  unfold split_switch at h
  split at h
  · rw [← Option.some.inj h]
    simp only [hw]
    refine ⟨i1, i2, ?_, i4, ?_, i6⟩ <;> simp only <;> omega
  · rw [← Option.some.inj h]
    simp only [hh]
    refine ⟨i1, ?_, i3, ?_, i5, ?_⟩ <;> simp only <;> omega
  · cases h

theorem advertise_app_state_of_out {a r : ivi_compositor} {id : Option String} {st : Nat}
    (h : shell_advertise_app_state_of a id st = some r) : r.surf = a.surf ∧ r.out = a.out := by
  unfold shell_advertise_app_state_of at h
  split at h
  · rw [← Option.some.inj h]
    exact advertise_app_state_surf _ _ _
  · split at h
    · cases h
    · rw [← Option.some.inj h]
      exact ⟨rfl, rfl⟩

theorem split_place_out {a r : ivi_compositor} {x o : Nat} {p : split_placement}
    (h : split_place a x o p = some r) :
    r.out = Function.update a.out o { a.out o with area := p.area } := by
  unfold split_place at h
  rw [(advertise_app_state_of_out h).2]
  dsimp only
  split <;> rfl

theorem areas_inside_split_committed {a r : ivi_compositor} {x : Nat}
    (h : ivi_layout_split_committed a x = some r) (hi : areas_inside a) : areas_inside r := by
  unfold ivi_layout_split_committed at h
  dsimp only at h
  split at h
  · cases h
  · rename_i o _
    split at h
    · rw [← Option.some.inj h]
      exact hi
    · split at h
      · rw [← Option.some.inj h]
        exact hi
      · split at h
        · cases h
        · split at h
          · cases h
          · rename_i p hp
            have e := split_place_out h
            simp only [set_out_same] at hp
            have hin := split_switch_inside _ (a.out o).output _ _ p hp (hi o).1
            intro o2
            by_cases ho : o2 = o
            · subst ho
              rw [e]
              simp only [Function.update_same, set_out_same]
              exact ⟨hin, (hi o2).1⟩
            · rw [e]
              simp only [Function.update_noteq ho, set_out_other _ _ _ _ ho]
              exact hi o2

theorem same_geometry.sg_refl (a : ivi_compositor) : same_geometry a a :=
  fun _ => ⟨rfl, rfl, rfl⟩

theorem same_geometry.sg_trans {a b c : ivi_compositor} (h1 : same_geometry a b)
    (h2 : same_geometry b c) : same_geometry a c :=
  fun o => ⟨(h1 o).1.trans (h2 o).1, (h1 o).2.1.trans (h2 o).2.1,
    (h1 o).2.2.trans (h2 o).2.2⟩

theorem sg_of_out_eq {a b : ivi_compositor} (h : a.out = b.out) : same_geometry a b := by
  intro o
  rw [h]
  exact ⟨rfl, rfl, rfl⟩

theorem sg_set_out (a : ivi_compositor) (o : Nat) (f : ivi_output → ivi_output)
    (hf : ∀ x, (f x).output = x.output ∧ (f x).area = x.area ∧ (f x).area_saved = x.area_saved) :
    same_geometry (set_out a o f) a := by
  intro o2
  by_cases h : o2 = o
  · subst h
    rw [set_out_same]
    exact hf _
  · rw [set_out_other _ _ _ _ h]
    exact ⟨rfl, rfl, rfl⟩

theorem areas_inside_of_same_geometry {a b : ivi_compositor} (h : same_geometry b a)
    (hi : areas_inside a) : areas_inside b := by
  intro o
  rw [(h o).1, (h o).2.1, (h o).2.2]
  exact hi o

theorem sg_insert_black_surface (a : ivi_compositor) (o : Nat) :
    same_geometry (insert_black_surface a o) a := by
  unfold insert_black_surface
  lift_lets
  intro o1 ivi1 ivi2
  split
  · exact same_geometry.sg_refl a
  · exact sg_set_out _ _ _ (fun _ => ⟨rfl, rfl, rfl⟩)

theorem areas_inside_removed_restore (a : ivi_compositor) (role : ivi_surface_role) (o : Nat)
    (hi : areas_inside a) : areas_inside (desktop_surface_removed_restore a role o) := by
  unfold desktop_surface_removed_restore
  split
  · split
    all_goals
      intro o2
      by_cases h : o2 = o
      · subst h
        rw [set_out_same]
        exact ⟨(hi o2).2, (hi o2).2⟩
      · rw [set_out_other _ _ _ _ h]
        exact hi o2
  · exact hi

theorem clear_panel_edge_geometry {p q : ivi_output} {edge : Nat}
    (h : clear_panel_edge p edge = some q) :
    q.output = p.output ∧ q.area = p.area ∧ q.area_saved = p.area_saved := by
  unfold clear_panel_edge at h
  repeat' (first
    | (rw [← Option.some.inj h]; exact ⟨rfl, rfl, rfl⟩)
    | cases h
    | split at h)

theorem sg_removed_tail (a : ivi_compositor) (x o : Nat) (role : ivi_surface_role)
    (edge : Nat) (id : Option String) (out : Option Nat) (r : ivi_compositor)
    (h : (desktop_surface_removed_member
        (desktop_surface_removed_view
          (desktop_surface_removed_black (desktop_surface_removed_reset_active a x o) o) x)
        role edge o).map (fun q => desktop_surface_removed_skip q x id out) = some r) :
    same_geometry r a := by
  have h1 : same_geometry (desktop_surface_removed_reset_active a x o) a := by
    unfold desktop_surface_removed_reset_active
    split
    · exact sg_set_out _ _ _ (fun _ => ⟨rfl, rfl, rfl⟩)
    · exact same_geometry.sg_refl a
  have h2 : ∀ q, same_geometry (desktop_surface_removed_black q o) q := by
    intro q
    unfold desktop_surface_removed_black
    split
    · exact sg_insert_black_surface q o
    · exact same_geometry.sg_refl q
  have h3 : ∀ q, same_geometry (desktop_surface_removed_view q x) q := by
    intro q
    unfold desktop_surface_removed_view
    split <;> exact same_geometry.sg_refl q
  have h4 : ∀ q q2, desktop_surface_removed_member q role edge o = some q2 →
      same_geometry q2 q := by
    intro q q2 hq
    unfold desktop_surface_removed_member at hq
    split at hq
    · simp only [Option.map_eq_some'] at hq
      obtain ⟨oo, hoo, hq⟩ := hq
      rw [← hq]
      have hc := clear_panel_edge_geometry hoo
      intro o2
      by_cases ho : o2 = o
      · subst ho
        rw [set_out_same]
        exact hc
      · rw [set_out_other _ _ _ _ ho]
        exact ⟨rfl, rfl, rfl⟩
    · split at hq
      · rw [← Option.some.inj hq]
        exact sg_set_out _ _ _ (fun _ => ⟨rfl, rfl, rfl⟩)
      · rw [← Option.some.inj hq]
        exact same_geometry.sg_refl q
  simp only [Option.map_eq_some'] at h
  obtain ⟨q2, hq2, hr⟩ := h
  rw [← hr]
  exact (sg_of_out_eq (removed_skip_surf _ _ _ _).2).sg_trans
    ((h4 _ _ hq2).sg_trans ((h3 _).sg_trans ((h2 _).sg_trans h1)))

theorem areas_inside_removed {a r : ivi_compositor} {x : Nat}
    (h : desktop_surface_removed a x = some r) (hi : areas_inside a) : areas_inside r := by
  unfold desktop_surface_removed at h
  split at h
  · split at h
    · rw [← Option.some.inj h]
      exact areas_inside_of_same_geometry (sg_of_out_eq (removed_skip_surf _ _ _ _).2) hi
    · cases h
  · exact areas_inside_of_same_geometry (sg_removed_tail _ _ _ _ _ _ _ _ h)
      (areas_inside_removed_restore _ _ _ hi)

/-- Each operation that writes the usable area keeps the usable area and the saved
area of every output inside the output, when `ivi_layout_init` runs on consistent
members with panels that fit. -/
theorem areas_inside_step {a b : ivi_compositor}
    (hstep : layout_step (fun s o => output_members_ok s o = true ∧ panels_fit s o) a b)
    (hi : areas_inside a) : areas_inside b := by
  cases hstep with
  | init o hg h => exact areas_inside_init hg.1 hg.2 h hi
  | split_committed x h => exact areas_inside_split_committed h hi
  | removed x h => exact areas_inside_removed h hi

/-- Inside the output, as wanted for C10: in every state reached through
`ivi_layout_init` on outputs whose panels fit, split commits and surface removals, the
usable area of every output has a non-negative origin and size and ends inside the
output. -/
theorem usable_area_inside_output (a : ivi_compositor)
    (h : layout_reachable (fun s o => output_members_ok s o = true ∧ panels_fit s o) a)
    (o : Nat) :
    0 ≤ (a.out o).area.x ∧ 0 ≤ (a.out o).area.y ∧
    (a.out o).area.x + (a.out o).area.width ≤ (a.out o).output.width ∧
    (a.out o).area.y + (a.out o).area.height ≤ (a.out o).output.height ∧
    0 ≤ (a.out o).area.width ∧ 0 ≤ (a.out o).area.height := by
  have hi : areas_inside a := by
    induction h with
    | start a h =>
      intro o2
      obtain ⟨h1, h2, h3, h4⟩ := h o2
      rw [h1, h2]
      exact ⟨⟨le_refl _, le_refl _, by simpa using h3, by simpa using h4, le_refl _, le_refl _⟩,
        ⟨le_refl _, le_refl _, by simpa using h3, by simpa using h4, le_refl _, le_refl _⟩⟩
    | step a b _ hstep ih => exact areas_inside_step hstep ih
  exact (hi o).1

theorem sg_set_surf (a : ivi_compositor) (i : Nat) (f : ivi_surface → ivi_surface) :
    same_geometry (set_surf a i f) a := fun _ => ⟨rfl, rfl, rfl⟩

theorem sg_desktop_surface_added (a : ivi_compositor) (x : Nat) (app_id : Option String)
    (geom : weston_geometry) (focus : Option Nat) :
    same_geometry (desktop_surface_added a x app_id geom focus) a := by
  unfold desktop_surface_added
  lift_lets
  intro ivi1 ivi2 ivi3
  have k2 : ivi2.out = a.out := by
    unfold ivi2
    split <;> rfl
  have k3 : ivi3.out = a.out := by
    unfold ivi3
    repeat' (first | exact k2 | split)
  split
  · exact same_geometry.sg_refl a
  · exact sg_of_out_eq k3

theorem sg_shell_set_panel (a : ivi_compositor) (surface : Option Nat) (o edge : Nat) :
    same_geometry (shell_set_panel a surface o edge) a := by
  unfold shell_set_panel
  have hm : ∀ (p : ivi_output) (x : Nat), (set_panel_member p edge x).output = p.output ∧
      (set_panel_member p edge x).area = p.area ∧
      (set_panel_member p edge x).area_saved = p.area_saved := by
    intro p x
    unfold set_panel_member
    repeat' (first | exact ⟨rfl, rfl, rfl⟩ | split)
  repeat' (first
    | exact same_geometry.sg_refl a
    | exact (sg_set_surf _ _ _).sg_trans
        ((sg_set_out _ _ _ (fun p => hm p _)).sg_trans (same_geometry.sg_refl a))
    | split)

theorem scenario_thick_panels_start (o : Nat) :
    (scenario_thick_panels.out o).area = ⟨0, 0, 0, 0⟩ ∧
    (scenario_thick_panels.out o).area_saved = ⟨0, 0, 0, 0⟩ ∧
    0 ≤ (scenario_thick_panels.out o).output.width ∧
    0 ≤ (scenario_thick_panels.out o).output.height := by
  have e : same_geometry scenario_thick_panels
      (compositor_with_output ⟨0, 0, 1920, 1080⟩ (some ivi_policy_default_api)) := by
    unfold scenario_thick_panels
    dsimp only
    exact (sg_shell_set_panel _ _ _ _).sg_trans ((sg_shell_set_panel _ _ _ _).sg_trans
      ((sg_desktop_surface_added _ _ _ _ _).sg_trans (sg_desktop_surface_added _ _ _ _ _)))
  rw [(e o).1, (e o).2.1, (e o).2.2]
  exact ⟨rfl, rfl, show (0 : Int) ≤ 1920 by decide, show (0 : Int) ≤ 1080 by decide⟩

/-- C10, counterexample: a 1920x1080 output whose top and bottom panels are both 1920x600
is initialised by `ivi_layout_init` with the usable area {0, 600, 1920, -120}: the
members are consistent, the state is reached by one `ivi_layout_init`, and the height of
the usable area is negative. -/
theorem usable_area_negative_with_thick_panels :
    output_members_ok scenario_thick_panels 0 = true ∧
    ∃ r, ivi_layout_init scenario_thick_panels 0 = some r ∧
      layout_reachable (fun _ _ => True) r ∧
      (r.out 0).output = ⟨0, 0, 1920, 1080⟩ ∧
      (r.out 0).area = ⟨0, 600, 1920, -120⟩ ∧ (r.out 0).area.height < 0 :=
  ⟨by decide, (ivi_layout_init scenario_thick_panels 0).getD scenario_thick_panels, by rfl,
    layout_reachable.step _ _ (layout_reachable.start _ scenario_thick_panels_start)
      (layout_step.init _ _ 0 trivial (by rfl)),
    by decide, by decide, by decide⟩

theorem sg_shell_set_background (a : ivi_compositor) (surface : Option Nat) (o : Nat) :
    same_geometry (shell_set_background a surface o) a := by
  unfold shell_set_background
  repeat' (first
    | exact same_geometry.sg_refl a
    | exact sg_of_out_eq rfl
    | exact (sg_set_surf _ _ _).sg_trans (sg_set_out (surface_unlink (set_surf a _ _) _) _ _
        (fun _ => ⟨rfl, rfl, rfl⟩))
    | split)

theorem scenario_a_start (o : Nat) :
    (scenario_a.out o).area = ⟨0, 0, 0, 0⟩ ∧ (scenario_a.out o).area_saved = ⟨0, 0, 0, 0⟩ ∧
    0 ≤ (scenario_a.out o).output.width ∧ 0 ≤ (scenario_a.out o).output.height := by
  have e : same_geometry scenario_a
      (compositor_with_output ⟨0, 0, 1920, 1080⟩ (some ivi_policy_default_api)) := by
    unfold scenario_a scenario_a_with
    dsimp only
    exact (sg_shell_set_background _ _ _).sg_trans ((sg_shell_set_panel _ _ _ _).sg_trans
      ((sg_desktop_surface_added _ _ _ _ _).sg_trans (sg_desktop_surface_added _ _ _ _ _)))
  rw [(e o).1, (e o).2.1, (e o).2.2]
  exact ⟨rfl, rfl, show (0 : Int) ≤ 1920 by decide, show (0 : Int) ≤ 1080 by decide⟩

/-- Scenario A: the 48 high top panel fits the 1920x1080 output, and the usable area
{0, 48, 1920, 1032} that `ivi_layout_init` leaves is inside the output. -/
theorem usable_area_inside_output_scenario_a :
    (output_members_ok scenario_a 0 = true ∧ panels_fit scenario_a 0) ∧
    ∃ r, ivi_layout_init scenario_a 0 = some r ∧ (r.out 0).area = ⟨0, 48, 1920, 1032⟩ ∧
      (0 ≤ (r.out 0).area.x ∧ 0 ≤ (r.out 0).area.y ∧
        (r.out 0).area.x + (r.out 0).area.width ≤ (r.out 0).output.width ∧
        (r.out 0).area.y + (r.out 0).area.height ≤ (r.out 0).output.height ∧
        0 ≤ (r.out 0).area.width ∧ 0 ≤ (r.out 0).area.height) :=
  ⟨⟨by decide, by unfold panels_fit; decide⟩,
    (ivi_layout_init scenario_a 0).getD scenario_a, by rfl, by decide,
    usable_area_inside_output _
      (layout_reachable.step _ _ (layout_reachable.start _ scenario_a_start)
        (layout_step.init _ _ 0 ⟨by decide, by unfold panels_fit; decide⟩ (by rfl))) 0⟩

/-! ## Panel accounting -/

/-- C11, the code at the failing inputs. After `ready` in scenario A the usable area is
the output minus the top panel. When the panel surface is then removed, the output has
no panel and no split surface exists, yet the usable area is still {0, 48, 1920, 1032}
and not the output minus its attached panels, {0, 0, 1920, 1080}. When a top panel of
height 48 is registered after `ready` on an output without panels, the usable area stays
{0, 0, 1920, 1080} and not {0, 48, 1920, 1032}. -/
theorem usable_area_not_updated_with_panels :
    (shell_ready scenario_a).map (fun r => ((r.out 0).area, area_of_attached_panels r 0))
      = some (⟨0, 48, 1920, 1032⟩, ⟨0, 48, 1920, 1032⟩) ∧
    scenario_panel_removed.map (fun r =>
        (((r.out 0).top, (r.out 0).bottom, (r.out 0).left, (r.out 0).right),
          no_split_surface r, (r.out 0).area, area_of_attached_panels r 0))
      = some ((none, none, none, none), true, ⟨0, 48, 1920, 1032⟩, ⟨0, 0, 1920, 1080⟩) ∧
    scenario_late_panel.map (fun r =>
        ((r.out 0).top, (r.surf 1).role, no_split_surface r, (r.out 0).area,
          area_of_attached_panels r 0))
      = some (some 1, .PANEL, true, ⟨0, 0, 1920, 1080⟩, ⟨0, 48, 1920, 1032⟩) := by
  refine ⟨by rfl, by rfl, by rfl⟩

/-! ## Repeated commits of an active surface -/

/-- C12, counterexample. In the two-output scenario surface 4 has the desktop role,
completed its activation on output 1 after an explicit request (it is the active
surface of output 1, mapped, linked once in the normal layer, with no pending output)
and was never activated by default. A further commit with the same maximized geometry
runs the default activation and completes it on output 0: the `active` reference of
output 0 changes from `none` to surface 4. -/
theorem commit_after_explicit_activation_activates_again :
    scenario_explicit.map (fun s =>
        ((s.surf 4).role, (s.surf 4).output, (s.surf 4).activated_by_default,
          (s.surf 4).view_is_mapped, view_links s layer_id.normal 4,
          (s.out 1).active, (s.out 0).active))
      = some (.DESKTOP, none, false, true, 1, some 4, none) ∧
    (scenario_explicit.bind (fun s => desktop_committed s 4)).map (fun r =>
        ((r.out 1).active, (r.out 0).active, (r.out 0).previous_active, (r.surf 4).view_output,
          view_links r layer_id.normal 4))
      = some (some 4, some 4, none, some 0, 1) := by
  refine ⟨by rfl, by rfl⟩

theorem committed_advertise_frame (a : ivi_compositor) (x : Nat) :
    (desktop_committed_advertise a x).out = a.out ∧
    (desktop_committed_advertise a x).layers = a.layers ∧
    ((desktop_committed_advertise a x).surf x).role = (a.surf x).role ∧
    ((desktop_committed_advertise a x).surf x).output = (a.surf x).output ∧
    ((desktop_committed_advertise a x).surf x).activated_by_default
      = (a.surf x).activated_by_default := by
  unfold desktop_committed_advertise agl_shell_desktop_advertise_application_id
  repeat' (first
    | exact ⟨rfl, rfl, rfl, rfl, rfl⟩
    | (refine ⟨rfl, rfl, ?_, ?_, ?_⟩ <;> simp [set_surf, send_messages])
    | split)

/-- C12, amended. A desktop-role surface that was activated by default, whose activation
is complete on an output (it is the active surface, linked once in the normal layer,
with no pending output): a further `desktop_committed` returns and changes no output
and no layer list, so every `active` and `previous_active` reference is as before and
the view is still linked once in the normal layer. -/
theorem desktop_committed_again_changes_nothing (ivi : ivi_compositor) (x o : Nat)
    (hrole : (ivi.surf x).role = .DESKTOP) (hpending : (ivi.surf x).output = none)
    (hchecked : (ivi.surf x).checked_pending = true)
    (hflag : (ivi.surf x).activated_by_default = true)
    (hactive : (ivi.out o).active = some x) (hlink : view_links ivi layer_id.normal x = 1) :
    ∃ r, desktop_committed ivi x = some r ∧ r.out = ivi.out ∧ r.layers = ivi.layers ∧
      (∀ o2, (r.out o2).active = (ivi.out o2).active ∧
        (r.out o2).previous_active = (ivi.out o2).previous_active) ∧
      (r.out o).active = some x ∧ view_links r layer_id.normal x = 1 := by
  have key : ∀ r, r.out = ivi.out → r.layers = ivi.layers →
      r.out = ivi.out ∧ r.layers = ivi.layers ∧
      (∀ o2, (r.out o2).active = (ivi.out o2).active ∧
        (r.out o2).previous_active = (ivi.out o2).previous_active) ∧
      (r.out o).active = some x ∧ view_links r layer_id.normal x = 1 := by
    intro r h1 h2
    refine ⟨h1, h2, fun o2 => by rw [h1]; exact ⟨rfl, rfl⟩, by rw [h1]; exact hactive, ?_⟩
    unfold view_links at hlink ⊢
    rw [h2]
    exact hlink
  unfold desktop_committed
  split
  · exact ⟨ivi, rfl, key ivi rfl rfl⟩
  · have hc : ¬(ivi.shell_client_ready = true ∧ (ivi.surf x).checked_pending = false) := by
      rw [hchecked]
      simp
    rw [if_neg hc, Option.some_bind]
    obtain ⟨f1, f2, f3, f4, f5⟩ := committed_advertise_frame ivi x
    have hd : desktop_committed_switch (desktop_committed_advertise ivi x) x
        = some (desktop_committed_advertise ivi x) := by
      unfold desktop_committed_switch
      rw [f3, hrole]
      simp only
      unfold ivi_layout_desktop_committed
      simp only [f3, f4, hrole, hpending, ne_eq, not_true_eq_false, false_and, if_false,
        and_self, if_true]
      unfold ivi_layout_desktop_committed_default
      simp only [f5, hflag, if_true]
      split <;> rfl
    exact ⟨_, hd, key _ f1 f2⟩

/-- Scenario A with surface 4 of "app" activated by default on output 0: a further
commit leaves it the active surface, linked once in the normal layer. -/
theorem desktop_committed_again_scenario :
    ((scenario_app_active.surf 4).activated_by_default,
      (scenario_app_active.out 0).active) = (true, some 4) ∧
    ∃ r, desktop_committed scenario_app_active 4 = some r ∧
      r.out = scenario_app_active.out ∧ r.layers = scenario_app_active.layers ∧
      (∀ o2, (r.out o2).active = (scenario_app_active.out o2).active ∧
        (r.out o2).previous_active = (scenario_app_active.out o2).previous_active) ∧
      (r.out 0).active = some 4 ∧ view_links r layer_id.normal 4 = 1 :=
  ⟨by decide,
    desktop_committed_again_changes_nothing scenario_app_active 4 0 (by decide) (by decide)
      (by decide) (by decide) (by decide) (by decide)⟩

/-! ## The vocabularies and the re-entrancy guard of the policy engine -/

theorem state_change_policy (w w2 : policy_world) (state : Nat) (ret : Int)
    (h : ivi_policy_state_change w state = some (ret, w2)) :
    w2 = w ∨
    (ivi_policy_state_is_known state w.policy = true ∧
      w2.policy = { w.policy with current_state := state, previous_state := state,
                                  state_change_in_progress := false }) := by
  unfold ivi_policy_state_change at h
  split at h
  · exact Or.inl (Prod.mk.inj (Option.some.inj h)).2.symm
  split at h
  · exact Or.inl (Prod.mk.inj (Option.some.inj h)).2.symm
  · rename_i hk
    unfold ivi_policy_check_policies at h
    simp only [Option.map_map, Option.map_eq_some', Function.comp, Prod.mk.injEq] at h
    obtain ⟨w3, h3, -, rfl⟩ := h
    have hp := check_policies_loop_policy _ _ _ h3
    refine Or.inr ⟨by simpa using hk, ?_⟩
    show { w3.policy with previous_state := w3.policy.current_state,
                          state_change_in_progress := false } = _
    rw [hp]

theorem state_is_known_add_state (p : ivi_policy) (s state : Nat) (value : String)
    (h : ivi_policy_state_is_known s p = true) :
    ivi_policy_state_is_known s (ivi_policy_add_state p state value) = true := by
  unfold ivi_policy_state_is_known ivi_policy_add_state at *
  simp only [List.any_cons, h, Bool.or_true]

/-- In a world reached from an engine made by `ivi_policy_create`, the state of every
rule and the current state are registered, and no state change is in progress. -/
theorem policy_steps_known {w0 w : policy_world}
    (allow_to_add : Option (ivi_compositor → Bool))
    (try_event : Option (ivi_a_policy → ivi_compositor → Option ivi_compositor))
    (hcreate : w0.policy = ivi_policy_create allow_to_add try_event)
    (hrun : policy_steps w0 w) :
    (∀ a ∈ w.policy.policies, ivi_policy_state_is_known a.state w.policy = true) ∧
    ivi_policy_state_is_known w.policy.current_state w.policy = true ∧
    w.policy.state_change_in_progress = false := by
  induction hrun with
  | refl =>
    rw [hcreate]
    refine ⟨?_, rfl, rfl⟩
    intro a ha
    simp [ivi_policy_create] at ha
  | state_change state ret _ h ih =>
    rcases state_change_policy _ _ state ret h with h1 | ⟨hk, h1⟩
    · rw [h1]
      exact ih
    · rw [h1]
      exact ⟨ih.1, hk, rfl⟩
  | add app_id state event timeout output _ ih =>
    show (∀ a ∈ (ivi_policy_add _ _ app_id state event timeout output).2.policies,
        ivi_policy_state_is_known a.state
          (ivi_policy_add _ _ app_id state event timeout output).2 = true) ∧
      ivi_policy_state_is_known
          (ivi_policy_add _ _ app_id state event timeout output).2.current_state
          (ivi_policy_add _ _ app_id state event timeout output).2 = true ∧
      (ivi_policy_add _ _ app_id state event timeout output).2.state_change_in_progress = false
    unfold ivi_policy_add
    split
    · exact ih
    split
    · exact ih
    split
    · exact ih
    · rename_i hk
      refine ⟨?_, ih.2.1, ih.2.2⟩
      intro a ha
      rcases List.mem_cons.mp ha with h | h
      · rw [h]
        simpa using hk
      · exact ih.1 a h
  | add_state state value _ ih =>
    exact ⟨fun a ha => state_is_known_add_state _ _ state value (ih.1 a ha),
      state_is_known_add_state _ _ state value ih.2.1, ih.2.2⟩
  | add_event ev value _ ih => exact ih
  | timer k _ h ih =>
    rw [try_event_timeout_policy _ _ k h]
    exact ih
  | compositor ivi _ ih => exact ih

theorem matching_rules_nil (l : List ivi_a_policy) (state : Nat)
    (h : ∀ a ∈ l, a.state ≠ state) : matching_rules l state = [] := by
  induction l with
  | nil => rfl
  | cons x rest ih =>
    unfold matching_rules
    rw [if_neg (fun e => h x (List.mem_cons_self _ _) e.symm)]
    exact ih (fun a ha => h a (List.mem_cons_of_mem _ ha))

/-- C13. For a state value that is not in the list of states, `ivi_policy_state_change`
and `ivi_policy_add` return `-1` and leave the world and the engine, so the current
state and the rule list, as they were. After `ivi_policy_add_state` the value is known.
In a world reached from an engine made by `ivi_policy_create`, where no rule can have
the unregistered state, the state change to the value then returns `0` and leaves it as
the current and the previous state, and `ivi_policy_add` returns `0` and links the rule
whenever the `policy_rule_allow_to_add` hook allows it. In any world where the value is
not the current state, the state change to it is the state change of the
specification. -/
theorem unknown_state_rejected (w : policy_world) (state : Nat) (name : String)
    (hunknown : ivi_policy_state_is_known state w.policy = false) :
    ivi_policy_state_change w state = some (-1, w) ∧
    (∀ ivi app_id event timeout output,
      ivi_policy_add ivi w.policy app_id state event timeout output = (-1, w.policy)) ∧
    ivi_policy_state_is_known state (ivi_policy_add_state w.policy state name) = true ∧
    (∀ w0 allow_to_add try_event, w0.policy = ivi_policy_create allow_to_add try_event →
      policy_steps w0 w →
      ivi_policy_state_change
          { w with policy := ivi_policy_add_state w.policy state name } state
        = some (0, { w with policy :=
            { ivi_policy_add_state w.policy state name with
              current_state := state, previous_state := state,
              state_change_in_progress := false } }) ∧
      ∀ ivi app_id event timeout output,
        (∀ f, w.policy.policy_rule_allow_to_add = some f → f ivi = true) →
        ivi_policy_add ivi (ivi_policy_add_state w.policy state name) app_id state event
            timeout output
          = (0, { ivi_policy_add_state w.policy state name with
                  policies := { app_id := app_id, state := state, event := event,
                                timeout := timeout, output := output }
                    :: w.policy.policies })) ∧
    (w.policy.current_state ≠ state →
      ivi_policy_state_change
          { w with policy := ivi_policy_add_state w.policy state name } state
        = state_change_spec
          { w with policy := ivi_policy_add_state w.policy state name } state) := by
  have hk : ivi_policy_state_is_known state (ivi_policy_add_state w.policy state name) = true := by
    simp [ivi_policy_state_is_known, ivi_policy_add_state]
  refine ⟨?_, ?_, hk, ?_, ?_⟩
  · unfold ivi_policy_state_change
    split
    · rfl
    · simp [hunknown]
  · intro ivi app_id event timeout output
    unfold ivi_policy_add
    simp only [hunknown, Bool.not_false, if_true]
    repeat' (first | rfl | split)
  · intro w0 allow_to_add try_event hcreate hrun
    obtain ⟨hrules, hcur, hflag⟩ := policy_steps_known allow_to_add try_event hcreate hrun
    have hne : w.policy.current_state ≠ state := by
      intro e
      rw [e, hunknown] at hcur
      exact absurd hcur (by decide)
    have hnone : ∀ a ∈ w.policy.policies, a.state ≠ state := by
      intro a ha e
      have := hrules a ha
      rw [e, hunknown] at this
      exact absurd this (by decide)
    refine ⟨?_, ?_⟩
    · rw [state_change_eq_spec { w with policy := ivi_policy_add_state w.policy state name }
        state hne hk]
      have hm : matching_rules (ivi_policy_add_state w.policy state name).policies state = [] :=
        matching_rules_nil _ _ hnone
      have hi : immediate_rules (ivi_policy_add_state w.policy state name).policies state
          = [] := by
        unfold immediate_rules
        rw [List.filter_eq_nil_iff]
        intro a ha
        simp [hnone a ha]
      unfold state_change_spec deferred_timers
      simp only [hi, hm, run_actions, List.filter_nil, List.map_nil, List.append_nil,
        Option.map_some']
    · intro ivi app_id event timeout output hallow
      unfold ivi_policy_add
      have e1 : (ivi_policy_add_state w.policy state name).state_change_in_progress = false :=
        hflag
      have e3 : (ivi_policy_add_state w.policy state name).policy_rule_allow_to_add
          = w.policy.policy_rule_allow_to_add := rfl
      cases hh : w.policy.policy_rule_allow_to_add with
      | none =>
        simp only [e1, e3, hh, hk, Bool.false_eq_true, if_false, Bool.not_true]
        rfl
      | some f =>
        simp only [e1, e3, hh, hk, hallow f hh, Bool.false_eq_true, if_false, Bool.not_true]
        rfl
  · intro hne
    exact state_change_eq_spec { w with policy := ivi_policy_add_state w.policy state name }
      state hne hk

/-- The default engine of scenario C does not know the state 7: a state change to 7 and
a rule for 7 are refused and change nothing. After `ivi_policy_add_state (7, "park")` the
state change to 7 returns `0` with 7 as the current state, and a rule for 7 is linked. -/
theorem unknown_state_rejected_scenario :
    ivi_policy_state_is_known 7 (scenario_c 0).policy = false ∧
    ivi_policy_state_change (scenario_c 0) 7 = some (-1, scenario_c 0) ∧
    ivi_policy_add scenario_a (scenario_c 0).policy "hvac" 7 0 0 0
      = (-1, (scenario_c 0).policy) ∧
    (ivi_policy_state_change
        { scenario_c 0 with policy := ivi_policy_add_state (scenario_c 0).policy 7 "park" } 7).map
        (fun r => (r.1, r.2.policy.current_state, r.2.policy.policies.length))
      = some (0, 7, 1) ∧
    ((ivi_policy_add scenario_a (ivi_policy_add_state (scenario_c 0).policy 7 "park")
        "hvac" 7 0 0 0).1,
      (ivi_policy_add scenario_a (ivi_policy_add_state (scenario_c 0).policy 7 "park")
        "hvac" 7 0 0 0).2.policies.map (fun a => a.state)) = (0, [7, 1]) :=
  ⟨by decide,
    (unknown_state_rejected (scenario_c 0) 7 "park" (by decide)).1,
    (unknown_state_rejected (scenario_c 0) 7 "park" (by decide)).2.1 _ _ _ _ _,
    by
      rw [((unknown_state_rejected (scenario_c 0) 7 "park" (by decide)).2.2.2.1
        { ivi := scenario_c_ivi, policy := ivi_policy_default, timers := [], trace := [] }
        (some ivi_policy_default_allow_to_add) (some ivi_policy_default_try_event) rfl
        (policy_steps.add "hvac" 1 AGL_SHELL_POLICY_EVENT_SHOW 0 0 (policy_steps.refl _))).1]
      rfl,
    by
      rw [((unknown_state_rejected (scenario_c 0) 7 "park" (by decide)).2.2.2.1
        { ivi := scenario_c_ivi, policy := ivi_policy_default, timers := [], trace := [] }
        (some ivi_policy_default_allow_to_add) (some ivi_policy_default_try_event) rfl
        (policy_steps.add "hvac" 1 AGL_SHELL_POLICY_EVENT_SHOW 0 0 (policy_steps.refl _))).2
        scenario_a "hvac" 0 0 0 (by
          intro f hf
          have e : f = ivi_policy_default_allow_to_add := (Option.some.inj hf).symm
          rw [e]
          rfl)]
      rfl⟩

/-- The function `ivi_policy_add` never reads the list of events: with no state change
in progress, the hook allowing and a known state, a rule with any event value is linked
and `0` is returned. -/
theorem policy_add_ignores_event (ivi : ivi_compositor) (policy : ivi_policy) (app_id : String)
    (state event timeout output : Nat)
    (hflag : policy.state_change_in_progress = false)
    (hallow : ∀ f, policy.policy_rule_allow_to_add = some f → f ivi = true)
    (hknown : ivi_policy_state_is_known state policy = true) :
    ivi_policy_add ivi policy app_id state event timeout output
      = (0, { policy with policies :=
          { app_id := app_id, state := state, event := event, timeout := timeout,
            output := output } :: policy.policies }) := by
  unfold ivi_policy_add
  cases hh : policy.policy_rule_allow_to_add with
  | none => simp only [hflag, hknown, Bool.false_eq_true, if_false, Bool.not_true]
  | some f =>
    simp only [hflag, hknown, hallow f hh, Bool.false_eq_true, if_false, Bool.not_true]

/-- C14, counterexample. The events of the default engine are show = 0
and hide = 1. `ivi_policy_add ("hvac", start, event 99, timeout 0, output 0)` returns `0`
and links the rule with the event 99. -/
theorem policy_add_accepts_unknown_event :
    ivi_policy_default.events.map (fun e => e.value) = [1, 0] ∧
    ivi_policy_state_is_known 1 ivi_policy_default = true ∧
    (ivi_policy_add scenario_a ivi_policy_default "hvac" 1 99 0 0).1 = 0 ∧
    (ivi_policy_add scenario_a ivi_policy_default "hvac" 1 99 0 0).2.policies
      = [{ app_id := "hvac", state := 1, event := 99, timeout := 0, output := 0 }] := by
  decide

/-- C14. The function `ivi_policy_add` does not look at the event: for a registered
state, with no state change in progress and the `policy_rule_allow_to_add` hook
allowing, it returns `0` and links the rule for every event value, whatever the list of
events holds, so also before and after `ivi_policy_add_event` registered the value. The
event is for the rule callback to interpret: the callback of the default policy does
nothing for a rule whose event is neither show nor hide. -/
theorem policy_add_event_not_checked (ivi : ivi_compositor) (policy : ivi_policy)
    (app_id : String) (state event timeout output : Nat)
    (hflag : policy.state_change_in_progress = false)
    (hallow : ∀ f, policy.policy_rule_allow_to_add = some f → f ivi = true)
    (hknown : ivi_policy_state_is_known state policy = true) :
    (∀ events, ivi_policy_add ivi { policy with events := events } app_id state event timeout
        output
      = (0, { policy with events := events, policies :=
          { app_id := app_id, state := state, event := event, timeout := timeout,
            output := output } :: policy.policies })) ∧
    ivi_policy_add ivi policy app_id state event timeout output
      = (0, { policy with policies :=
          { app_id := app_id, state := state, event := event, timeout := timeout,
            output := output } :: policy.policies }) ∧
    (∀ name, ivi_policy_add ivi (ivi_policy_add_event policy event name) app_id state event
        timeout output
      = (0, { ivi_policy_add_event policy event name with policies :=
          { app_id := app_id, state := state, event := event, timeout := timeout,
            output := output } :: policy.policies })) ∧
    (event ≠ AGL_SHELL_POLICY_EVENT_SHOW → event ≠ AGL_SHELL_POLICY_EVENT_HIDE →
      ∀ i, ivi_policy_default_try_event
        { app_id := app_id, state := state, event := event, timeout := timeout,
          output := output } i = some i) := by
  refine ⟨?_, policy_add_ignores_event ivi policy app_id state event timeout output hflag
    hallow hknown, ?_, ?_⟩
  · intro events
    exact policy_add_ignores_event ivi { policy with events := events } app_id state event
      timeout output hflag hallow hknown
  · intro name
    exact policy_add_ignores_event ivi (ivi_policy_add_event policy event name) app_id state
      event timeout output hflag hallow hknown
  · intro h1 h2 i
    unfold ivi_policy_default_try_event
    simp only [h1, h2, if_false]

/-- The default engine over scenario A: a rule with the unregistered event 99 for the
state `start` is linked and `0` is returned, and the default callback leaves the
compositor as it is when the rule is run. -/
theorem policy_add_event_not_checked_scenario :
    ivi_policy_add scenario_a ivi_policy_default "hvac" 1 99 0 0
      = (0, { ivi_policy_default with policies :=
          [{ app_id := "hvac", state := 1, event := 99, timeout := 0, output := 0 }] }) ∧
    ivi_policy_default_try_event
      { app_id := "hvac", state := 1, event := 99, timeout := 0, output := 0 } scenario_a
      = some scenario_a :=
  ⟨(policy_add_event_not_checked scenario_a ivi_policy_default "hvac" 1 99 0 0 rfl
      (fun f hf => by rw [← Option.some.inj hf]; rfl) (by decide)).2.1,
    (policy_add_event_not_checked scenario_a ivi_policy_default "hvac" 1 99 0 0 rfl
      (fun f hf => by rw [← Option.some.inj hf]; rfl) (by decide)).2.2.2 (by decide) (by decide)
      scenario_a⟩

/-- A rule callback that only changes the compositor: the state change with a callback
that calls back is the state change `ivi_policy_state_change`, at every depth. -/
theorem check_policies_loop_calls_layout
    (state_change : policy_run → Nat → Option (Int × policy_run))
    (f : ivi_a_policy → ivi_compositor → Option ivi_compositor) (l : List ivi_a_policy) :
    ∀ (w : policy_world) (ret : List Int), w.policy.policy_rule_try_event = some f →
      ivi_policy_check_policies_loop_calls state_change
          (fun a => [policy_call.layout (f a)]) { world := w, add_returned := ret } l
        = (ivi_policy_check_policies_loop w l).map
            (fun w2 => { world := w2, add_returned := ret }) := by
  induction l with
  | nil =>
    intro w ret _
    rfl
  | cons a rest ih =>
    intro w ret hf
    unfold ivi_policy_check_policies_loop_calls ivi_policy_check_policies_loop
    by_cases hs : w.policy.current_state = a.state
    · by_cases ht : a.timeout > 0
      · simp only [hs, ht, if_true]
        exact ih _ ret hf
      · simp only [hs, ht, if_true, if_false]
        unfold ivi_policy_try_event_calls ivi_policy_try_event run_policy_calls
          run_policy_calls
        simp only [hf]
        cases hg : f a w.ivi with
        | none => rfl
        | some i =>
          simp only [Option.map_some']
          exact ih _ ret hf
    · simp only [hs, if_false]
      exact ih w ret hf

theorem state_change_nested_layout (f : ivi_a_policy → ivi_compositor → Option ivi_compositor)
    (w : policy_world) (ret : List Int) (depth state : Nat)
    (hf : w.policy.policy_rule_try_event = some f) :
    ivi_policy_state_change_nested (fun a => [policy_call.layout (f a)]) (depth + 1)
        { world := w, add_returned := ret } state
      = (ivi_policy_state_change w state).map
          (fun res => (res.1, { world := res.2, add_returned := ret })) := by
  unfold ivi_policy_state_change_nested ivi_policy_state_change_calls ivi_policy_state_change
  by_cases h1 : w.policy.current_state = state
  · simp only [h1, if_true, Option.map_some']
  · by_cases h2 : ivi_policy_state_is_known state w.policy = true
    · simp only [h1, if_false, h2, Bool.not_true, Bool.false_eq_true]
      unfold ivi_policy_check_policies_calls ivi_policy_check_policies
      dsimp only
      rw [check_policies_loop_calls_layout _ f _
        { w with policy := { w.policy with current_state := state,
                                           state_change_in_progress := true } } ret hf]
      simp only [Option.map_map]
      rfl
    · simp only [h1, if_false, h2, Bool.not_false, if_true, Option.map_some']

/-! ## Heads of an output -/

/-- C16, the code at the failing input. With the pending heads 10 and 11, of which 10
attaches and 11 does not, `try_attach_heads` returns 1 and leaves `add[0] = 11`, but
`add[1]` holds the first word of the head object 10 and not the head 10: the source of
the `memmove` is `output->add[fail_len]`, the head itself, and not the address of the
array element. -/
theorem try_attach_heads_copies_head_object (mem : Nat → Nat → Nat) :
    (try_attach_heads mem (fun h => decide (h = 11)) (add_of_list [10, 11]) 2).map
        (fun s => (s.fail_len, add_entries s.add 2, s.attached))
      = some (1, [11, mem 10 0], [10]) := by
  rfl

/-- C26, the code with a full array. With `add_len = 8` and a first call of
`weston_output_enable` that fails, `try_enable_output` moves `add[i..8)` to `add[i+1..9)`:
the `memmove` writes the element of index 8, outside the array of 8 elements. -/
theorem try_enable_output_writes_outside_array (enable : List Nat → Bool) (add : Nat → Nat)
    (attached : List Nat) (i calls : Nat) (hi : i < 8) (hen : enable attached = false) :
    try_enable_output enable 8
        { fail_len := i, add := add, attached := attached, enable_calls := calls } = none ∧
    memmove_add add (i + 1) i (8 - i) = none := by
  have hm : memmove_add add (i + 1) i (8 - i) = none := by
    unfold memmove_add ADD_LENGTH
    rw [if_neg (by omega), if_neg (by omega)]
  refine ⟨?_, hm⟩
  unfold try_enable_output
  obtain ⟨f, hf⟩ : ∃ f, 8 - i = f + 1 := ⟨8 - i - 1, by omega⟩
  simp only [hf]
  unfold try_enable_output_loop
  simp only [hi, if_true, hen, Bool.false_eq_true, if_false, hm, Option.none_bind]

/-- A full array of 8 pending heads that all attach, with an output that cannot be
enabled: the `memmove` of the first eviction is outside the array. -/
theorem try_enable_output_full_array_scenario :
    try_enable_output (fun _ => false) 8
        { fail_len := 0, add := add_of_list [1, 2, 3, 4, 5, 6, 7, 8],
          attached := [1, 2, 3, 4, 5, 6, 7, 8], enable_calls := 0 } = none ∧
    memmove_add (add_of_list [1, 2, 3, 4, 5, 6, 7, 8]) (0 + 1) 0 (8 - 0) = none :=
  try_enable_output_writes_outside_array (fun _ => false) _ _ 0 0 (by decide) rfl

theorem take_succ_erase_last (hs : List Nat) (hnd : hs.Nodup) (m : Nat) (hm : m < hs.length) :
    (hs.take (m + 1)).erase (hs.getD m 0) = hs.take m := by
  have e : hs.getD m 0 = hs[m] := by
    simp [List.getD_eq_getElem?_getD, List.getElem?_eq_getElem hm]
  rw [e, List.take_succ, List.getElem?_eq_getElem hm]
  have hn : hs[m] ∉ hs.take m := by
    intro hmem
    obtain ⟨k, hk, hk2⟩ := List.getElem_of_mem hmem
    have hk3 : k < m := by
      have := List.length_take_le m hs
      omega
    rw [List.getElem_take] at hk2
    have := (List.Nodup.getElem_inj_iff hnd).mp hk2
    omega
  simp only [Option.toList]
  rw [List.erase_append_right _ hn]
  simp

theorem try_attach_heads_all_attach (mem : Nat → Nat → Nat) (add : Nat → Nat) (n : Nat) :
    try_attach_heads mem (fun _ => false) add n
      = some { fail_len := 0, add := add, attached := add_entries add n, enable_calls := 0 } := by
  unfold try_attach_heads add_entries
  induction n with
  | zero => rfl
  | succ n ih =>
    rw [List.range_succ, List.foldl_append, ih]
    simp [try_attach_heads_step]

theorem longest_enabled_take_spec (enable : List Nat → Bool) (hs : List Nat) :
    ∀ m, longest_enabled_take enable hs m ≤ m ∧
      (longest_enabled_take enable hs m = 0 ∨
        enable (hs.take (longest_enabled_take enable hs m)) = true) ∧
      ∀ k, longest_enabled_take enable hs m < k → k ≤ m → enable (hs.take k) = false := by
  intro m
  induction m with
  | zero => exact ⟨le_refl _, Or.inl rfl, fun k h1 h2 => by simp [longest_enabled_take] at h1; omega⟩
  | succ m ih =>
    unfold longest_enabled_take
    by_cases he : enable (hs.take (m + 1)) = true
    · rw [if_pos he]
      exact ⟨le_refl _, Or.inr he, fun k h1 h2 => by omega⟩
    · rw [if_neg he]
      refine ⟨by omega, ih.2.1, ?_⟩
      intro k h1 h2
      by_cases hk : k = m + 1
      · rw [hk]
        simpa using he
      · exact ih.2.2 k h1 (by omega)

/-- The loop of `try_enable_output` on an array that is not full: it evicts the last
attached head until `enable` succeeds, and stays inside the array. -/
theorem try_enable_output_loop_spec (enable : List Nat → Bool) (hs : List Nat)
    (hnd : hs.Nodup) (hlen : hs.length < ADD_LENGTH) :
    ∀ (m : Nat) (s : heads_state), s.fail_len + m = hs.length →
      s.attached = hs.take m → (∀ k, k < m → s.add (s.fail_len + k) = hs.getD k 0) →
      ∃ r, try_enable_output_loop enable hs.length m s = some r ∧
        r.fail_len = hs.length - longest_enabled_take enable hs m ∧
        r.attached = hs.take (longest_enabled_take enable hs m) ∧
        r.enable_calls ≤ s.enable_calls + m := by
  intro m
  induction m with
  | zero =>
    intro s h1 h2 _
    refine ⟨s, rfl, ?_, h2, le_refl _⟩
    simp only [longest_enabled_take]
    omega
  | succ m ih =>
    intro s h1 h2 h3
    unfold try_enable_output_loop longest_enabled_take
    have hlt : s.fail_len < hs.length := by omega
    rw [if_pos hlt, h2]
    by_cases he : enable (hs.take (m + 1)) = true
    · rw [if_pos he, if_pos he]
      refine ⟨_, rfl, ?_, rfl, ?_⟩
      · show s.fail_len = _
        omega
      · show s.enable_calls + 1 ≤ _
        omega
    · rw [if_neg he, if_neg he]
      have hmm : memmove_add s.add (s.fail_len + 1) s.fail_len (hs.length - s.fail_len)
          = some (fun k => if s.fail_len + 1 ≤ k ∧ k < s.fail_len + 1 + (hs.length - s.fail_len)
              then s.add (s.fail_len + (k - (s.fail_len + 1))) else s.add k) := by
        unfold memmove_add
        unfold ADD_LENGTH at hlen ⊢
        rw [if_neg (by omega), if_pos ⟨by omega, by omega⟩]
      have hhead : s.add (hs.length - 1) = hs.getD m 0 := by
        have := h3 m (by omega)
        rw [← this]
        congr 1
        omega
      simp only [hmm, Option.some_bind, hhead]
      obtain ⟨r, hr, g1, g2, g3⟩ := ih
        { fail_len := s.fail_len + 1,
          add := Function.update
            (fun k => if s.fail_len + 1 ≤ k ∧ k < s.fail_len + 1 + (hs.length - s.fail_len)
              then s.add (s.fail_len + (k - (s.fail_len + 1))) else s.add k)
            s.fail_len (hs.getD m 0),
          attached := (hs.take (m + 1)).erase (hs.getD m 0),
          enable_calls := s.enable_calls + 1 }
        (by show s.fail_len + 1 + m = hs.length; omega)
        (take_succ_erase_last hs hnd m (by omega))
        (by
          intro k hk
          dsimp only
          rw [Function.update_noteq (by omega)]
          rw [if_pos ⟨by omega, by omega⟩]
          have := h3 k (by omega)
          rw [← this]
          congr 1
          omega)
      refine ⟨r, hr, g1, g2, ?_⟩
      have : r.enable_calls ≤ s.enable_calls + 1 + m := g3
      omega

theorem add_entries_of_list (hs : List Nat) : add_entries (add_of_list hs) hs.length = hs := by
  unfold add_entries add_of_list
  apply List.ext_getElem
  · simp
  · intro k h1 h2
    simp [List.getD_eq_getElem?_getD, List.getElem?_eq_getElem h2]

/-- C17, counterexample. The pending heads 10 and 11 both attach and the output is
configured, but `enable` only succeeds with the head 11 alone. The non-empty subset
{11} of the attached heads allows `enable`, yet `try_attach_enable_heads` returns `-1`
with no head left attached: it tried {10, 11} and {10} only. -/
theorem try_attach_enable_heads_misses_subset :
    (fun s => decide (s = [11])) [11] = true ∧ List.Sublist [11] [10, 11] ∧
    (try_attach_enable_heads (fun _ _ => 0) (fun _ => false) true
        (fun s => decide (s = [11])) false (add_of_list [10, 11]) 2).map
        (fun r => (r.1, r.2.1, r.2.2.attached, r.2.2.enable_calls))
      = some (-1, 2, [], 2) := by
  refine ⟨by decide, by decide, by rfl⟩

/-- C17, amended. For fewer than 8 distinct pending heads that all attach and an output
that is configured, `try_attach_enable_heads` returns: it evicts the last attached head
until `enable` succeeds, so that it returns `0` with exactly the longest non-empty prefix
of the heads for which `enable` succeeds left attached (and the evicted heads counted
in the new `add_len`), and `-1` with no head attached when `enable` fails for every
non-empty prefix; `enable` is called at most once per head. -/
theorem try_attach_enable_heads_longest_enabled (mem : Nat → Nat → Nat)
    (enable : List Nat → Bool) (hs : List Nat) (hnd : hs.Nodup) (hlen : hs.length < ADD_LENGTH) :
    (∃ s, try_attach_enable_heads mem (fun _ => false) true enable false (add_of_list hs)
          hs.length
        = some (if longest_enabled_take enable hs hs.length = 0 then -1 else 0,
            hs.length - longest_enabled_take enable hs hs.length, s) ∧
      s.attached = hs.take (longest_enabled_take enable hs hs.length) ∧
      s.enable_calls ≤ hs.length) ∧
    longest_enabled_take enable hs hs.length ≤ hs.length ∧
    (longest_enabled_take enable hs hs.length = 0 ∨
      enable (hs.take (longest_enabled_take enable hs hs.length)) = true) ∧
    (∀ k, longest_enabled_take enable hs hs.length < k → k ≤ hs.length →
      enable (hs.take k) = false) := by
  refine ⟨?_, longest_enabled_take_spec enable hs hs.length⟩
  have hL := (longest_enabled_take_spec enable hs hs.length).1
  obtain ⟨r, hr, g1, g2, g3⟩ := try_enable_output_loop_spec enable hs hnd hlen hs.length
    { fail_len := 0, add := add_of_list hs, attached := add_entries (add_of_list hs) hs.length,
      enable_calls := 0 }
    (by simp) (by simp [add_entries_of_list])
    (by intro k _; simp [add_of_list])
  refine ⟨r, ?_, g2, by simpa using g3⟩
  unfold try_attach_enable_heads
  simp only [Bool.false_eq_true, if_false, try_attach_heads_all_attach, Option.some_bind,
    Bool.not_true, try_enable_output, Nat.sub_zero, hr, Option.map_some', g1]
  by_cases h0 : longest_enabled_take enable hs hs.length = 0
  · simp [h0]
  · have : hs.length - longest_enabled_take enable hs hs.length ≠ hs.length := by omega
    simp [h0, this]

/-- The pending heads 10 and 11 with an output that can only be enabled with the head 10
alone: `try_attach_enable_heads` returns `0` with the head 10 attached. -/
theorem try_attach_enable_heads_scenario :
    longest_enabled_take (fun s => decide (s = [10])) [10, 11] 2 = 1 ∧
    ∃ s, try_attach_enable_heads (fun _ _ => 0) (fun _ => false) true
          (fun s => decide (s = [10])) false (add_of_list [10, 11]) 2
        = some (0, 1, s) ∧ s.attached = [10] ∧ s.enable_calls ≤ 2 :=
  ⟨by decide,
    (try_attach_enable_heads_longest_enabled (fun _ _ => 0) (fun s => decide (s = [10]))
      [10, 11] (by decide) (by decide)).1⟩

/-! ## Removal and deactivation -/

/-- C18, the code at the failing input. Before the removal surface 5 is the active and
surface 4 the previous active surface of output 0. After `desktop_surface_removed` of
surface 4 the surface is off the list of surfaces, but `previous_active` of output 0
still refers to it. -/
theorem removed_surface_stays_previous_active :
    scenario_previous_removed.map (fun p =>
        ((p.1.out 0).active, (p.1.out 0).previous_active, p.1.surfaces,
          (p.2.out 0).active, (p.2.out 0).previous_active, p.2.surfaces))
      = some (some 5, some 4, [5, 4], some 5, some 4, [5]) := by
  rfl

/-- C19, counterexample. Surface 5 of "hvac" has the desktop role and is the active
surface of output 0; the previous active surface 4 is maximized at the size of the
usable area and allowed by the policy, but has no `app_id`. `ivi_layout_deactivate
("hvac")` looks the previous active surface up by its `app_id` and changes nothing:
surface 5 stays the active surface and stays mapped. -/
theorem deactivate_with_previous_without_app_id :
    scenario_previous_without_app_id.map (fun s =>
        ((s.out 0).active, (s.out 0).previous_active, (s.surf 5).role, (s.surf 4).app_id,
          (s.surf 4).maximized, (s.surf 4).geom, (s.out 0).area))
      = some (some 5, some 4, .DESKTOP, none, true, ⟨0, 0, 1920, 1032⟩, ⟨0, 48, 1920, 1032⟩) ∧
    (scenario_previous_without_app_id.bind (fun s => ivi_layout_deactivate s (some "hvac"))).map
        (fun r => ((r.out 0).active, (r.out 0).previous_active, (r.surf 5).view_is_mapped,
          (r.surf 4).view_is_mapped))
      = some (some 5, some 4, true, false) := by
  refine ⟨by rfl, by rfl⟩

/-- The completion of an activation of a desktop surface `p` on an output whose active
surface is another surface `x`. -/
theorem activate_complete_replaces (q : ivi_compositor) (o p x : Nat)
    (hactive : (q.out o).active = some x) (hne : p ≠ x) :
    ((ivi_layout_activate_complete q o p).out o).active = some p ∧
    ((ivi_layout_activate_complete q o p).out o).previous_active = some x ∧
    ((ivi_layout_activate_complete q o p).surf x).view_is_mapped = false ∧
    ((ivi_layout_activate_complete q o p).surf x).surface_is_mapped = false ∧
    (∀ l, view_ref.of_surface x ∉ (ivi_layout_activate_complete q o p).layers l) ∧
    ((ivi_layout_activate_complete q o p).surf p).view_is_mapped = true ∧
    ((ivi_layout_activate_complete q o p).surf p).surface_is_mapped = true ∧
    view_ref.of_surface p ∈ (ivi_layout_activate_complete q o p).layers layer_id.normal := by
  have hxp : x ≠ p := fun h => hne h.symm
  have hv : view_ref.of_surface x ≠ view_ref.of_surface p := by
    intro h
    exact hxp (view_ref.of_surface.inj h)
  unfold ivi_layout_activate_complete
  simp only [set_surf_out, set_out_same]
  split <;> split <;>
    simp [set_surf, set_out, weston_layer_entry_remove, weston_layer_entry_insert,
      Function.update, hactive, hne, hxp, hv, hv.symm, List.mem_filter]
  all_goals
    intro l
    split <;> simp [hv, List.mem_filter]

/-- C19, amended. `ivi_layout_deactivate` for the `app_id` of a desktop-role surface `x`
that is the active surface of its output `o`, the policy allowing: when the output has
no previous active surface, `active` is cleared and the view of `x` is unmapped and off
every layer; when it has a previous active surface `p`, another desktop-role surface
whose `app_id` is set and resolved to `p` by `ivi_find_app`, allowed by the policy and
maximized at the size of the usable area, `p` becomes the active surface, mapped in the
normal layer, and `x` the previous active one, unmapped and off every layer. -/
theorem deactivate_desktop_restores_previous (ivi : ivi_compositor) (id : String) (x o : Nat)
    (hfind : ivi_find_app ivi id = some x)
    (hpol : policy_refuses ivi (fun api => api.surface_deactivate) x = false)
    (hrole : (ivi.surf x).role = .DESKTOP)
    (hout : ivi_layout_get_output_from_surface (ivi.surf x) = some o)
    (hactive : (ivi.out o).active = some x) :
    ((ivi.out o).previous_active = none →
      ∃ r, ivi_layout_deactivate ivi (some id) = some r ∧
        (r.out o).active = none ∧
        (r.surf x).view_is_mapped = false ∧ (r.surf x).surface_is_mapped = false ∧
        ∀ l, view_ref.of_surface x ∉ r.layers l) ∧
    (∀ p pid, (ivi.out o).previous_active = some p → p ≠ x →
      (ivi.surf p).app_id = some pid → ivi_find_app ivi pid = some p →
      (ivi.surf p).role = .DESKTOP →
      policy_refuses ivi (fun api => api.surface_activate) p = false →
      (ivi.surf p).maximized = true →
      (ivi.surf p).geom.width = (ivi.out o).area.width →
      (ivi.surf p).geom.height = (ivi.out o).area.height →
      ∃ r, ivi_layout_deactivate ivi (some id) = some r ∧
        (r.out o).active = some p ∧ (r.out o).previous_active = some x ∧
        (r.surf x).view_is_mapped = false ∧ (r.surf x).surface_is_mapped = false ∧
        (∀ l, view_ref.of_surface x ∉ r.layers l) ∧
        (r.surf p).view_is_mapped = true ∧ (r.surf p).surface_is_mapped = true ∧
        view_ref.of_surface p ∈ r.layers layer_id.normal) := by
  have hd : ivi_layout_deactivate ivi (some id) = ivi_layout_deactivate_desktop ivi o := by
    unfold ivi_layout_deactivate
    simp only [hfind, hpol, hrole, hout, Bool.false_eq_true, if_false, if_true]
  refine ⟨?_, ?_⟩
  · intro hprev
    rw [hd]
    unfold ivi_layout_deactivate_desktop
    simp only [hprev, hactive]
    refine ⟨_, rfl, ?_, ?_, ?_, ?_⟩
    · simp [set_out]
    · simp [set_out, set_surf, weston_layer_entry_remove]
    · simp [set_out, set_surf, weston_layer_entry_remove]
    · intro l
      simp [set_out, set_surf, weston_layer_entry_remove, List.mem_filter]
  · intro p pid hprev hne hpid hpfind hprole hppol hmax hgw hgh
    have hpa : (ivi.out o).active ≠ some p := by
      rw [hactive]
      intro h
      exact hne (Option.some.inj h).symm
    have hs : ivi_layout_surface_is_split_or_fullscreen ivi p = (false, ivi) := by
      unfold ivi_layout_surface_is_split_or_fullscreen
      simp [hprole]
    have hq : ivi_layout_deactivate ivi (some id)
        = some (ivi_layout_activate_complete
            (set_surf ivi p (fun s => { s with output := some o })) o p) := by
      rw [hd]
      unfold ivi_layout_deactivate_desktop
      simp only [hprev, hpid]
      unfold ivi_layout_activate
      simp only [hpfind]
      unfold ivi_layout_activate_by_surf
      simp only [hppol, hprole, hpa, hs, Bool.false_eq_true, if_false, if_true, reduceCtorEq,
        false_and]
      rw [if_pos]
      simp only [set_surf_same, set_surf_out]
      exact ⟨hmax, hgw, hgh⟩
    rw [hq]
    exact ⟨_, rfl, activate_complete_replaces _ o p x (by rw [set_surf_out]; exact hactive) hne⟩

/-- Scenario: "hvac" is active and "app" the previous active surface of output 0;
deactivating "hvac" brings "app" back and unmaps "hvac". -/
theorem deactivate_desktop_scenario :
    ((scenario_hvac_active.out 0).active, (scenario_hvac_active.out 0).previous_active)
      = (some 5, some 4) ∧
    ∃ r, ivi_layout_deactivate scenario_hvac_active (some "hvac") = some r ∧
      (r.out 0).active = some 4 ∧ (r.out 0).previous_active = some 5 ∧
      (r.surf 5).view_is_mapped = false ∧ (r.surf 5).surface_is_mapped = false ∧
      (∀ l, view_ref.of_surface 5 ∉ r.layers l) ∧
      (r.surf 4).view_is_mapped = true ∧ (r.surf 4).surface_is_mapped = true ∧
      view_ref.of_surface 4 ∈ r.layers layer_id.normal :=
  ⟨by decide,
    (deactivate_desktop_restores_previous scenario_hvac_active "hvac" 5 0 (by decide)
      (by decide) (by decide) (by decide) (by decide)).2 4 "app" (by decide) (by decide)
      (by decide) (by decide) (by decide) (by decide) (by decide) (by decide) (by decide)⟩

/-- C20, counterexample. Surface 3 of "nav" has the popup role and is
mapped in the popup layer. After `ivi_layout_deactivate ("nav")` its view is linked in
no layer, but the mapped flags of the view and of the surface are still set. -/
theorem deactivate_popup_keeps_mapped_flags :
    scenario_popup_mapped.map (fun s =>
        ((s.surf 3).role, (s.surf 3).view_is_mapped, (s.surf 3).surface_is_mapped,
          layers_of_view s 3))
      = some (.POPUP, true, true, [layer_id.popup]) ∧
    (scenario_popup_mapped.bind (fun s => ivi_layout_deactivate s (some "nav"))).map (fun r =>
        ((r.surf 3).view_is_mapped, (r.surf 3).surface_is_mapped, layers_of_view r 3))
      = some (true, true, []) := by
  refine ⟨by rfl, by rfl⟩

theorem layer_entry_remove_not_mem (ivi : ivi_compositor) (v : view_ref) (l : layer_id) :
    v ∉ (weston_layer_entry_remove ivi v).layers l := by
  unfold weston_layer_entry_remove
  simp

theorem advertise_app_state_fields (j : ivi_compositor) (id : String) (st : Nat) :
    (shell_advertise_app_state j id st).layers = j.layers ∧
    (shell_advertise_app_state j id st).surf = j.surf := by
  unfold shell_advertise_app_state
  repeat' (first | exact ⟨rfl, rfl⟩ | split)

/-- A commit of a popup surface that is not mapped, whose view is linked in no layer:
the view is linked once in the popup layer and both mapped flags are set. -/
theorem popup_committed_maps (j : ivi_compositor) (x o : Nat) (id : String)
    (hout : (j.surf x).output = some o) (hrole : (j.surf x).role = .POPUP)
    (hid : (j.surf x).app_id = some id)
    (hmapped : (j.surf x).view_is_mapped = false)
    (habd : (j.surf x).activated_by_default = true)
    (hlayers : ∀ l, view_ref.of_surface x ∉ j.layers l) :
    ∃ r2, ivi_layout_popup_committed j x = some r2 ∧
      view_links r2 layer_id.popup x = 1 ∧
      (r2.surf x).view_is_mapped = true ∧ (r2.surf x).surface_is_mapped = true := by
  unfold ivi_layout_popup_committed
  simp only [hout, hrole, hid, hmapped, habd, Bool.not_true, Bool.and_false,
    Bool.false_eq_true, if_false, ne_eq, not_true_eq_false, shell_advertise_app_state_of]
  refine ⟨_, rfl, ?_, ?_, ?_⟩
  · unfold view_links
    rw [(advertise_app_state_fields _ _ _).1]
    simp only [set_surf, weston_layer_entry_insert, Function.update_same, List.count_cons_self]
    rw [List.count_eq_zero.mpr (hlayers layer_id.popup)]
  · rw [(advertise_app_state_fields _ _ _).2]
    simp [set_surf]
  · rw [(advertise_app_state_fields _ _ _).2]
    simp [set_surf]

/-- C20. For a mapped popup surface found by its `app_id`, the policy allowing,
`ivi_layout_deactivate` only unlinks the view of the popup: afterwards the view is linked
in no layer, and every surface and output record is as before, so the mapped flags of
the view and of the surface are still set. The set flags keep the popup hidden: a
further commit of the popup leaves the state as it is. A later activation of the
`app_id` clears the flags and maps the popup again, linked once in the popup layer. -/
theorem deactivate_popup_unlinks_view (ivi : ivi_compositor) (id : String) (x : Nat)
    (hfind : ivi_find_app ivi id = some x)
    (hrole : (ivi.surf x).role = .POPUP)
    (hmapped : (ivi.surf x).view_is_mapped = true)
    (hsurface : (ivi.surf x).surface_is_mapped = true)
    (hpolicy : policy_refuses ivi (fun api => api.surface_deactivate) x = false) :
    ∃ r, ivi_layout_deactivate ivi (some id) = some r ∧
      (∀ l, r.layers l = (ivi.layers l).filter (fun v => v ≠ view_ref.of_surface x)) ∧
      (∀ l, view_ref.of_surface x ∉ r.layers l) ∧
      r.surf = ivi.surf ∧ r.out = ivi.out ∧
      (r.surf x).view_is_mapped = true ∧ (r.surf x).surface_is_mapped = true ∧
      ∀ o, (ivi.surf x).output = some o →
        ivi_layout_popup_committed r x = some r ∧
        (policy_refuses ivi (fun api => api.surface_activate) x = false →
          ∀ o2, ∃ r2, ivi_layout_activate r o2 (some id) = some r2 ∧
            view_links r2 layer_id.popup x = 1 ∧
            (r2.surf x).view_is_mapped = true ∧ (r2.surf x).surface_is_mapped = true) := by
  have hpop : (ivi.surf x).role ≠ .DESKTOP := by rw [hrole]; decide
  refine ⟨weston_layer_entry_remove ivi (view_ref.of_surface x), ?_, fun _ => rfl,
    layer_entry_remove_not_mem ivi _, rfl, rfl, hmapped, hsurface, ?_⟩
  · unfold ivi_layout_deactivate
    simp only [hfind, hpolicy, Bool.false_eq_true, if_false, hpop, hrole, if_true]
    rw [if_neg (by decide)]
  intro o hout
  refine ⟨?_, ?_⟩
  · unfold ivi_layout_popup_committed
    have h1 : ((weston_layer_entry_remove ivi (view_ref.of_surface x)).surf x).output = some o :=
      hout
    have h2 : ((weston_layer_entry_remove ivi (view_ref.of_surface x)).surf x).view_is_mapped
        = true := hmapped
    simp only [h1, h2, if_true]
    split <;> rfl
  · intro hact o2
    have hfind2 : ivi_find_app (weston_layer_entry_remove ivi (view_ref.of_surface x)) id
        = some x := hfind
    have hact2 : policy_refuses (weston_layer_entry_remove ivi (view_ref.of_surface x))
        (fun api => api.surface_activate) x = false := hact
    have hid : (ivi.surf x).app_id = some id := by
      have hp := List.find?_some hfind
      simpa using hp
    unfold ivi_layout_activate
    simp only [hfind2]
    unfold ivi_layout_activate_by_surf
    have hrole2 : ((weston_layer_entry_remove ivi (view_ref.of_surface x)).surf x).role
        = .POPUP := hrole
    simp only [hact2, Bool.false_eq_true, if_false, hrole2, if_true]
    unfold ivi_layout_popup_re_add
    have hm2 : ((weston_layer_entry_remove ivi (view_ref.of_surface x)).surf x).view_is_mapped
        = true := hmapped
    simp only [hrole2, ne_eq, not_true_eq_false, if_false, hm2, if_true]
    refine popup_committed_maps _ x o id ?_ ?_ ?_ ?_ ?_ ?_
    · simp [set_surf, weston_layer_entry_remove, hout]
    · simp [set_surf, weston_layer_entry_remove, hrole]
    · simp [set_surf, weston_layer_entry_remove, hid]
    · simp [set_surf, weston_layer_entry_remove]
    · simp [set_surf, weston_layer_entry_remove]
    · intro l
      simp [set_surf, weston_layer_entry_remove]

/-- The popup scenario: surface 3 of "nav" is a mapped popup of output 0. After
`ivi_layout_deactivate ("nav")` its view is linked in no layer and its flags are still
set; a further commit of the surface leaves it so, and `ivi_layout_activate (output 0,
"nav")` maps it again in the popup layer. -/
theorem deactivate_popup_scenario :
    (ivi_find_app scenario_popup "nav", (scenario_popup.surf 3).role,
      (scenario_popup.surf 3).view_is_mapped, (scenario_popup.surf 3).surface_is_mapped,
      (scenario_popup.surf 3).output, layers_of_view scenario_popup 3)
      = (some 3, .POPUP, true, true, some 0, [layer_id.popup]) ∧
    (∃ r, ivi_layout_deactivate scenario_popup (some "nav") = some r ∧
      (∀ l, view_ref.of_surface 3 ∉ r.layers l) ∧ r.surf = scenario_popup.surf ∧
      (r.surf 3).view_is_mapped = true ∧ (r.surf 3).surface_is_mapped = true ∧
      ivi_layout_popup_committed r 3 = some r) ∧
    ((ivi_layout_deactivate scenario_popup (some "nav")).bind
        (fun r => desktop_committed r 3)).map
        (fun r => ((r.surf 3).view_is_mapped, (r.surf 3).surface_is_mapped, layers_of_view r 3))
      = some (true, true, []) ∧
    ((ivi_layout_deactivate scenario_popup (some "nav")).bind
        (fun r => ivi_layout_activate r 0 (some "nav"))).map
        (fun r => ((r.surf 3).view_is_mapped, (r.surf 3).surface_is_mapped, layers_of_view r 3))
      = some (true, true, [layer_id.popup]) :=
  ⟨by decide,
    (deactivate_popup_unlinks_view scenario_popup "nav" 3 (by decide) (by decide)
      (by decide) (by decide) (by decide)).imp
      (fun _ hr => ⟨hr.1, hr.2.2.1, hr.2.2.2.1, hr.2.2.2.2.2.1, hr.2.2.2.2.2.2.1,
        (hr.2.2.2.2.2.2.2 0 (by decide)).1⟩),
    by rfl, by rfl⟩

/-! ## Policy vetoes -/

/-- C21. When the hook `surface_commited` refuses the surface, `desktop_committed`
returns the state it was given; when `surface_activate` refuses it,
`ivi_layout_activate_by_surf` does; when `surface_deactivate` refuses the surface found
for the `app_id`, `ivi_layout_deactivate` does. The state holds every surface, output,
layer list and pending queue and the messages sent, so nothing changes and no error is
posted. -/
theorem policy_veto_changes_nothing (ivi : ivi_compositor) (x o : Nat) (id : String) :
    (policy_refuses ivi (fun api => api.surface_commited) x = true →
      desktop_committed ivi x = some ivi) ∧
    (policy_refuses ivi (fun api => api.surface_activate) x = true →
      ivi_layout_activate_by_surf ivi o x = some ivi) ∧
    (ivi_find_app ivi id = some x →
      policy_refuses ivi (fun api => api.surface_deactivate) x = true →
      ivi_layout_deactivate ivi (some id) = some ivi) := by
  refine ⟨?_, ?_, ?_⟩
  · intro h
    unfold desktop_committed
    rw [if_pos h]
  · intro h
    unfold ivi_layout_activate_by_surf
    rw [if_pos h]
  · intro hf h
    unfold ivi_layout_deactivate
    simp only [hf, h, if_true]

theorem check_pending_surface_iff (ivi : ivi_compositor) (x : Nat) :
    ivi_check_pending_surface ivi x = true ↔ pending_role ivi x ≠ .DESKTOP := by
  unfold ivi_check_pending_surface pending_role
  cases hid : (ivi.surf x).app_id with
  | none => simp
  | some id =>
    simp only []
    by_cases h1 : ivi.popup_pending_apps.any (fun p => p.app_id = id) = true
    · simp [h1]
    · have h1f : ivi.popup_pending_apps.any (fun p => decide (p.app_id = id)) = false := by
        simpa using h1
      cases h2 : ivi.split_pending_apps.find? (fun p => p.app_id = id) with
      | some p =>
        have h2a : ivi.split_pending_apps.any (fun p => decide (p.app_id = id)) = true := by
          have hp := List.find?_some h2
          rw [List.any_eq_true]
          exact ⟨p, List.mem_of_find?_eq_some h2, hp⟩
        simp only [h1f, h2a, Bool.false_or, Bool.true_or, Bool.false_eq_true, if_false]
        split <;> simp
      | none =>
        have h2a : ivi.split_pending_apps.any (fun p => decide (p.app_id = id)) = false := by
          rw [List.find?_eq_none] at h2
          rw [Bool.eq_false_iff]
          intro h
          rw [List.any_eq_true] at h
          obtain ⟨q, hq, hq2⟩ := h
          exact h2 q hq hq2
        simp only [h1f, h2a, Bool.false_or, Bool.false_eq_true, if_false]
        by_cases h3 : ivi.fullscreen_pending_apps.any (fun p => decide (p.app_id = id)) = true
        · simp [h3]
        · have h3f : ivi.fullscreen_pending_apps.any (fun p => decide (p.app_id = id)) = false := by
            simpa using h3
          by_cases h4 : ivi.remote_pending_apps.any (fun p => decide (p.app_id = id)) = true
          · simp [h3f, h4]
          · have h4f : ivi.remote_pending_apps.any (fun p => decide (p.app_id = id)) = false := by
              simpa using h4
            simp [h3f, h4f]

/-- C29. For a surface without a role, `ivi_check_pending_desktop_surface` returns, and
`ivi_check_pending_surface` is true exactly when the role it assigns is not the plain
desktop role. `ivi_check_pending_surface` only computes a truth value from the state: it
writes no queue and no surface. -/
theorem check_pending_surface_predicts_role (ivi : ivi_compositor) (x : Nat)
    (hrole : (ivi.surf x).role = .NONE) :
    ∃ r, ivi_check_pending_desktop_surface ivi x = some r ∧
      (ivi_check_pending_surface ivi x = true ↔ (r.surf x).role ≠ .DESKTOP) := by
  obtain ⟨r, hr, hrs⟩ := check_pending_desktop_surface_spec ivi x hrole
  refine ⟨r, hr, ?_⟩
  rw [hrs.role_self]
  exact check_pending_surface_iff ivi x

/-- The surface of "nav" of the priority scenario is pending as popup and as split:
`ivi_check_pending_surface` is true and the role assigned is not the desktop role. -/
theorem check_pending_surface_scenario :
    ivi_check_pending_surface scenario_priority 3 = true ∧
    ∃ r, ivi_check_pending_desktop_surface scenario_priority 3 = some r ∧
      (ivi_check_pending_surface scenario_priority 3 = true ↔ (r.surf 3).role ≠ .DESKTOP) :=
  ⟨by decide, check_pending_surface_predicts_role scenario_priority 3 (by decide)⟩

/-- C22, the code at the failing input. Two `set_app_property` split requests made
before any split surface exists are both queued; when the two surfaces commit, both get
a split role. -/
theorem two_split_requests_both_queued :
    scenario_two_split_requests.map (fun s =>
        (s.split_pending_apps.map (fun p => p.app_id), split_surfaces s))
      = some (["map", "nav"], []) ∧
    scenario_two_split_surfaces.map (fun s =>
        (s.split_pending_apps.length, split_surfaces s, (s.surf 3).role, (s.surf 6).role))
      = some (0, [6, 3], .SPLIT_V, .SPLIT_H) := by
  refine ⟨by rfl, by rfl⟩

/-- C27, the code at the failing input. Surface 4 of "app" is the active surface of
output 0 only. The request `activate_app ("app", output 1)` completes an activation of
the surface on output 1, and output 0 keeps it as its active surface: the surface is the
active surface of both outputs, while its view is on output 1. -/
theorem surface_active_on_two_outputs :
    scenario_two_outputs.map (fun s => (outputs_with_active s 4, (s.surf 4).view_output))
      = some ([0], some 0) ∧
    (scenario_two_outputs.bind (fun s => shell_activate_app s "app" 1)).map
        (fun r => (outputs_with_active r 4, (r.surf 4).view_output, view_links r layer_id.normal 4))
      = some ([0, 1], some 1, 1) := by
  refine ⟨by rfl, by rfl⟩

/-- C28. `ivi_layout_deactivate` for the `app_id` of a desktop-role surface whose output,
pending or last, is `o`, the policy allowing, when `o` has no previous active surface:
the call returns with `active` of `o` cleared, and the surface that was the active one,
whichever it is, is unmapped and off every layer. -/
theorem deactivate_without_previous_unmaps_active (ivi : ivi_compositor) (id : String)
    (x o : Nat)
    (hfind : ivi_find_app ivi id = some x)
    (hpol : policy_refuses ivi (fun api => api.surface_deactivate) x = false)
    (hrole : (ivi.surf x).role = .DESKTOP)
    (hout : ivi_layout_get_output_from_surface (ivi.surf x) = some o)
    (hprev : (ivi.out o).previous_active = none) :
    ∃ r, ivi_layout_deactivate ivi (some id) = some r ∧ (r.out o).active = none ∧
      ∀ a, (ivi.out o).active = some a →
        (r.surf a).view_is_mapped = false ∧ (r.surf a).surface_is_mapped = false ∧
        ∀ l, view_ref.of_surface a ∉ r.layers l := by
  have hd : ivi_layout_deactivate ivi (some id) = ivi_layout_deactivate_desktop ivi o := by
    unfold ivi_layout_deactivate
    simp only [hfind, hpol, hrole, hout, Bool.false_eq_true, if_false, if_true]
  rw [hd]
  unfold ivi_layout_deactivate_desktop
  simp only [hprev]
  cases ha : (ivi.out o).active with
  | none =>
    refine ⟨ivi, rfl, ha, ?_⟩
    intro a h
    cases h
  | some a =>
    refine ⟨_, rfl, ?_, ?_⟩
    · simp [set_out]
    · intro a2 h2
      have e : a2 = a := (Option.some.inj h2).symm
      subst e
      refine ⟨?_, ?_, ?_⟩
      · simp [set_out, set_surf, weston_layer_entry_remove]
      · simp [set_out, set_surf, weston_layer_entry_remove]
      · intro l
        simp [set_out, set_surf, weston_layer_entry_remove, List.mem_filter]

/-- Scenario: "app" is the active surface of output 0 and the activation of "hvac" on
output 0 is pending; deactivating "hvac" unmaps "app" and clears the active surface. -/
theorem deactivate_without_previous_scenario :
    ((scenario_hvac_pending.out 0).active, (scenario_hvac_pending.out 0).previous_active,
      ivi_find_app scenario_hvac_pending "hvac") = (some 4, none, some 5) ∧
    ∃ r, ivi_layout_deactivate scenario_hvac_pending (some "hvac") = some r ∧
      (r.out 0).active = none ∧
      ∀ a, (scenario_hvac_pending.out 0).active = some a →
        (r.surf a).view_is_mapped = false ∧ (r.surf a).surface_is_mapped = false ∧
        ∀ l, view_ref.of_surface a ∉ r.layers l :=
  ⟨by decide,
    deactivate_without_previous_unmaps_active scenario_hvac_pending "hvac" 5 0 (by decide)
      (by decide) (by decide) (by decide) (by decide)⟩

/-! ## Completion of an activation -/

theorem count_filter_ne_zero (l : List view_ref) (v : view_ref) :
    (l.filter (fun w => w ≠ v)).count v = 0 := by
  rw [List.count_eq_zero]
  intro h
  simp [List.mem_filter] at h

theorem count_filter_not_eq (l : List view_ref) (v : view_ref) :
    List.count v (List.filter (fun w => !decide (w = v)) l) = 0 := by
  rw [List.count_eq_zero]
  intro h
  simp [List.mem_filter] at h

theorem count_zero_of_not_mem (l : List view_ref) (v : view_ref) (h : v ∉ l) :
    l.count v = 0 := List.count_eq_zero.mpr h

/-- C24. `ivi_layout_activate_complete (output, S)` for a surface `S` that is not the
active surface of the output and whose view, when it is not mapped, is in no layer: the
output has `S` as active and the former active surface as previous active surface; the
former active surface, if there was one, is unmapped and off every layer; `S` is mapped
on the output at `(output.x + area.x, output.y + area.y)`, linked once in the normal
layer and in no other; and for a desktop-role `S` the pending output is cleared after
being copied to `last_output` when it was set. -/
theorem activate_complete_spec (ivi : ivi_compositor) (o s : Nat)
    (hne : (ivi.out o).active ≠ some s)
    (hlink : (ivi.surf s).view_is_mapped = false → ∀ l, view_ref.of_surface s ∉ ivi.layers l) :
    ((ivi_layout_activate_complete ivi o s).out o).active = some s ∧
    ((ivi_layout_activate_complete ivi o s).out o).previous_active = (ivi.out o).active ∧
    (∀ a, (ivi.out o).active = some a →
      ((ivi_layout_activate_complete ivi o s).surf a).view_is_mapped = false ∧
      ((ivi_layout_activate_complete ivi o s).surf a).surface_is_mapped = false ∧
      ∀ l, view_ref.of_surface a ∉ (ivi_layout_activate_complete ivi o s).layers l) ∧
    (((ivi_layout_activate_complete ivi o s).surf s).view_is_mapped = true ∧
      ((ivi_layout_activate_complete ivi o s).surf s).surface_is_mapped = true ∧
      ((ivi_layout_activate_complete ivi o s).surf s).view_output = some o ∧
      ((ivi_layout_activate_complete ivi o s).surf s).view_pos
        = ((ivi.out o).output.x + (ivi.out o).area.x,
           (ivi.out o).output.y + (ivi.out o).area.y)) ∧
    (view_links (ivi_layout_activate_complete ivi o s) layer_id.normal s = 1 ∧
      ∀ l, l ≠ layer_id.normal →
        view_ref.of_surface s ∉ (ivi_layout_activate_complete ivi o s).layers l) ∧
    ((ivi.surf s).role = .DESKTOP →
      ((ivi_layout_activate_complete ivi o s).surf s).output = none ∧
      ((ivi_layout_activate_complete ivi o s).surf s).last_output
        = (if (ivi.surf s).output.isSome then (ivi.surf s).output
           else (ivi.surf s).last_output)) := by
  unfold ivi_layout_activate_complete view_links
  cases hact : (ivi.out o).active with
  | none =>
    by_cases hm : (ivi.surf s).view_is_mapped = true
    · by_cases hr : (ivi.surf s).role = .DESKTOP
      · simp [set_surf, set_out, weston_layer_entry_remove, weston_layer_entry_insert,
          Function.update, hact, hm, hr, List.mem_filter, count_filter_not_eq]
        intro l hl
        simp [hl, List.mem_filter]
      · simp [set_surf, set_out, weston_layer_entry_remove, weston_layer_entry_insert,
          Function.update, hact, hm, hr, List.mem_filter, count_filter_not_eq]
        intro l hl
        simp [hl, List.mem_filter]
    · have hm2 : (ivi.surf s).view_is_mapped = false := by simpa using hm
      have hl := hlink hm2
      by_cases hr : (ivi.surf s).role = .DESKTOP
      · simp [set_surf, set_out, weston_layer_entry_remove, weston_layer_entry_insert,
          Function.update, hact, hm2, hr, List.mem_filter, count_zero_of_not_mem _ _ (hl _)]
        intro l hl2
        simp [hl2, hl l]
      · simp [set_surf, set_out, weston_layer_entry_remove, weston_layer_entry_insert,
          Function.update, hact, hm2, hr, List.mem_filter, count_zero_of_not_mem _ _ (hl _)]
        intro l hl2
        simp [hl2, hl l]
  | some a =>
    have has : a ≠ s := by
      intro h
      rw [hact, h] at hne
      exact hne rfl
    have hsa : s ≠ a := fun h => has h.symm
    have hv : view_ref.of_surface a ≠ view_ref.of_surface s :=
      fun h => has (view_ref.of_surface.inj h)
    have hc1 : ∀ l : List view_ref,
        List.count (view_ref.of_surface s)
          (List.filter (fun w => !decide (w = view_ref.of_surface a))
            (List.filter (fun w => !decide (w = view_ref.of_surface s)) l)) = 0 := by
      intro l
      rw [List.count_eq_zero]
      intro h
      simp [List.mem_filter] at h
    have hc2 : ∀ l : List view_ref, view_ref.of_surface s ∉ l →
        List.count (view_ref.of_surface s)
          (List.filter (fun w => !decide (w = view_ref.of_surface a)) l) = 0 := by
      intro l hl
      rw [List.count_eq_zero]
      intro h
      exact hl (List.mem_filter.mp h).1
    by_cases hm : (ivi.surf s).view_is_mapped = true
    · by_cases hr : (ivi.surf s).role = .DESKTOP
      · simp [set_surf, set_out, weston_layer_entry_remove, weston_layer_entry_insert,
          Function.update, hact, hm, hr, List.mem_filter, has, hsa, hv, hv.symm, hc1]
        refine ⟨?_, ?_, ?_⟩
        · intro l
          split <;> simp [hv, List.mem_filter]
        · rw [List.count_eq_zero]
          simp [List.mem_filter]
        · intro l hl
          simp [hl, List.mem_filter]
      · simp [set_surf, set_out, weston_layer_entry_remove, weston_layer_entry_insert,
          Function.update, hact, hm, hr, List.mem_filter, has, hsa, hv, hv.symm, hc1]
        refine ⟨?_, ?_, ?_⟩
        · intro l
          split <;> simp [hv, List.mem_filter]
        · rw [List.count_eq_zero]
          simp [List.mem_filter]
        · intro l hl
          simp [hl, List.mem_filter]
    · have hm2 : (ivi.surf s).view_is_mapped = false := by simpa using hm
      have hl := hlink hm2
      by_cases hr : (ivi.surf s).role = .DESKTOP
      · simp [set_surf, set_out, weston_layer_entry_remove, weston_layer_entry_insert,
          Function.update, hact, hm2, hr, List.mem_filter, has, hsa, hv, hv.symm,
          hc2 _ (hl _)]
        refine ⟨?_, ?_⟩
        · intro l
          split <;> simp [hv, List.mem_filter]
        · intro l hl2
          simp [hl2, List.mem_filter, hl l]
      · simp [set_surf, set_out, weston_layer_entry_remove, weston_layer_entry_insert,
          Function.update, hact, hm2, hr, List.mem_filter, has, hsa, hv, hv.symm,
          hc2 _ (hl _)]
        refine ⟨?_, ?_⟩
        · intro l
          split <;> simp [hv, List.mem_filter]
        · intro l hl2
          simp [hl2, List.mem_filter, hl l]

/-- Scenario: "app" is the active surface of output 0 and surface 5 of "hvac" is mapped
in the hidden layer; the completion of its activation makes it the active and "app" the
previous active surface, with the view of surface 5 linked once in the normal layer. -/
theorem activate_complete_scenario :
    ((scenario_hvac_pending.out 0).active, (scenario_hvac_pending.surf 5).view_is_mapped)
      = (some 4, true) ∧
    ((ivi_layout_activate_complete scenario_hvac_pending 0 5).out 0).active = some 5 ∧
    ((ivi_layout_activate_complete scenario_hvac_pending 0 5).out 0).previous_active
      = (scenario_hvac_pending.out 0).active ∧
    view_links (ivi_layout_activate_complete scenario_hvac_pending 0 5) layer_id.normal 5 = 1 :=
  ⟨by decide,
    (activate_complete_spec scenario_hvac_pending 0 5 (by decide)
      (fun h => absurd h (by decide))).1,
    (activate_complete_spec scenario_hvac_pending 0 5 (by decide)
      (fun h => absurd h (by decide))).2.1,
    (activate_complete_spec scenario_hvac_pending 0 5 (by decide)
      (fun h => absurd h (by decide))).2.2.2.2.1.1⟩

/-- C25, the code at two failing inputs. On a 1920x1080 output at the origin with a top
panel of height 47 the usable area {0, 47, 1920, 1033} has an odd height: a horizontal
split requests the height 517 for the split surface at y = 47 and leaves the area
{0, 563, 1920, 517}, so the two regions share the row 563 and their heights add up to
1034. On a 1920x1080 output at x = 1920 with a top panel of height 48, a vertical split
places the split surface at x = 2880 and requests the width -960 for it. -/
theorem split_geometry_overlap_and_negative_width :
    (scenario_split_commit ⟨0, 0, 1920, 1080⟩ 47 AGL_SHELL_DESKTOP_APP_ROLE_SPLIT_HORIZONTAL).map
        (fun r => ((r.surf 3).role, (r.out 0).area_saved, (r.surf 3).req_size,
          (r.surf 3).view_pos, (r.out 0).area))
      = some (.SPLIT_H, ⟨0, 47, 1920, 1033⟩, some (1920, 517), (0, 47), ⟨0, 563, 1920, 517⟩) ∧
    (scenario_split_commit ⟨1920, 0, 1920, 1080⟩ 48 AGL_SHELL_DESKTOP_APP_ROLE_SPLIT_VERTICAL).map
        (fun r => ((r.surf 3).role, (r.out 0).area_saved, (r.surf 3).req_size,
          (r.surf 3).view_pos, (r.out 0).area))
      = some (.SPLIT_V, ⟨0, 48, 1920, 1032⟩, some (-960, 1032), (2880, 48),
          ⟨0, 48, 960, 1032⟩) := by
  refine ⟨by rfl, by rfl⟩

end Ivi
